import Mathlib

/-!
# Zilliqa: DS-block reception, consensus messages and block codecs

A shallow embedding of `src/libNode/DSBlockProcessing.cpp` and of the parts of
`src/libMessage/Messenger.cpp` that build and check consensus announcements, read the
backup and collective-signature messages, and encode and decode blocks, block headers
and hashes, followed by the theorems that settle the specification's claims about them.

Conventions
* `vector<unsigned char>` is `Bytes = List Nat`; machine integers are `Nat`,
  reduced explicitly where the C++ type wraps or narrows.
* Stateful member functions take and return a `NodeState`.
* Code that lives outside the translated files (crypto, protobuf runtime,
  collaborators of `Node`) is a field of an environment record.
-/

namespace Zilliqa

/-! ## Basic data -/

/-- Byte strings, the C++ `vector<unsigned char>` and protobuf `bytes`. -/
abbrev Bytes := List Nat

/-- Width of `uint64_t` arithmetic. -/
def UINT64_MOD : Nat := 2 ^ 64

/-- Width of `uint16_t` arithmetic. -/
def UINT16_MOD : Nat := 2 ^ 16

/-- Schnorr public key (`libCrypto/Schnorr.h`); `key` stands for the curve point and
carries the ordering `std::map<PubKey, Peer>` iterates in. -/
structure PubKey where
  key : Nat
deriving DecidableEq, Repr

/-- Schnorr private key. -/
structure PrivKey where
  key : Nat
deriving DecidableEq, Repr

/-- Schnorr signature. -/
structure Signature where
  sig : Nat
deriving DecidableEq, Repr

/-- The default-constructed `PubKey()`. -/
def PubKey.default : PubKey := ⟨0⟩

/-- The default-constructed `Signature()`. -/
def Signature.default : Signature := ⟨0⟩

/-- Network identity of a node (`libNetwork/Peer.h`): IP address and listening port. -/
structure Peer where
  m_ipAddress : Nat
  m_listenPortHost : Nat
deriving DecidableEq, Repr

/-- The default-constructed `Peer()`: both members zero. -/
def Peer.default : Peer := ⟨0, 0⟩

/-- Software version descriptor (`SWInfo`). -/
structure SWInfo where
  version : Nat
deriving DecidableEq, Repr

/-- The default-constructed `SWInfo()`. -/
def SWInfo.default : SWInfo := ⟨0⟩

/-- Width in bytes of the fixed-size hash types (`BlockHash`, `ShardingHash`,
`TxSharingHash`, `CommitteeHash`, ...). -/
def HASH_SIZE : Nat := 32

/-- The hash set of a DS block header. -/
structure DSBlockHashSet where
  m_shardingHash : Bytes
  m_txSharingHash : Bytes
  m_reservedField : Bytes
deriving DecidableEq, Repr

/-- The class `DSBlockHeader`; `m_PoWDSWinners` is the `std::map<PubKey, Peer>` as the
list of its entries in iteration (ascending key) order. -/
structure DSBlockHeader where
  m_dsDifficulty : Nat
  m_difficulty : Nat
  m_prevHash : Bytes
  m_leaderPubKey : PubKey
  m_blockNum : Nat
  m_timestamp : Nat
  m_swInfo : SWInfo
  m_PoWDSWinners : List (PubKey × Peer)
  m_hashset : DSBlockHashSet
  m_committeeHash : Bytes
deriving DecidableEq, Repr

/-- The two-round co-signature of a block. -/
structure CoSignatures where
  m_CS1 : Signature
  m_B1 : List Bool
  m_CS2 : Signature
  m_B2 : List Bool
deriving DecidableEq, Repr

/-- The class `DSBlock`: header, co-signatures and the separately stored block hash. -/
structure DSBlock where
  m_header : DSBlockHeader
  m_cosigs : CoSignatures
  m_blockHash : Bytes
deriving DecidableEq, Repr

/-- The class `VCBlockHeader`. -/
structure VCBlockHeader where
  m_VieWChangeDSEpochNo : Nat
  m_VieWChangeEpochNo : Nat
  m_ViewChangeState : Nat
  m_CandidateLeaderIndex : Nat
  m_CandidateLeaderNetworkInfo : Peer
  m_CandidateLeaderPubKey : PubKey
  m_VCCounter : Nat
  m_Timestamp : Nat
  m_committeeHash : Bytes
deriving DecidableEq, Repr

/-- The class `VCBlock`. -/
structure VCBlock where
  m_header : VCBlockHeader
  m_cosigs : CoSignatures
  m_blockHash : Bytes
deriving DecidableEq, Repr

/-- One shard: the ordered `(PubKey, Peer, reputation)` tuples. -/
abbrev Shard := List (PubKey × Peer × Nat)

/-- All shards, shard id = position. -/
abbrev DequeOfShard := List Shard

/-- The DS committee deque, leader at the head. -/
abbrev DSCommittee := List (PubKey × Peer)

/-! ## Collaborators outside the translated files -/

/-- The `Serializable` interface of a value class, as `Messenger.cpp` uses it:
`Serialize` is `x.Serialize(tmp, 0)` on an empty `tmp`; `Deserialize src old` is the
value an object holding `old` has after `Deserialize(src, 0)` (whose status the callers
ignore). -/
structure Serializable (α : Type) where
  Serialize : α → Bytes
  Deserialize : Bytes → α → α

/-- The value classes and constants of `common/` and `libCrypto/` that the messenger
relies on. -/
structure Common where
  PubKey : Serializable PubKey
  Peer : Serializable Peer
  Signature : Serializable Signature
  SWInfo : Serializable SWInfo
  RESERVED_FIELD_SIZE : Nat

/-- The Schnorr signer: `Sign` returns the signature when it succeeds. -/
structure Schnorr where
  Sign : Bytes → PrivKey → PubKey → Option Signature
  Verify : Bytes → Signature → PubKey → Bool

/-- The protobuf runtime for one generated message class: `Serialize m` are the
`ByteSize()` bytes `SerializeToArray` writes, `Parse` is `ParseFromArray` on a fresh
message (its status is ignored by the callers, the message is what was parsed), and
`IsInitialized` tells whether all required fields are present. -/
structure ProtoMessage (M : Type) where
  Serialize : M → Bytes
  Parse : Bytes → M
  IsInitialized : M → Bool

/-- The generated `ByteSize()`. -/
def ProtoMessage.ByteSize {M : Type} (pm : ProtoMessage M) (m : M) : Nat :=
  (pm.Serialize m).length

/-! ## Protobuf message classes (`ZilliqaMessage.pb.h`)

Singular fields are `Option`s (presence is tracked, the getter of an absent field
returns the default); repeated fields are lists. -/

/-- Message `ByteArray`. -/
structure ByteArray where
  data : Option Bytes := none
deriving DecidableEq, Repr, Inhabited

/-- Getter `data()`. -/
def ByteArray.getData (b : ByteArray) : Bytes := b.data.getD []

/-- Message `ProtoCommittee`. -/
structure ProtoCommittee where
  members : List ByteArray := []
deriving DecidableEq, Repr, Inhabited

/-- Message `ProtoShardingStructure.Member`. -/
structure ProtoShardingStructure.Member where
  pubkey : Option ByteArray := none
  peerinfo : Option ByteArray := none
  reputation : Option Nat := none
deriving DecidableEq, Repr, Inhabited

/-- Message `ProtoShardingStructure.Shard`. -/
structure ProtoShardingStructure.Shard where
  members : List ProtoShardingStructure.Member := []
deriving DecidableEq, Repr, Inhabited

/-- Message `ProtoShardingStructure`. -/
structure ProtoShardingStructure where
  shards : List ProtoShardingStructure.Shard := []
deriving DecidableEq, Repr, Inhabited

/-- Message `ProtoTxSharingAssignments.AssignedNodes`. -/
structure ProtoTxSharingAssignments.AssignedNodes where
  receivers : List ByteArray := []
  senders : List ByteArray := []
deriving DecidableEq, Repr, Inhabited

/-- Message `ProtoTxSharingAssignments`. -/
structure ProtoTxSharingAssignments where
  dsnodes : List ByteArray := []
  shardnodes : List ProtoTxSharingAssignments.AssignedNodes := []
deriving DecidableEq, Repr, Inhabited

/-- Message `CoSignatures`, nested identically in every block message. -/
structure ProtoCoSignatures where
  cs1 : Option ByteArray := none
  b1 : List Bool := []
  cs2 : Option ByteArray := none
  b2 : List Bool := []
deriving DecidableEq, Repr, Inhabited

/-- Message `ProtoDSBlock.DSBlockHashSet`. -/
structure ProtoDSBlock.DSBlockHashSet where
  shardinghash : Option Bytes := none
  txsharinghash : Option Bytes := none
  reservedfield : Option Bytes := none
deriving DecidableEq, Repr, Inhabited

/-- Message `ProtoDSBlock.DSBlockHeader.PowDSWinners`. -/
structure ProtoDSBlock.DSBlockHeader.PowDSWinners where
  key : Option ByteArray := none
  val : Option ByteArray := none
deriving DecidableEq, Repr, Inhabited

/-- Message `ProtoDSBlock.DSBlockHeader`. -/
structure ProtoDSBlock.DSBlockHeader where
  dsdifficulty : Option Nat := none
  difficulty : Option Nat := none
  prevhash : Option Bytes := none
  leaderpubkey : Option ByteArray := none
  blocknum : Option Nat := none
  timestamp : Option ByteArray := none
  swinfo : Option ByteArray := none
  dswinners : List ProtoDSBlock.DSBlockHeader.PowDSWinners := []
  hash : Option ProtoDSBlock.DSBlockHashSet := none
  committeehash : Option Bytes := none
deriving DecidableEq, Repr, Inhabited

/-- Message `ProtoDSBlock`. -/
structure ProtoDSBlock where
  header : Option ProtoDSBlock.DSBlockHeader := none
  cosigs : Option ProtoCoSignatures := none
  blockhash : Option Bytes := none
deriving DecidableEq, Repr, Inhabited

/-- Message `ProtoVCBlock.VCBlockHeader`. -/
structure ProtoVCBlock.VCBlockHeader where
  viewchangedsepochno : Option Nat := none
  viewchangeepochno : Option Nat := none
  viewchangestate : Option Nat := none
  candidateleaderindex : Option Nat := none
  candidateleadernetworkinfo : Option ByteArray := none
  candidateleaderpubkey : Option ByteArray := none
  vccounter : Option Nat := none
  timestamp : Option ByteArray := none
  committeehash : Option Bytes := none
deriving DecidableEq, Repr, Inhabited

/-- Message `ProtoVCBlock`. -/
structure ProtoVCBlock where
  header : Option ProtoVCBlock.VCBlockHeader := none
  cosigs : Option ProtoCoSignatures := none
  blockhash : Option Bytes := none
deriving DecidableEq, Repr, Inhabited

/-- Message `ProtoMicroBlock.MicroBlockHeader`. -/
structure ProtoMicroBlock.MicroBlockHeader where
  type : Option Nat := none
  version : Option Nat := none
  shardid : Option Nat := none
  gaslimit : Option ByteArray := none
  gasused : Option ByteArray := none
  prevhash : Option Bytes := none
  blocknum : Option Nat := none
  timestamp : Option ByteArray := none
  txroothash : Option Bytes := none
  numtxs : Option Nat := none
  minerpubkey : Option ByteArray := none
  dsblocknum : Option Nat := none
  dsblockheader : Option Bytes := none
  statedeltahash : Option Bytes := none
  tranreceipthash : Option Bytes := none
  committeehash : Option Bytes := none
deriving DecidableEq, Repr, Inhabited

/-- Message `ProtoMicroBlock`. -/
structure ProtoMicroBlock where
  header : Option ProtoMicroBlock.MicroBlockHeader := none
  tranhashes : List Bytes := []
  cosigs : Option ProtoCoSignatures := none
deriving DecidableEq, Repr, Inhabited

/-- Message `ProtoTxBlock.TxBlockHashSet`. -/
structure ProtoTxBlock.TxBlockHashSet where
  txroothash : Option Bytes := none
  stateroothash : Option Bytes := none
  deltaroothash : Option Bytes := none
  statedeltahash : Option Bytes := none
  tranreceiptroothash : Option Bytes := none
deriving DecidableEq, Repr, Inhabited

/-- Message `ProtoTxBlock.MicroBlockHashSet`. -/
structure ProtoTxBlock.MicroBlockHashSet where
  txroothash : Option Bytes := none
  statedeltahash : Option Bytes := none
  tranreceipthash : Option Bytes := none
deriving DecidableEq, Repr, Inhabited

/-- Message `ProtoTxBlock.TxBlockHeader`. -/
structure ProtoTxBlock.TxBlockHeader where
  type : Option Nat := none
  version : Option Nat := none
  gaslimit : Option ByteArray := none
  gasused : Option ByteArray := none
  prevhash : Option Bytes := none
  blocknum : Option Nat := none
  timestamp : Option ByteArray := none
  hash : Option ProtoTxBlock.TxBlockHashSet := none
  numtxs : Option Nat := none
  nummicroblockhashes : Option Nat := none
  minerpubkey : Option ByteArray := none
  dsblocknum : Option Nat := none
  dsblockheader : Option Bytes := none
  committeehash : Option Bytes := none
deriving DecidableEq, Repr, Inhabited

/-- Message `ProtoTxBlock`. -/
structure ProtoTxBlock where
  header : Option ProtoTxBlock.TxBlockHeader := none
  ismicroblockempty : List Bool := []
  microblockhashes : List ProtoTxBlock.MicroBlockHashSet := []
  shardids : List Nat := []
  cosigs : Option ProtoCoSignatures := none
  blockhash : Option Bytes := none
deriving DecidableEq, Repr, Inhabited

/-- Message `DSDSBlockAnnouncement`. -/
structure DSDSBlockAnnouncement where
  dsblock : Option ProtoDSBlock := none
  sharding : Option ProtoShardingStructure := none
  assignments : Option ProtoTxSharingAssignments := none
deriving DecidableEq, Repr, Inhabited

/-- Message `DSFinalBlockAnnouncement`. -/
structure DSFinalBlockAnnouncement where
  txblock : Option ProtoTxBlock := none
deriving DecidableEq, Repr, Inhabited

/-- Message `DSVCBlockAnnouncement`: the VC block travels as a serialized byte array. -/
structure DSVCBlockAnnouncement where
  vcblock : Option ByteArray := none
deriving DecidableEq, Repr, Inhabited

/-- Message `NodeMicroBlockAnnouncement`. -/
structure NodeMicroBlockAnnouncement where
  microblock : Option ProtoMicroBlock := none
deriving DecidableEq, Repr, Inhabited

/-- Message `NodeFallbackBlockAnnouncement`: the block travels as a serialized byte
array. -/
structure NodeFallbackBlockAnnouncement where
  fallbackblock : Option ByteArray := none
deriving DecidableEq, Repr, Inhabited

/-- Message `ConsensusAnnouncement.ConsensusInfo`. -/
structure ConsensusAnnouncement.ConsensusInfo where
  consensusid : Option Nat := none
  blocknumber : Option Nat := none
  blockhash : Option Bytes := none
  leaderid : Option Nat := none
deriving DecidableEq, Repr, Inhabited

/-- The `oneof announcement` of `ConsensusAnnouncement`; the constructor is the value of
`announcement_case()`. -/
inductive ConsensusAnnouncement.Announcement where
  | ANNOUNCEMENT_NOT_SET
  | kDsblock (m : DSDSBlockAnnouncement)
  | kMicroblock (m : NodeMicroBlockAnnouncement)
  | kFinalblock (m : DSFinalBlockAnnouncement)
  | kVcblock (m : DSVCBlockAnnouncement)
  | kFallbackblock (m : NodeFallbackBlockAnnouncement)
deriving DecidableEq, Repr

/-- Message `ConsensusAnnouncement`. -/
structure ConsensusAnnouncement where
  consensusinfo : Option ConsensusAnnouncement.ConsensusInfo := none
  signature : Option ByteArray := none
  announcement : ConsensusAnnouncement.Announcement :=
    ConsensusAnnouncement.Announcement.ANNOUNCEMENT_NOT_SET
deriving DecidableEq, Repr

/-- Message `NodeDSBlock`, the DS-block reception message. -/
structure NodeDSBlock where
  shardid : Option Nat := none
  dsblock : Option ProtoDSBlock := none
  vcblocks : List ProtoVCBlock := []
  sharding : Option ProtoShardingStructure := none
  assignments : Option ProtoTxSharingAssignments := none
deriving DecidableEq, Repr, Inhabited

/-- The protobuf runtime for the announcement messages. -/
structure AnnouncementProto where
  ConsensusInfo : ProtoMessage ConsensusAnnouncement.ConsensusInfo
  DSDSBlockAnnouncement : ProtoMessage DSDSBlockAnnouncement
  NodeMicroBlockAnnouncement : ProtoMessage NodeMicroBlockAnnouncement
  DSFinalBlockAnnouncement : ProtoMessage DSFinalBlockAnnouncement
  DSVCBlockAnnouncement : ProtoMessage DSVCBlockAnnouncement
  NodeFallbackBlockAnnouncement : ProtoMessage NodeFallbackBlockAnnouncement
  ConsensusAnnouncement : ProtoMessage ConsensusAnnouncement

/-! ## `Messenger.cpp`: helpers -/

/-- Byte width of a `uint256_t` on the wire. -/
def UINT256_SIZE : Nat := 32

/-- Modelled from the spec: `Serializable::SetNumber<T>(dst, 0, number, S)` on an empty
`dst` (`common/Serializable.h` is not under src). The number is written as a fixed-width
big-endian byte array of the declared byte length `S`: byte `i` is
`(number >> 8 * (S - 1 - i)) & 0xFF`. -/
def SetNumber (number : Nat) (S : Nat) : Bytes :=
  (List.range S).map (fun i => (number / 256 ^ (S - 1 - i)) % 256)

/-- Modelled from the spec: `Serializable::GetNumber<T>(src, 0, S)`, the big-endian value
of the first `S` bytes; when fewer than `S` bytes are available the result stays `0`. -/
def GetNumber (src : Bytes) (S : Nat) : Nat :=
  if S ≤ src.length then (src.take S).foldl (fun result b => result * 256 + b) 0 else 0

/-- The idiom `copy(src.begin(), src.begin() + min(src.size(), dst.size), dst.begin())`
into a freshly constructed (zero-filled) fixed-width destination of `dstSize` bytes. -/
def copyToFixed (src : Bytes) (dstSize : Nat) : Bytes :=
  src.take (min src.length dstSize) ++ List.replicate (dstSize - min src.length dstSize) 0

/-- The helper `SerializableToProtobufByteArray`. -/
def SerializableToProtobufByteArray {α : Type} (c : Serializable α) (serializable : α) :
    ByteArray :=
  { data := some (c.Serialize serializable) }

/-- The helper `ProtobufByteArrayToSerializable`: `old` is the value the destination
object holds before the call. -/
def ProtobufByteArrayToSerializable {α : Type} (c : Serializable α) (byteArray : ByteArray)
    (old : α) : α :=
  c.Deserialize byteArray.getData old

/-- The helper `NumberToProtobufByteArray<T, S>`. -/
def NumberToProtobufByteArray (number : Nat) (S : Nat) : ByteArray :=
  { data := some (SetNumber number S) }

/-- The helper `ProtobufByteArrayToNumber<T, S>`. -/
def ProtobufByteArrayToNumber (byteArray : ByteArray) (S : Nat) : Nat :=
  GetNumber byteArray.getData S

/-- The C++ `vector::resize(n)` with zero fill. -/
def resize (v : Bytes) (n : Nat) : Bytes :=
  v.take n ++ List.replicate (n - v.length) 0

/-- The template `SerializeToArray(protoMessage, dst, offset)`: grows `dst` when fewer
than `ByteSize()` bytes are available after `offset` and writes the encoding at `offset`.
Returns the status and the new `dst`. The runtime call itself only fails for messages
longer than `INT_MAX` bytes, which are not represented here. The `int`
`length_available` holds the difference `dst.size() - offset` itself, which is what the
source computes while that difference fits a 32-bit `int` and message lengths stay
below `2 ^ 31` (`SerializeToArray_narrowed_eq`); `SerializeToArray.narrowed` is the template with the
narrowing to 32 bits. -/
def SerializeToArray {M : Type} (pm : ProtoMessage M) (protoMessage : M) (dst : Bytes)
    (offset : Nat) : Bool × Bytes :=
  let length_available : Int := (dst.length : Int) - (offset : Int)
  let dst1 :=
    if length_available < (pm.ByteSize protoMessage : Int) then
      resize dst (((dst.length : Int) + (pm.ByteSize protoMessage : Int)
        - length_available).toNat)
    else dst
  (true, dst1.take offset ++ pm.Serialize protoMessage
    ++ dst1.drop (offset + pm.ByteSize protoMessage))

/-- The value an `int` holds after a wider integer is stored in it: the low 32 bits in
two's complement. -/
def toInt32 (v : Int) : Int := (v + 2 ^ 31) % 2 ^ 32 - 2 ^ 31

/-- The template `SerializeToArray(protoMessage, dst, offset)` with the integer widths of
the source: `offset` is an `unsigned int`, `length_available` is the `size_t`
difference `dst.size() - offset` stored in an `int`, and the new size `dst.size() + ByteSize() - length_available` is computed in
`size_t`. The runtime then writes `ByteSize()` bytes at `dst.data() + offset`; bytes that
fall past the end of `dst` are not part of the vector. Returns the status and the new
`dst`. -/
def SerializeToArray.narrowed {M : Type} (pm : ProtoMessage M) (protoMessage : M)
    (dst : Bytes) (offset : Nat) : Bool × Bytes :=
  let length_available : Int := toInt32 ((dst.length : Int) - (offset : Int))
  let dst1 :=
    if length_available < (pm.ByteSize protoMessage : Int) then
      resize dst ((((dst.length : Int) + (pm.ByteSize protoMessage : Int)
        - length_available) % 2 ^ 64).toNat)
    else dst
  (true, dst1.take offset ++ (pm.Serialize protoMessage).take (dst1.length - offset)
    ++ dst1.drop (offset + pm.ByteSize protoMessage))

/-- The function `DSCommitteeToProtoCommittee`. -/
def DSCommitteeToProtoCommittee (c : Common) (dsCommittee : DSCommittee) : ProtoCommittee :=
  { members := dsCommittee.map (fun node => SerializableToProtobufByteArray c.PubKey node.1) }

/-- The function `ShardToProtoCommittee`. -/
def ShardToProtoCommittee (c : Common) (shard : Shard) : ProtoCommittee :=
  { members := shard.map (fun node => SerializableToProtobufByteArray c.PubKey node.1) }

/-- The function `ShardingStructureToProtobuf` on a fresh message. -/
def ShardingStructureToProtobuf (c : Common) (shards : DequeOfShard) :
    ProtoShardingStructure :=
  { shards := shards.map (fun shard =>
      { members := shard.map (fun node =>
          { pubkey := some (SerializableToProtobufByteArray c.PubKey node.1)
            peerinfo := some (SerializableToProtobufByteArray c.Peer node.2.1)
            reputation := some node.2.2 }) }) }

/-- The function `ProtobufToShardingStructure`, appending to `shards`. -/
def ProtobufToShardingStructure (c : Common) (protoShardingStructure : ProtoShardingStructure)
    (shards : DequeOfShard) : DequeOfShard :=
  shards ++ protoShardingStructure.shards.map (fun proto_shard =>
    proto_shard.members.map (fun proto_member =>
      (ProtobufByteArrayToSerializable c.PubKey (proto_member.pubkey.getD default)
         PubKey.default,
       ProtobufByteArrayToSerializable c.Peer (proto_member.peerinfo.getD default)
         Peer.default,
       proto_member.reputation.getD 0)))

/-- The loop body of `TxSharingAssignmentsToProtobuf` for shard `i`; `shardSenders.at(i)`
throws when `i` is out of range, which is `none`. -/
def TxSharingAssignmentsToProtobuf.shardnode (c : Common) (receivers : List Peer)
    (senders : Option (List Peer)) : Option ProtoTxSharingAssignments.AssignedNodes :=
  match senders with
  | none => none
  | some snd =>
    some { receivers := receivers.map (SerializableToProtobufByteArray c.Peer)
           senders := snd.map (SerializableToProtobufByteArray c.Peer) }

/-- The function `TxSharingAssignmentsToProtobuf` on a fresh message; `none` when
`shardSenders.at(i)` throws `std::out_of_range`. -/
def TxSharingAssignmentsToProtobuf (c : Common) (dsReceivers : List Peer)
    (shardReceivers shardSenders : List (List Peer)) : Option ProtoTxSharingAssignments :=
  ((List.range shardReceivers.length).mapM (fun i =>
      TxSharingAssignmentsToProtobuf.shardnode c (shardReceivers.getD i []) shardSenders[i]?)).map
    (fun nodes =>
      { dsnodes := dsReceivers.map (SerializableToProtobufByteArray c.Peer)
        shardnodes := nodes })

/-- The function `ProtobufToTxSharingAssignments`, appending to the three outputs. -/
def ProtobufToTxSharingAssignments (c : Common)
    (protoTxSharingAssignments : ProtoTxSharingAssignments)
    (dsReceivers : List Peer) (shardReceivers shardSenders : List (List Peer)) :
    List Peer × List (List Peer) × List (List Peer) :=
  (dsReceivers ++ protoTxSharingAssignments.dsnodes.map
      (fun dsnode => ProtobufByteArrayToSerializable c.Peer dsnode Peer.default),
   shardReceivers ++ protoTxSharingAssignments.shardnodes.map (fun proto_shard =>
      proto_shard.receivers.map
        (fun receiver => ProtobufByteArrayToSerializable c.Peer receiver Peer.default)),
   shardSenders ++ protoTxSharingAssignments.shardnodes.map (fun proto_shard =>
      proto_shard.senders.map
        (fun sender => ProtobufByteArrayToSerializable c.Peer sender Peer.default)))

/-- The function `DSBlockHeaderToProtobuf` on a fresh message. -/
def DSBlockHeaderToProtobuf (c : Common) (dsBlockHeader : DSBlockHeader) :
    ProtoDSBlock.DSBlockHeader :=
  { dsdifficulty := some dsBlockHeader.m_dsDifficulty
    difficulty := some dsBlockHeader.m_difficulty
    prevhash := some dsBlockHeader.m_prevHash
    leaderpubkey := some (SerializableToProtobufByteArray c.PubKey dsBlockHeader.m_leaderPubKey)
    blocknum := some dsBlockHeader.m_blockNum
    timestamp := some (NumberToProtobufByteArray dsBlockHeader.m_timestamp UINT256_SIZE)
    swinfo := some (SerializableToProtobufByteArray c.SWInfo dsBlockHeader.m_swInfo)
    dswinners := dsBlockHeader.m_PoWDSWinners.map (fun winner =>
      { key := some (SerializableToProtobufByteArray c.PubKey winner.1)
        val := some (SerializableToProtobufByteArray c.Peer winner.2) })
    hash := some
      { shardinghash := some dsBlockHeader.m_hashset.m_shardingHash
        txsharinghash := some dsBlockHeader.m_hashset.m_txSharingHash
        reservedfield := some dsBlockHeader.m_hashset.m_reservedField }
    committeehash := some dsBlockHeader.m_committeeHash }

/-- The co-signature part shared by the `...BlockToProtobuf` functions. -/
def CoSignaturesToProtobuf (c : Common) (cosigs : CoSignatures) : ProtoCoSignatures :=
  { cs1 := some (SerializableToProtobufByteArray c.Signature cosigs.m_CS1)
    b1 := cosigs.m_B1
    cs2 := some (SerializableToProtobufByteArray c.Signature cosigs.m_CS2)
    b2 := cosigs.m_B2 }

/-- The function `DSBlockToProtobuf` on a fresh message. -/
def DSBlockToProtobuf (c : Common) (dsBlock : DSBlock) : ProtoDSBlock :=
  { header := some (DSBlockHeaderToProtobuf c dsBlock.m_header)
    cosigs := some (CoSignaturesToProtobuf c dsBlock.m_cosigs)
    blockhash := some dsBlock.m_blockHash }

/-- The assignment `powDSWinners[key] = val` on the `std::map`, kept as its entry list
in ascending key order. -/
def mapAssign : List (PubKey × Peer) → PubKey → Peer → List (PubKey × Peer)
  | [], k, v => [(k, v)]
  | (k', v') :: rest, k, v =>
    if k.key < k'.key then (k, v) :: (k', v') :: rest
    else if k.key = k'.key then (k', v) :: rest
    else (k', v') :: mapAssign rest k v

/-- The loop of `ProtobufToDSBlockHeader` that fills `powDSWinners`; the two temporaries
are declared once outside the loop and are handed from one iteration to the next. -/
def ProtobufToDSBlockHeader.winners (c : Common)
    (dswinners : List ProtoDSBlock.DSBlockHeader.PowDSWinners) : List (PubKey × Peer) :=
  (dswinners.foldl (fun (acc : List (PubKey × Peer) × PubKey × Peer) dswinner =>
      let tempPubKey :=
        ProtobufByteArrayToSerializable c.PubKey (dswinner.key.getD default) acc.2.1
      let tempWinnerNetworkInfo :=
        ProtobufByteArrayToSerializable c.Peer (dswinner.val.getD default) acc.2.2
      (mapAssign acc.1 tempPubKey tempWinnerNetworkInfo, tempPubKey, tempWinnerNetworkInfo))
    ([], PubKey.default, Peer.default)).1

/-- The function `ProtobufToDSBlockHeader`. The two difficulties pass through the
`uint8_t` constructor parameters. -/
def ProtobufToDSBlockHeader (c : Common) (protoDSBlockHeader : ProtoDSBlock.DSBlockHeader) :
    DSBlockHeader :=
  let protoDSBlockHeaderHash := protoDSBlockHeader.hash.getD default
  { m_dsDifficulty := protoDSBlockHeader.dsdifficulty.getD 0 % 256
    m_difficulty := protoDSBlockHeader.difficulty.getD 0 % 256
    m_prevHash := copyToFixed (protoDSBlockHeader.prevhash.getD []) HASH_SIZE
    m_leaderPubKey :=
      ProtobufByteArrayToSerializable c.PubKey (protoDSBlockHeader.leaderpubkey.getD default)
        PubKey.default
    m_blockNum := protoDSBlockHeader.blocknum.getD 0
    m_timestamp :=
      ProtobufByteArrayToNumber (protoDSBlockHeader.timestamp.getD default) UINT256_SIZE
    m_swInfo :=
      ProtobufByteArrayToSerializable c.SWInfo (protoDSBlockHeader.swinfo.getD default)
        SWInfo.default
    m_PoWDSWinners := ProtobufToDSBlockHeader.winners c protoDSBlockHeader.dswinners
    m_hashset :=
      { m_shardingHash := copyToFixed (protoDSBlockHeaderHash.shardinghash.getD []) HASH_SIZE
        m_txSharingHash := copyToFixed (protoDSBlockHeaderHash.txsharinghash.getD []) HASH_SIZE
        m_reservedField :=
          copyToFixed (protoDSBlockHeaderHash.reservedfield.getD []) c.RESERVED_FIELD_SIZE }
    m_committeeHash := copyToFixed (protoDSBlockHeader.committeehash.getD []) HASH_SIZE }

/-- The co-signature part shared by the `ProtobufTo...Block` functions: the bitmaps are
resized to the wire length and copied, the signatures deserialized into fresh objects. -/
def ProtobufToCoSignatures (c : Common) (cosigs : ProtoCoSignatures) : CoSignatures :=
  { m_CS1 := ProtobufByteArrayToSerializable c.Signature (cosigs.cs1.getD default)
      Signature.default
    m_B1 := cosigs.b1
    m_CS2 := ProtobufByteArrayToSerializable c.Signature (cosigs.cs2.getD default)
      Signature.default
    m_B2 := cosigs.b2 }

/-- The function `ProtobufToDSBlock`. -/
def ProtobufToDSBlock (c : Common) (protoDSBlock : ProtoDSBlock) : DSBlock :=
  { m_header := ProtobufToDSBlockHeader c (protoDSBlock.header.getD default)
    m_cosigs := ProtobufToCoSignatures c (protoDSBlock.cosigs.getD default)
    m_blockHash := copyToFixed (protoDSBlock.blockhash.getD []) HASH_SIZE }

/-- The function `VCBlockHeaderToProtobuf` on a fresh message. -/
def VCBlockHeaderToProtobuf (c : Common) (vcBlockHeader : VCBlockHeader) :
    ProtoVCBlock.VCBlockHeader :=
  { viewchangedsepochno := some vcBlockHeader.m_VieWChangeDSEpochNo
    viewchangeepochno := some vcBlockHeader.m_VieWChangeEpochNo
    viewchangestate := some vcBlockHeader.m_ViewChangeState
    candidateleaderindex := some vcBlockHeader.m_CandidateLeaderIndex
    candidateleadernetworkinfo :=
      some (SerializableToProtobufByteArray c.Peer vcBlockHeader.m_CandidateLeaderNetworkInfo)
    candidateleaderpubkey :=
      some (SerializableToProtobufByteArray c.PubKey vcBlockHeader.m_CandidateLeaderPubKey)
    vccounter := some vcBlockHeader.m_VCCounter
    timestamp := some (NumberToProtobufByteArray vcBlockHeader.m_Timestamp UINT256_SIZE)
    committeehash := some vcBlockHeader.m_committeeHash }

/-- The function `VCBlockToProtobuf` on a fresh message. -/
def VCBlockToProtobuf (c : Common) (vcBlock : VCBlock) : ProtoVCBlock :=
  { header := some (VCBlockHeaderToProtobuf c vcBlock.m_header)
    cosigs := some (CoSignaturesToProtobuf c vcBlock.m_cosigs)
    blockhash := some vcBlock.m_blockHash }

/-- The function `ProtobufToVCBlockHeader`. -/
def ProtobufToVCBlockHeader (c : Common) (protoVCBlockHeader : ProtoVCBlock.VCBlockHeader) :
    VCBlockHeader :=
  { m_VieWChangeDSEpochNo := protoVCBlockHeader.viewchangedsepochno.getD 0
    m_VieWChangeEpochNo := protoVCBlockHeader.viewchangeepochno.getD 0
    m_ViewChangeState := protoVCBlockHeader.viewchangestate.getD 0
    m_CandidateLeaderIndex := protoVCBlockHeader.candidateleaderindex.getD 0
    m_CandidateLeaderNetworkInfo :=
      ProtobufByteArrayToSerializable c.Peer
        (protoVCBlockHeader.candidateleadernetworkinfo.getD default) Peer.default
    m_CandidateLeaderPubKey :=
      ProtobufByteArrayToSerializable c.PubKey
        (protoVCBlockHeader.candidateleaderpubkey.getD default) PubKey.default
    m_VCCounter := protoVCBlockHeader.vccounter.getD 0
    m_Timestamp :=
      ProtobufByteArrayToNumber (protoVCBlockHeader.timestamp.getD default) UINT256_SIZE
    m_committeeHash := copyToFixed (protoVCBlockHeader.committeehash.getD []) HASH_SIZE }

/-- The function `ProtobufToVCBlock`. -/
def ProtobufToVCBlock (c : Common) (protoVCBlock : ProtoVCBlock) : VCBlock :=
  { m_header := ProtobufToVCBlockHeader c (protoVCBlock.header.getD default)
    m_cosigs := ProtobufToCoSignatures c (protoVCBlock.cosigs.getD default)
    m_blockHash := copyToFixed (protoVCBlock.blockhash.getD []) HASH_SIZE }

/-! ## `Messenger.cpp`: consensus announcements -/

/-- The setters at the head of `SetConsensusAnnouncementCore`:
`mutable_consensusinfo()` creates the sub-message when absent and the four fields are
set. -/
def SetConsensusAnnouncementCore.setInfo (announcement : ConsensusAnnouncement)
    (consensusID blockNumber : Nat) (blockHash : Bytes) (leaderID : Nat) :
    ConsensusAnnouncement :=
  { announcement with
    consensusinfo := some
      { (announcement.consensusinfo.getD default) with
        consensusid := some consensusID
        blocknumber := some blockNumber
        blockhash := some blockHash
        leaderid := some leaderID } }

/-- The `switch (announcement.announcement_case())` of `SetConsensusAnnouncementCore`
that builds `inputToSigning`; `none` is one of its `return false` exits. -/
def SetConsensusAnnouncementCore.inputToSigning (P : AnnouncementProto)
    (announcement : ConsensusAnnouncement) : Option Bytes :=
  let consensusinfo := announcement.consensusinfo.getD default
  match announcement.announcement with
  | .kDsblock dsblock =>
    if !P.DSDSBlockAnnouncement.IsInitialized dsblock then none
    else some (P.ConsensusInfo.Serialize consensusinfo
      ++ P.DSDSBlockAnnouncement.Serialize dsblock)
  | .kMicroblock microblock =>
    if !P.NodeMicroBlockAnnouncement.IsInitialized microblock then none
    else some (P.ConsensusInfo.Serialize consensusinfo
      ++ P.NodeMicroBlockAnnouncement.Serialize microblock)
  | .kFinalblock finalblock =>
    if !P.DSFinalBlockAnnouncement.IsInitialized finalblock then none
    else some (P.ConsensusInfo.Serialize consensusinfo
      ++ P.DSFinalBlockAnnouncement.Serialize finalblock)
  | .kVcblock vcblock =>
    if !P.DSVCBlockAnnouncement.IsInitialized vcblock then none
    else some (P.ConsensusInfo.Serialize consensusinfo
      ++ P.DSVCBlockAnnouncement.Serialize vcblock)
  | .kFallbackblock fallbackblock =>
    if !P.NodeFallbackBlockAnnouncement.IsInitialized fallbackblock then none
    else some (P.ConsensusInfo.Serialize consensusinfo
      ++ P.NodeFallbackBlockAnnouncement.Serialize fallbackblock)
  | .ANNOUNCEMENT_NOT_SET => none

/-- The function `SetConsensusAnnouncementCore`: the announcement it leaves behind when
it returns true, `none` when it returns false. -/
def SetConsensusAnnouncementCore (P : AnnouncementProto) (S : Schnorr) (c : Common)
    (announcement : ConsensusAnnouncement) (consensusID blockNumber : Nat)
    (blockHash : Bytes) (leaderID : Nat) (leaderKey : PrivKey × PubKey) :
    Option ConsensusAnnouncement :=
  let announcement :=
    SetConsensusAnnouncementCore.setInfo announcement consensusID blockNumber blockHash leaderID
  if !P.ConsensusInfo.IsInitialized (announcement.consensusinfo.getD default) then none
  else
    match SetConsensusAnnouncementCore.inputToSigning P announcement with
    | none => none
    | some inputToSigning =>
      match S.Sign inputToSigning leaderKey.1 leaderKey.2 with
      | none => none
      | some signature =>
        let announcement :=
          { announcement with
            signature := some (SerializableToProtobufByteArray c.Signature signature) }
        if P.ConsensusAnnouncement.IsInitialized announcement then some announcement else none

/-- The `if (has_dsblock() && dsblock().IsInitialized()) ... else if ...` chain of
`GetConsensusAnnouncementCore` that builds `tmp`, the input to signature verification;
`none` is its `return false` exit. -/
def GetConsensusAnnouncementCore.tmp (P : AnnouncementProto)
    (announcement : ConsensusAnnouncement) : Option Bytes :=
  let consensusinfo := announcement.consensusinfo.getD default
  match announcement.announcement with
  | .kDsblock dsblock =>
    if P.DSDSBlockAnnouncement.IsInitialized dsblock then
      some (P.ConsensusInfo.Serialize consensusinfo
        ++ P.DSDSBlockAnnouncement.Serialize dsblock)
    else none
  | .kMicroblock microblock =>
    if P.NodeMicroBlockAnnouncement.IsInitialized microblock then
      some (P.ConsensusInfo.Serialize consensusinfo
        ++ P.NodeMicroBlockAnnouncement.Serialize microblock)
    else none
  | .kFinalblock finalblock =>
    if P.DSFinalBlockAnnouncement.IsInitialized finalblock then
      some (P.ConsensusInfo.Serialize consensusinfo
        ++ P.DSFinalBlockAnnouncement.Serialize finalblock)
    else none
  | .kVcblock vcblock =>
    if P.DSVCBlockAnnouncement.IsInitialized vcblock then
      some (P.ConsensusInfo.Serialize consensusinfo
        ++ P.DSVCBlockAnnouncement.Serialize vcblock)
    else none
  | .kFallbackblock fallbackblock =>
    if P.NodeFallbackBlockAnnouncement.IsInitialized fallbackblock then
      some (P.ConsensusInfo.Serialize consensusinfo
        ++ P.NodeFallbackBlockAnnouncement.Serialize fallbackblock)
    else none
  | .ANNOUNCEMENT_NOT_SET => none

/-- The function `GetConsensusAnnouncementCore`. -/
def GetConsensusAnnouncementCore (P : AnnouncementProto) (S : Schnorr) (c : Common)
    (announcement : ConsensusAnnouncement) (consensusID blockNumber : Nat)
    (blockHash : Bytes) (leaderID : Nat) (leaderKey : PubKey) : Bool :=
  let consensusinfo := announcement.consensusinfo.getD default
  if consensusinfo.consensusid.getD 0 != consensusID then false
  else if consensusinfo.blocknumber.getD 0 != blockNumber then false
  else if (consensusinfo.blockhash.getD []).length != blockHash.length
      || consensusinfo.blockhash.getD [] != blockHash then false
  else if consensusinfo.leaderid.getD 0 != leaderID then false
  else
    match GetConsensusAnnouncementCore.tmp P announcement with
    | none => false
    | some tmp =>
      let signature :=
        ProtobufByteArrayToSerializable c.Signature (announcement.signature.getD default)
          Signature.default
      if !S.Verify tmp signature leaderKey then false else true

/-- The result of a successful `Messenger::SetDSDSBlockAnnouncement`: the destination
buffer and the message to co-sign. -/
structure SetAnnouncementResult where
  dst : Bytes
  messageToCosign : Bytes
deriving DecidableEq, Repr

/-- The first half of `Messenger::SetDSDSBlockAnnouncement`: the announcement as it
stands after `SetConsensusAnnouncementCore` succeeded; `none` when the function has
returned false by then or `shardSenders.at(i)` threw. -/
def SetDSDSBlockAnnouncement.announcement (P : AnnouncementProto) (S : Schnorr) (c : Common)
    (consensusID blockNumber : Nat) (blockHash : Bytes)
    (leaderID : Nat) (leaderKey : PrivKey × PubKey) (dsBlock : DSBlock)
    (shards : DequeOfShard) (dsReceivers : List Peer)
    (shardReceivers shardSenders : List (List Peer)) : Option ConsensusAnnouncement :=
  match TxSharingAssignmentsToProtobuf c dsReceivers shardReceivers shardSenders with
  | none => none
  | some assignments =>
    let dsblock : DSDSBlockAnnouncement :=
      { dsblock := some (DSBlockToProtobuf c dsBlock)
        sharding := some (ShardingStructureToProtobuf c shards)
        assignments := some assignments }
    let announcement : ConsensusAnnouncement := { announcement := .kDsblock dsblock }
    if !P.DSDSBlockAnnouncement.IsInitialized dsblock then none
    else
      SetConsensusAnnouncementCore P S c announcement consensusID blockNumber blockHash
        leaderID leaderKey

/-- The function `Messenger::SetDSDSBlockAnnouncement`; `SerializeHeader` is
`DSBlockHeader::Serialize(messageToCosign, 0)` on the cleared vector (`none` when it
returns false). The result is `none` when the function returns false. -/
def SetDSDSBlockAnnouncement (P : AnnouncementProto) (S : Schnorr) (c : Common)
    (SerializeHeader : DSBlockHeader → Option Bytes)
    (dst : Bytes) (offset : Nat) (consensusID blockNumber : Nat) (blockHash : Bytes)
    (leaderID : Nat) (leaderKey : PrivKey × PubKey) (dsBlock : DSBlock)
    (shards : DequeOfShard) (dsReceivers : List Peer)
    (shardReceivers shardSenders : List (List Peer)) : Option SetAnnouncementResult :=
  match SetDSDSBlockAnnouncement.announcement P S c consensusID blockNumber blockHash
      leaderID leaderKey dsBlock shards dsReceivers shardReceivers shardSenders with
  | none => none
  | some announcement =>
    match SerializeHeader dsBlock.m_header with
    | none => none
    | some messageToCosign =>
      let r := SerializeToArray P.ConsensusAnnouncement announcement dst offset
      if r.1 then some { dst := r.2, messageToCosign := messageToCosign } else none

/-- The outputs of a successful `Messenger::GetDSDSBlockAnnouncement`. -/
structure GetDSDSBlockAnnouncementResult where
  dsBlock : DSBlock
  shards : DequeOfShard
  dsReceivers : List Peer
  shardReceivers : List (List Peer)
  shardSenders : List (List Peer)
  messageToCosign : Bytes
deriving DecidableEq, Repr

/-- The function `Messenger::GetDSDSBlockAnnouncement`; the container arguments are the
contents of the output containers before the call (the function appends to them). The
result is `none` when the function returns false. -/
def GetDSDSBlockAnnouncement (P : AnnouncementProto) (S : Schnorr) (c : Common)
    (SerializeHeader : DSBlockHeader → Option Bytes)
    (src : Bytes) (offset : Nat) (consensusID blockNumber : Nat) (blockHash : Bytes)
    (leaderID : Nat) (leaderKey : PubKey) (shards : DequeOfShard) (dsReceivers : List Peer)
    (shardReceivers shardSenders : List (List Peer)) :
    Option GetDSDSBlockAnnouncementResult :=
  let announcement := P.ConsensusAnnouncement.Parse (src.drop offset)
  if !P.ConsensusAnnouncement.IsInitialized announcement then none
  else
    match announcement.announcement with
    | .kDsblock dsblock =>
      if !GetConsensusAnnouncementCore P S c announcement consensusID blockNumber blockHash
          leaderID leaderKey then none
      else
        let dsBlock := ProtobufToDSBlock c (dsblock.dsblock.getD default)
        let shards := ProtobufToShardingStructure c (dsblock.sharding.getD default) shards
        let a := ProtobufToTxSharingAssignments c (dsblock.assignments.getD default)
          dsReceivers shardReceivers shardSenders
        match SerializeHeader dsBlock.m_header with
        | none => none
        | some messageToCosign =>
          some { dsBlock := dsBlock, shards := shards, dsReceivers := a.1,
                 shardReceivers := a.2.1, shardSenders := a.2.2,
                 messageToCosign := messageToCosign }
    | _ => none

/-! ## `Messenger.cpp`: primitives used by the node -/

/-- The function `Messenger::GetDSCommitteeHash`; `sha2` is `SHA2<HASH_VARIANT_256>`
(`Update` then `Finalize`), whose 32-byte digest is copied into `dst`. -/
def GetDSCommitteeHash (c : Common) (pm : ProtoMessage ProtoCommittee) (sha2 : Bytes → Bytes)
    (dsCommittee : DSCommittee) : Option Bytes :=
  let protoCommittee := DSCommitteeToProtoCommittee c dsCommittee
  if !pm.IsInitialized protoCommittee then none
  else
    let r := SerializeToArray pm protoCommittee [] 0
    if !r.1 then none else some (sha2 r.2)

/-- The function `Messenger::GetShardHash`. -/
def GetShardHash (c : Common) (pm : ProtoMessage ProtoCommittee) (sha2 : Bytes → Bytes)
    (shard : Shard) : Option Bytes :=
  let protoCommittee := ShardToProtoCommittee c shard
  if !pm.IsInitialized protoCommittee then none
  else
    let r := SerializeToArray pm protoCommittee [] 0
    if !r.1 then none else some (sha2 r.2)

/-- The function `Messenger::GetShardingStructureHash`. -/
def GetShardingStructureHash (c : Common) (pm : ProtoMessage ProtoShardingStructure)
    (sha2 : Bytes → Bytes) (shards : DequeOfShard) : Option Bytes :=
  let protoShardingStructure := ShardingStructureToProtobuf c shards
  if !pm.IsInitialized protoShardingStructure then none
  else
    let r := SerializeToArray pm protoShardingStructure [] 0
    if !r.1 then none else some (sha2 r.2)

/-- The function `Messenger::GetTxSharingAssignmentsHash`. -/
def GetTxSharingAssignmentsHash (c : Common) (pm : ProtoMessage ProtoTxSharingAssignments)
    (sha2 : Bytes → Bytes) (dsReceivers : List Peer)
    (shardReceivers shardSenders : List (List Peer)) : Option Bytes :=
  match TxSharingAssignmentsToProtobuf c dsReceivers shardReceivers shardSenders with
  | none => none
  | some protoTxSharingAssignments =>
    if !pm.IsInitialized protoTxSharingAssignments then none
    else
      let r := SerializeToArray pm protoTxSharingAssignments [] 0
      if !r.1 then none else some (sha2 r.2)

/-- The function `Messenger::SetDSBlockHeader`. -/
def SetDSBlockHeader (c : Common) (pm : ProtoMessage ProtoDSBlock.DSBlockHeader)
    (dst : Bytes) (offset : Nat) (dsBlockHeader : DSBlockHeader) : Bool × Bytes :=
  let result := DSBlockHeaderToProtobuf c dsBlockHeader
  if !pm.IsInitialized result then (false, dst)
  else SerializeToArray pm result dst offset

/-- The function `Messenger::GetDSBlockHeader`. -/
def GetDSBlockHeader (c : Common) (pm : ProtoMessage ProtoDSBlock.DSBlockHeader)
    (src : Bytes) (offset : Nat) : Option DSBlockHeader :=
  let result := pm.Parse (src.drop offset)
  if !pm.IsInitialized result then none
  else some (ProtobufToDSBlockHeader c result)

/-- The outputs of a successful `Messenger::GetNodeVCDSBlocksMessage`. -/
structure NodeVCDSBlocksMessage where
  shardId : Nat
  dsBlock : DSBlock
  vcBlocks : List VCBlock
  shards : DequeOfShard
  dsReceivers : List Peer
  shardReceivers : List (List Peer)
  shardSenders : List (List Peer)
deriving DecidableEq, Repr

/-- The function `Messenger::GetNodeVCDSBlocksMessage`; the container arguments are the
contents of the output containers before the call. -/
def GetNodeVCDSBlocksMessage (c : Common) (pm : ProtoMessage NodeDSBlock)
    (src : Bytes) (offset : Nat) (vcBlocks : List VCBlock) (shards : DequeOfShard)
    (dsReceivers : List Peer) (shardReceivers shardSenders : List (List Peer)) :
    Option NodeVCDSBlocksMessage :=
  let result := pm.Parse (src.drop offset)
  if !pm.IsInitialized result then none
  else
    let a := ProtobufToTxSharingAssignments c (result.assignments.getD default)
      dsReceivers shardReceivers shardSenders
    some { shardId := result.shardid.getD 0
           dsBlock := ProtobufToDSBlock c (result.dsblock.getD default)
           vcBlocks := vcBlocks ++ result.vcblocks.map (ProtobufToVCBlock c)
           shards := ProtobufToShardingStructure c (result.sharding.getD default) shards
           dsReceivers := a.1
           shardReceivers := a.2.1
           shardSenders := a.2.2 }

/-! ## `DSBlockProcessing.cpp`: state -/

/-- The tag of a link of the block-link chain. -/
inductive BlockType where
  | DS
  | VC
  | FB
deriving DecidableEq, Repr

/-- An entry of `BlockLinkChain`. -/
structure BlockLink where
  index : Nat
  dsindex : Nat
  blocktype : BlockType
  blockhash : Bytes
deriving DecidableEq, Repr

/-- The enum `DirectoryService::Mode`. -/
inductive Mode where
  | IDLE
  | PRIMARY_DS
  | BACKUP_DS
deriving DecidableEq, Repr

/-- The enum `SyncType`. -/
inductive SyncType where
  | NO_SYNC
  | NEW_SYNC
  | NORMAL_SYNC
  | DS_SYNC
  | LOOKUP_SYNC
deriving DecidableEq, Repr

/-- Calls recorded in program order: the two state-changing steps of the reception
(`StoreDSBlockToDisk`, `UpdateDSCommiteeComposition`), the warning of the view-change
counter check, and every call into a collaborator whose state is not part of
`NodeState` (storage, transport, PoW, timers, detached tasks). -/
inductive Call where
  | StoreDSBlockToDisk (dsblock : DSBlock)
  | PutDSBlock (blockNum : Nat) (serializedDSBlock : Bytes)
  | PutMetadataLatestActiveDSBlockNum (blockNum : Nat)
  | UpdateDSCommiteeComposition
  | WarnUnexpectedVCBlockCounter (expected received : Nat)
  | ProcessVCBlockCore (vcBlock : VCBlock) (result : Bool)
  | DetachedDownloadSW (swInfo : SWInfo)
  | StopMining
  | ProcessTxnBodySharingAssignment
  | CleanCreatedTransaction
  | DSStartFirstTxEpoch
  | RejoinAsNormal
  | SendBlockToOtherShardNodes (message : Bytes)
  | CommitTxnPacketBuffer
  | InitializeRumorManager (peers : List Peer)
  | DetachedRunConsensusOnMicroBlock
  | FallbackTimerLaunch
  | FallbackTimerPulse
  | ProcessEntireShardingStructure
  | SenderTxnBatchThread
deriving DecidableEq, Repr

/-- The last block of the transient Tx blockchain, as far as this file reads it. -/
structure TxBlockChain where
  lastBlockHash : Bytes
  lastBlockNum : Nat
deriving DecidableEq, Repr

/-- The state `Node::ProcessVCDSBlocksMessage` reads and writes. Members of `Mediator`
and `Node` keep their names; members reached through `m_mediator.m_ds->` carry the
`ds_` mark and the one reached through `m_mediator.m_lookup->` the `lookup_` mark. -/
structure NodeState where
  m_selfKey : PrivKey × PubKey
  m_selfPeer : Peer
  m_dsBlockChain : List DSBlock
  m_txBlockChain : TxBlockChain
  m_blocklinkchain : List BlockLink
  m_currentEpochNum : Nat
  m_consensusID : Nat
  m_DSCommittee : DSCommittee
  m_dsBlockRand : Bytes
  m_curSWInfo : SWInfo
  ds_m_shards : DequeOfShard
  ds_m_DSReceivers : List Peer
  ds_m_shardReceivers : List (List Peer)
  ds_m_shardSenders : List (List Peer)
  ds_m_latestActiveDSBlockNum : Nat
  ds_m_consensusMyID : Nat
  ds_m_consensusLeaderID : Nat
  ds_m_mode : Mode
  lookup_m_syncType : SyncType
  m_fromNewProcess : Bool
  m_myshardId : Nat
  m_numShards : Nat
  m_myShardMembers : List (PubKey × Peer)
  m_consensusMyID : Nat
  m_consensusLeaderID : Nat
  m_isPrimary : Bool
  m_isMBSender : Bool
  m_DSMBReceivers : List Peer
  m_txnSharingIAmSender : Bool
  m_txnSharingIAmForwarder : Bool
  m_txnSharingAssignedNodes : List (List Peer)
  m_stillMiningPrimary : Bool
  m_justDidFallback : Bool
  calls : List Call
deriving DecidableEq, Repr

/-- Constants and collaborators of `DSBlockProcessing.cpp` that live in other files. -/
structure NodeEnv where
  LOOKUP_NODE_MODE : Bool
  BROADCAST_TREEBASED_CLUSTER_MODE : Bool
  BROADCAST_GOSSIP_MODE : Bool
  USE_REMOTE_TXN_CREATOR : Bool
  NUM_MICROBLOCK_SENDERS : Nat
  NUM_MICROBLOCK_GOSSIP_RECEIVERS : Nat
  common : Common
  schnorr : Schnorr
  pmNodeDSBlock : ProtoMessage NodeDSBlock
  pmShardingStructure : ProtoMessage ProtoShardingStructure
  pmTxSharingAssignments : ProtoMessage ProtoTxSharingAssignments
  pmCommittee : ProtoMessage ProtoCommittee
  sha2 : Bytes → Bytes
  NumForConsensus : Nat → Nat
  AggregatePubKeys : List PubKey → Option PubKey
  SerializeHeader : DSBlockHeader → Option Bytes
  SerializeDSBlock : DSBlock → Bytes
  SetBitVector : List Bool → Bytes
  GetMyHash : DSBlockHeader → Bytes
  charArrTo16Bits : Bytes → Nat
  DSBlockRand : DSBlock → Bytes
  GetLatestIndex : List BlockLink → Nat
  CheckState : NodeState → Bool
  ProcessVCBlockCore : NodeState → VCBlock → Bool × NodeState
  ProcessShardingStructure : NodeState → Bool
  GetIsServer : NodeState → Bool

/-! ## `DSBlockProcessing.cpp`: functions -/

/-- The default-constructed `DSBlock()`: as in the header constructors of this code
base, the block number of a default header is `(uint64_t)-1`. -/
def DSBlock.default : DSBlock :=
  { m_header :=
      { m_dsDifficulty := 0, m_difficulty := 0, m_prevHash := List.replicate HASH_SIZE 0
        m_leaderPubKey := PubKey.default, m_blockNum := UINT64_MOD - 1, m_timestamp := 0
        m_swInfo := SWInfo.default, m_PoWDSWinners := []
        m_hashset :=
          { m_shardingHash := List.replicate HASH_SIZE 0
            m_txSharingHash := List.replicate HASH_SIZE 0
            m_reservedField := [] }
        m_committeeHash := List.replicate HASH_SIZE 0 }
    m_cosigs := { m_CS1 := Signature.default, m_B1 := [], m_CS2 := Signature.default, m_B2 := [] }
    m_blockHash := List.replicate HASH_SIZE 0 }

/-- Modelled from the spec: `DSBlockChain::GetLastBlock` (`BlockChain.h` is not under
src). The DS blockchain is append-only and indexed by block number; the last block is
the one appended last, and an empty chain yields a default-constructed block. -/
def GetLastBlock (chain : List DSBlock) : DSBlock :=
  chain.getLast?.getD DSBlock.default

/-- Modelled from the spec: `DSBlockChain::AddBlock`, which appends the block to the DS
blockchain. -/
def AddBlock (chain : List DSBlock) (dsblock : DSBlock) : List DSBlock :=
  chain ++ [dsblock]

/-- Modelled from the spec: `Mediator::UpdateDSBlockRand()` (`Mediator.cpp` is not under
src), which updates the rolling randomness value derived from the chain; the derivation
from the last DS block is the parameter `DSBlockRand`. -/
def UpdateDSBlockRand (env : NodeEnv) (s : NodeState) : NodeState :=
  { s with m_dsBlockRand := env.DSBlockRand (GetLastBlock s.m_dsBlockChain) }

/-- The function `Node::StoreDSBlockToDisk`. -/
def StoreDSBlockToDisk (env : NodeEnv) (s : NodeState) (dsblock : DSBlock) : NodeState :=
  let s := { s with calls := s.calls ++ [Call.StoreDSBlockToDisk dsblock] }
  let s := { s with m_dsBlockChain := AddBlock s.m_dsBlockChain dsblock }
  let s := UpdateDSBlockRand env s
  let serializedDSBlock := env.SerializeDSBlock dsblock
  let s := { s with
    calls := s.calls ++ [Call.PutDSBlock dsblock.m_header.m_blockNum serializedDSBlock] }
  let s := { s with ds_m_latestActiveDSBlockNum := dsblock.m_header.m_blockNum }
  let s := { s with
    calls := s.calls ++ [Call.PutMetadataLatestActiveDSBlockNum s.ds_m_latestActiveDSBlockNum] }
  let latestInd := (env.GetLatestIndex s.m_blocklinkchain + 1) % UINT64_MOD
  { s with
    m_blocklinkchain := s.m_blocklinkchain ++
      [{ index := latestInd, dsindex := dsblock.m_header.m_blockNum,
         blocktype := BlockType.DS, blockhash := dsblock.m_blockHash }] }

/-- The loop of `Node::UpdateDSCommiteeComposition`: for every winner in map order,
`emplace_front` (with a default `Peer` for the node's own key) and `pop_back`. -/
def UpdateDSCommiteeComposition.loop (selfPubKey : PubKey) (NewDSMembers : List (PubKey × Peer))
    (committee : DSCommittee) : DSCommittee :=
  NewDSMembers.foldl (fun committee DSPowWinner =>
    (if selfPubKey = DSPowWinner.1 then (selfPubKey, Peer.default) :: committee
     else DSPowWinner :: committee).dropLast) committee

/-- The function `Node::UpdateDSCommiteeComposition`. -/
def UpdateDSCommiteeComposition (s : NodeState) : NodeState :=
  let NewDSMembers := (GetLastBlock s.m_dsBlockChain).m_header.m_PoWDSWinners
  { s with
    calls := s.calls ++ [Call.UpdateDSCommiteeComposition]
    m_DSCommittee :=
      UpdateDSCommiteeComposition.loop s.m_selfKey.2 NewDSMembers s.m_DSCommittee }

/-- The function `Node::CheckWhetherDSBlockNumIsLatest`; the sums are `uint64_t`. -/
def CheckWhetherDSBlockNumIsLatest (s : NodeState) (dsblockNum : Nat) : Bool :=
  let latestBlockNumInBlockchain := (GetLastBlock s.m_dsBlockChain).m_header.m_blockNum
  if dsblockNum < (latestBlockNumInBlockchain + 1) % UINT64_MOD then false
  else if dsblockNum > (latestBlockNumInBlockchain + 1) % UINT64_MOD then false
  else true

/-- The loop of `Node::VerifyDSBlockCoSignature` that collects the keys flagged in `B2`
(the sizes are equal when it runs, so `B2.at(index)` is in range). -/
def VerifyDSBlockCoSignature.keys (committee : DSCommittee) (B2 : List Bool) : List PubKey :=
  ((committee.zip B2).filter (fun kv => kv.2)).map (fun kv => kv.1.1)

/-- The message whose collective signature `Node::VerifyDSBlockCoSignature` checks: the
serialized header, then `CS1`, then the bit vector of `B1`; `none` when the header
serialization fails. -/
def VerifyDSBlockCoSignature.message (env : NodeEnv) (dsblock : DSBlock) : Option Bytes :=
  match env.SerializeHeader dsblock.m_header with
  | none => none
  | some message =>
    let message := message ++ env.common.Signature.Serialize dsblock.m_cosigs.m_CS1
    some (message ++ env.SetBitVector dsblock.m_cosigs.m_B1)

/-- The function `Node::VerifyDSBlockCoSignature`. -/
def VerifyDSBlockCoSignature (env : NodeEnv) (s : NodeState) (dsblock : DSBlock) : Bool :=
  let B2 := dsblock.m_cosigs.m_B2
  if s.m_DSCommittee.length != B2.length then false
  else
    let keys := VerifyDSBlockCoSignature.keys s.m_DSCommittee B2
    let count := keys.length
    if count != env.NumForConsensus B2.length then false
    else
      match env.AggregatePubKeys keys with
      | none => false
      | some aggregatedKey =>
        match VerifyDSBlockCoSignature.message env dsblock with
        | none => false
        | some message =>
          if !env.schnorr.Verify message dsblock.m_cosigs.m_CS2 aggregatedKey then false
          else true

/-- The loop of `Node::LoadShardingStructure` over `my_shard`: returns the members,
the last index at which the node's own peer was seen and whether it was seen. -/
def LoadShardingStructure.loop (selfPeer : Peer) (my_shard : Shard) (consensusMyID : Nat) :
    List (PubKey × Peer) × Nat × Bool :=
  (my_shard.foldl (fun (acc : (List (PubKey × Peer) × Nat × Bool) × Nat) shardNode =>
      let index := acc.2
      if selfPeer = shardNode.2.1 then
        ((acc.1.1 ++ [(shardNode.1, Peer.default)], index, true), index + 1)
      else
        ((acc.1.1 ++ [(shardNode.1, shardNode.2.1)], acc.1.2.1, acc.1.2.2), index + 1))
    (([], consensusMyID, false), 0)).1

/-- The function `Node::LoadShardingStructure`. -/
def LoadShardingStructure (env : NodeEnv) (s : NodeState) : Bool × NodeState :=
  if env.LOOKUP_NODE_MODE then (true, s)
  else
    let s := { s with m_numShards := s.ds_m_shards.length }
    if s.m_myshardId ≥ s.ds_m_shards.length then (false, s)
    else
      let my_shard := s.ds_m_shards.getD s.m_myshardId []
      let r := LoadShardingStructure.loop s.m_selfPeer my_shard s.m_consensusMyID
      let s := { s with m_myShardMembers := r.1, m_consensusMyID := r.2.1 }
      if !r.2.2 then
        (false, { s with calls := s.calls ++ [Call.RejoinAsNormal] })
      else (true, s)

/-- The flag computed by the inner loops of `Node::LoadTxnSharingInfo`: some peer of
shard `m_myshardId` in `lists` is the node itself. -/
def LoadTxnSharingInfo.isMine (s : NodeState) (lists : List (List Peer)) : Bool :=
  (List.range s.ds_m_shardReceivers.length).any (fun i =>
    i == s.m_myshardId && (lists.getD i []).any (fun p => p == s.m_selfPeer))

/-- The function `Node::LoadTxnSharingInfo`. `m_shardSenders.at(i)` throws when the
sender list is shorter than the receiver list; the lists written by
`GetNodeVCDSBlocksMessage` always have equal length, and an absent entry is read as
empty here. -/
def LoadTxnSharingInfo (env : NodeEnv) (s : NodeState) : NodeState :=
  if env.LOOKUP_NODE_MODE then s
  else
    { s with
      m_txnSharingIAmSender := LoadTxnSharingInfo.isMine s s.ds_m_shardSenders
      m_txnSharingIAmForwarder := LoadTxnSharingInfo.isMine s s.ds_m_shardReceivers
      m_txnSharingAssignedNodes :=
        s.ds_m_DSReceivers ::
          ((List.range s.ds_m_shardReceivers.length).map (fun i =>
            [s.ds_m_shardReceivers.getD i [], s.ds_m_shardSenders.getD i []])).flatten }

/-- The function `Node::ResetConsensusId`. -/
def ResetConsensusId (s : NodeState) : NodeState :=
  { s with m_consensusID := if s.m_currentEpochNum = 1 then 1 else 0 }

/-- The 16-bit value both role computations derive from the last Tx block hash. -/
def lastBlockHash (env : NodeEnv) (s : NodeState) : Nat :=
  if s.m_currentEpochNum > 1 then
    env.charArrTo16Bits s.m_txBlockChain.lastBlockHash % UINT16_MOD
  else 0

/-- The function `Node::StartFirstTxEpoch`. Indexing an empty `m_myShardMembers` is
undefined in C++; the model reads a default entry and `x % 0 = x`. -/
def StartFirstTxEpoch (env : NodeEnv) (s : NodeState) : NodeState :=
  if env.LOOKUP_NODE_MODE then s
  else
    let s := ResetConsensusId s
    let s := { s with
      m_consensusLeaderID := lastBlockHash env s % s.m_myShardMembers.length }
    let s := { s with
      m_isPrimary :=
        decide (s.m_selfKey.2 =
          (s.m_myShardMembers.getD s.m_consensusLeaderID (PubKey.default, Peer.default)).1) }
    let numOfMBSender :=
      if s.m_myShardMembers.length < env.NUM_MICROBLOCK_SENDERS then s.m_myShardMembers.length
      else env.NUM_MICROBLOCK_SENDERS
    let s := { s with
      m_isMBSender :=
        ((List.range numOfMBSender).drop 1).any (fun i =>
          decide (s.m_selfKey.2 =
            (s.m_myShardMembers.getD i (PubKey.default, Peer.default)).1)) }
    let numOfMBReceivers := min env.NUM_MICROBLOCK_GOSSIP_RECEIVERS s.m_DSCommittee.length
    let s := { s with
      m_DSMBReceivers := (s.m_DSCommittee.take numOfMBReceivers).map (fun (m : PubKey × Peer) => m.2) }
    let s := { s with m_justDidFallback := false }
    let s := { s with calls := s.calls ++ [Call.CommitTxnPacketBuffer] }
    let s :=
      if env.BROADCAST_GOSSIP_MODE then
        { s with
          calls := s.calls ++ [Call.InitializeRumorManager
            ((s.m_myShardMembers.filter
              (fun (i : PubKey × Peer) => i.2.m_listenPortHost != 0)).map
              (fun (i : PubKey × Peer) => i.2))] }
      else s
    { s with
      calls := s.calls ++ [Call.DetachedRunConsensusOnMicroBlock, Call.FallbackTimerLaunch,
        Call.FallbackTimerPulse] }

/-- The call `ProcessVCBlockCore(vcBlock)` (defined in `ViewChangeBlockProcessing.cpp`):
the collaborator runs on the node state and the call is recorded with its result. The
log keeps the calls made by `DSBlockProcessing.cpp` only, so whatever the collaborator
does to the log is replaced by that one entry. -/
def callProcessVCBlockCore (env : NodeEnv) (s : NodeState) (vcBlock : VCBlock) :
    Bool × NodeState :=
  let r := env.ProcessVCBlockCore s vcBlock
  (r.1, { r.2 with calls := s.calls ++ [Call.ProcessVCBlockCore vcBlock r.1] })

/-- The loop of `Node::ProcessVCDSBlocksMessage` over the VC blocks: a counter that
differs from `expectedViewChangeCounter` is logged, a failing `ProcessVCBlockCore` ends
the reception. -/
def ProcessVCDSBlocksMessage.vcLoop (env : NodeEnv) :
    List VCBlock → Nat → NodeState → Bool × NodeState
  | [], _, s => (true, s)
  | vcBlock :: rest, expectedViewChangeCounter, s =>
    let s :=
      if vcBlock.m_header.m_VCCounter != expectedViewChangeCounter then
        { s with
          calls := s.calls ++ [Call.WarnUnexpectedVCBlockCounter expectedViewChangeCounter
            vcBlock.m_header.m_VCCounter] }
      else s
    let r := callProcessVCBlockCore env s vcBlock
    if !r.1 then (false, r.2)
    else ProcessVCDSBlocksMessage.vcLoop env rest
      ((expectedViewChangeCounter + 1) % 2 ^ 32) r.2

/-- The loop of `Node::ProcessVCDSBlocksMessage` that looks for the node's own key
among the winners, counting `newDSMemberIndex` down from `size() - 1` in `unsigned int`
arithmetic; returns `isNewDSMember` and the last index assigned to `m_consensusMyID`. -/
def ProcessVCDSBlocksMessage.findMe (selfPubKey : PubKey) (dsPoWWinners : List (PubKey × Peer))
    (consensusMyID : Nat) : Bool × Nat :=
  (dsPoWWinners.foldl (fun (acc : (Bool × Nat) × Nat) newDSMember =>
      let newDSMemberIndex := acc.2
      (if selfPubKey = newDSMember.1 then (true, newDSMemberIndex) else acc.1,
       (newDSMemberIndex + 2 ^ 32 - 1) % 2 ^ 32))
    ((false, consensusMyID), (dsPoWWinners.length + 2 ^ 32 - 1) % 2 ^ 32)).1

/-- The head of the non-lookup branch after `UpdateDSCommiteeComposition()`: mining is
stopped, the node looks for its key among the winners and the new DS leader index is
computed. Returns `isNewDSMember` and the state. -/
def ProcessVCDSBlocksMessage.assignDSRole (env : NodeEnv) (s : NodeState) : Bool × NodeState :=
  let ds_size := s.m_DSCommittee.length % 2 ^ 32
  let s := { s with calls := s.calls ++ [Call.StopMining] }
  let s := { s with m_stillMiningPrimary := false }
  let dsPoWWinners := (GetLastBlock s.m_dsBlockChain).m_header.m_PoWDSWinners
  let me := ProcessVCDSBlocksMessage.findMe s.m_selfKey.2 dsPoWWinners s.ds_m_consensusMyID
  let isNewDSMember := me.1
  let s := { s with ds_m_consensusMyID := me.2 }
  let s := { s with ds_m_consensusLeaderID := lastBlockHash env s % ds_size }
  (isNewDSMember, s)

/-- The branch `if (isNewDSMember)`: the node sets itself up as a DS node. -/
def ProcessVCDSBlocksMessage.asDSMember (env : NodeEnv) (s : NodeState) : Bool × NodeState :=
  if !env.ProcessShardingStructure s then (false, s)
  else
    let s := { s with
      calls := s.calls ++ [Call.ProcessTxnBodySharingAssignment,
        Call.CleanCreatedTransaction] }
    let s :=
      if s.ds_m_consensusLeaderID = s.ds_m_consensusMyID then
        { s with ds_m_mode := Mode.PRIMARY_DS }
      else { s with ds_m_mode := Mode.BACKUP_DS }
    (true, { s with calls := s.calls ++ [Call.DSStartFirstTxEpoch] })

/-- The branch of a node that lost the DS PoW: it proceeds as a shard member. -/
def ProcessVCDSBlocksMessage.asShardMember (env : NodeEnv) (message : Bytes)
    (s : NodeState) : Bool × NodeState :=
  let r := LoadShardingStructure env s
  if !r.1 then (false, r.2)
  else
    let s := r.2
    let s :=
      if env.BROADCAST_TREEBASED_CLUSTER_MODE then
        { s with calls := s.calls ++ [Call.SendBlockToOtherShardNodes message] }
      else s
    let s := LoadTxnSharingInfo env s
    (true, StartFirstTxEpoch env s)

/-- The branch of a lookup node. -/
def ProcessVCDSBlocksMessage.asLookup (env : NodeEnv) (s : NodeState) : Bool × NodeState :=
  let s := { s with calls := s.calls ++ [Call.ProcessEntireShardingStructure] }
  let s := ResetConsensusId s
  let s :=
    if env.GetIsServer s && env.USE_REMOTE_TXN_CREATOR then
      { s with calls := s.calls ++ [Call.SenderTxnBatchThread] }
    else s
  (true, { s with calls := s.calls ++ [Call.FallbackTimerLaunch, Call.FallbackTimerPulse] })

/-- The part of `Node::ProcessVCDSBlocksMessage` after `UpdateDSCommiteeComposition()`:
role assignment and the start of the first Tx epoch. -/
def ProcessVCDSBlocksMessage.roleTransition (env : NodeEnv) (message : Bytes)
    (s : NodeState) : Bool × NodeState :=
  if !env.LOOKUP_NODE_MODE then
    let r := ProcessVCDSBlocksMessage.assignDSRole env s
    if r.1 then ProcessVCDSBlocksMessage.asDSMember env r.2
    else ProcessVCDSBlocksMessage.asShardMember env message r.2
  else ProcessVCDSBlocksMessage.asLookup env s

/-- The part of `Node::ProcessVCDSBlocksMessage` that follows the successful co-signature
check: the detached software-upgrade task, `StoreDSBlockToDisk`, the randomness update,
`UpdateDSCommiteeComposition` and the role transition. -/
def ProcessVCDSBlocksMessage.accept (env : NodeEnv) (message : Bytes) (s : NodeState)
    (dsblock : DSBlock) : Bool × NodeState :=
  let s := { s with calls := s.calls ++ [Call.DetachedDownloadSW dsblock.m_header.m_swInfo] }
  let s := StoreDSBlockToDisk env s dsblock
  let s := UpdateDSBlockRand env s
  let s := UpdateDSCommiteeComposition s
  ProcessVCDSBlocksMessage.roleTransition env message s

/-- The part of `Node::ProcessVCDSBlocksMessage` that runs once the message is decoded:
the four hash checks, the block-number check, the VC blocks and the co-signature. -/
def ProcessVCDSBlocksMessage.validate (env : NodeEnv) (message : Bytes) (s : NodeState)
    (shardId : Nat) (dsblock : DSBlock) (vcBlocks : List VCBlock) : Bool × NodeState :=
  match GetShardingStructureHash env.common env.pmShardingStructure env.sha2 s.ds_m_shards with
  | none => (false, s)
  | some shardingHash =>
    if shardingHash != dsblock.m_header.m_hashset.m_shardingHash then (false, s)
    else
      match GetTxSharingAssignmentsHash env.common env.pmTxSharingAssignments env.sha2
          s.ds_m_DSReceivers s.ds_m_shardReceivers s.ds_m_shardSenders with
      | none => (false, s)
      | some txSharingHash =>
        if txSharingHash != dsblock.m_header.m_hashset.m_txSharingHash then (false, s)
        else
          match GetDSCommitteeHash env.common env.pmCommittee env.sha2 s.m_DSCommittee with
          | none => (false, s)
          | some committeeHash =>
            if committeeHash != dsblock.m_header.m_committeeHash then (false, s)
            else
              let s := { s with m_myshardId := shardId }
              let temp_blockHash := env.GetMyHash dsblock.m_header
              if temp_blockHash != dsblock.m_blockHash then (false, s)
              else if !CheckWhetherDSBlockNumIsLatest s dsblock.m_header.m_blockNum then
                (false, s)
              else
                let r := ProcessVCDSBlocksMessage.vcLoop env vcBlocks 1 s
                if !r.1 then (false, r.2)
                else if !VerifyDSBlockCoSignature env r.2 dsblock then (false, r.2)
                else ProcessVCDSBlocksMessage.accept env message r.2 dsblock

/-- The function `Node::ProcessVCDSBlocksMessage` (the unused sender `from` is left
out). -/
def ProcessVCDSBlocksMessage (env : NodeEnv) (message : Bytes) (cur_offset : Nat)
    (s : NodeState) : Bool × NodeState :=
  if !env.LOOKUP_NODE_MODE && !env.CheckState s then (false, s)
  else
    let s :=
      if !env.LOOKUP_NODE_MODE && s.lookup_m_syncType != SyncType.NO_SYNC then
        { s with lookup_m_syncType := SyncType.NO_SYNC, m_fromNewProcess := false }
      else s
    let s := { s with
      ds_m_shards := [], ds_m_DSReceivers := [], ds_m_shardReceivers := [],
      ds_m_shardSenders := [] }
    match GetNodeVCDSBlocksMessage env.common env.pmNodeDSBlock message cur_offset []
        s.ds_m_shards s.ds_m_DSReceivers s.ds_m_shardReceivers s.ds_m_shardSenders with
    | none => (false, s)
    | some m =>
      let s := { s with
        ds_m_shards := m.shards, ds_m_DSReceivers := m.dsReceivers,
        ds_m_shardReceivers := m.shardReceivers, ds_m_shardSenders := m.shardSenders }
      ProcessVCDSBlocksMessage.validate env message s m.shardId m.dsBlock m.vcBlocks

/-! ## `Messenger.cpp`: consensus commit, response and commit failure -/

/-- A commit point of the multi-signature protocol (`libCrypto/MultiSig.h`). -/
structure CommitPoint where
  p : Nat
deriving DecidableEq, Repr

/-- A response of the multi-signature protocol (`libCrypto/MultiSig.h`). -/
structure Response where
  r : Nat
deriving DecidableEq, Repr

/-- Message `ConsensusCommit.ConsensusInfo`. -/
structure ConsensusCommit.ConsensusInfo where
  consensusid : Option Nat := none
  blocknumber : Option Nat := none
  blockhash : Option Bytes := none
  backupid : Option Nat := none
  commit : Option ByteArray := none
deriving DecidableEq, Repr, Inhabited

/-- Message `ConsensusCommit`. -/
structure ConsensusCommit where
  consensusinfo : Option ConsensusCommit.ConsensusInfo := none
  signature : Option ByteArray := none
deriving DecidableEq, Repr, Inhabited

/-- Message `ConsensusResponse.ConsensusInfo`. -/
structure ConsensusResponse.ConsensusInfo where
  consensusid : Option Nat := none
  blocknumber : Option Nat := none
  blockhash : Option Bytes := none
  backupid : Option Nat := none
  response : Option ByteArray := none
deriving DecidableEq, Repr, Inhabited

/-- Message `ConsensusResponse`. -/
structure ConsensusResponse where
  consensusinfo : Option ConsensusResponse.ConsensusInfo := none
  signature : Option ByteArray := none
deriving DecidableEq, Repr, Inhabited

/-- Message `ConsensusCommitFailure.ConsensusInfo`. -/
structure ConsensusCommitFailure.ConsensusInfo where
  consensusid : Option Nat := none
  blocknumber : Option Nat := none
  blockhash : Option Bytes := none
  backupid : Option Nat := none
  errormsg : Option Bytes := none
deriving DecidableEq, Repr, Inhabited

/-- Message `ConsensusCommitFailure`. -/
structure ConsensusCommitFailure where
  consensusinfo : Option ConsensusCommitFailure.ConsensusInfo := none
  signature : Option ByteArray := none
deriving DecidableEq, Repr, Inhabited

/-- The protobuf runtime for a signed consensus message `M` and its `ConsensusInfo`
sub-message `I`. -/
structure ConsensusProto (I M : Type) where
  ConsensusInfo : ProtoMessage I
  Message : ProtoMessage M

/-- The ways a getter that indexes the committee with `at` can end: `return true` with
its outputs, `return false`, or the `std::out_of_range` thrown by `at`. -/
inductive GetResult (α : Type) where
  | returnsTrue (out : α)
  | returnsFalse
  | throwsOutOfRange
deriving DecidableEq, Repr

/-- The outputs of a successful `Messenger::GetConsensusCommit`. -/
structure GetConsensusCommitResult where
  backupID : Nat
  commit : CommitPoint
deriving DecidableEq, Repr

/-- The function `Messenger::GetConsensusCommit`; `commit` is the value the output object
holds before the call. The wire value of `backupid` is assigned to the `uint16_t&`
output `backupID`, and it is that variable which is compared with the committee size and
used as the index. -/
def GetConsensusCommit (P : ConsensusProto ConsensusCommit.ConsensusInfo ConsensusCommit)
    (S : Schnorr) (c : Common) (cp : Serializable CommitPoint)
    (src : Bytes) (offset : Nat) (consensusID blockNumber : Nat) (blockHash : Bytes)
    (commit : CommitPoint) (committeeKeys : List (PubKey × Peer)) :
    GetResult GetConsensusCommitResult :=
  let result := P.Message.Parse (src.drop offset)
  if !P.Message.IsInitialized result then .returnsFalse
  else
    let consensusinfo := result.consensusinfo.getD default
    if consensusinfo.consensusid.getD 0 != consensusID then .returnsFalse
    else if consensusinfo.blocknumber.getD 0 != blockNumber then .returnsFalse
    else if (consensusinfo.blockhash.getD []).length != blockHash.length
        || consensusinfo.blockhash.getD [] != blockHash then .returnsFalse
    else
      let backupID := consensusinfo.backupid.getD 0 % UINT16_MOD
      if backupID ≥ committeeKeys.length then .returnsFalse
      else
        let commit :=
          ProtobufByteArrayToSerializable cp (consensusinfo.commit.getD default) commit
        let tmp := P.ConsensusInfo.Serialize consensusinfo
        let signature :=
          ProtobufByteArrayToSerializable c.Signature (result.signature.getD default)
            Signature.default
        match committeeKeys[backupID]? with
        | none => .throwsOutOfRange
        | some key =>
          if !S.Verify tmp signature key.1 then .returnsFalse
          else .returnsTrue { backupID := backupID, commit := commit }

/-- The outputs of a successful `Messenger::GetConsensusResponse`. -/
structure GetConsensusResponseResult where
  backupID : Nat
  response : Response
deriving DecidableEq, Repr

/-- The function `Messenger::GetConsensusResponse`; `response` is the value the output
object holds before the call. -/
def GetConsensusResponse
    (P : ConsensusProto ConsensusResponse.ConsensusInfo ConsensusResponse)
    (S : Schnorr) (c : Common) (rs : Serializable Response)
    (src : Bytes) (offset : Nat) (consensusID blockNumber : Nat) (blockHash : Bytes)
    (response : Response) (committeeKeys : List (PubKey × Peer)) :
    GetResult GetConsensusResponseResult :=
  let result := P.Message.Parse (src.drop offset)
  if !P.Message.IsInitialized result then .returnsFalse
  else
    let consensusinfo := result.consensusinfo.getD default
    if consensusinfo.consensusid.getD 0 != consensusID then .returnsFalse
    else if consensusinfo.blocknumber.getD 0 != blockNumber then .returnsFalse
    else if (consensusinfo.blockhash.getD []).length != blockHash.length
        || consensusinfo.blockhash.getD [] != blockHash then .returnsFalse
    else
      let backupID := consensusinfo.backupid.getD 0 % UINT16_MOD
      if backupID ≥ committeeKeys.length then .returnsFalse
      else
        let response :=
          ProtobufByteArrayToSerializable rs (consensusinfo.response.getD default) response
        let tmp := P.ConsensusInfo.Serialize consensusinfo
        let signature :=
          ProtobufByteArrayToSerializable c.Signature (result.signature.getD default)
            Signature.default
        match committeeKeys[backupID]? with
        | none => .throwsOutOfRange
        | some key =>
          if !S.Verify tmp signature key.1 then .returnsFalse
          else .returnsTrue { backupID := backupID, response := response }

/-- The outputs of a successful `Messenger::GetConsensusCommitFailure`. -/
structure GetConsensusCommitFailureResult where
  backupID : Nat
  errorMsg : Bytes
deriving DecidableEq, Repr

/-- The function `Messenger::GetConsensusCommitFailure`; `errorMsg` is resized to the
wire length and overwritten, so its earlier contents do not matter. -/
def GetConsensusCommitFailure
    (P : ConsensusProto ConsensusCommitFailure.ConsensusInfo ConsensusCommitFailure)
    (S : Schnorr) (c : Common)
    (src : Bytes) (offset : Nat) (consensusID blockNumber : Nat) (blockHash : Bytes)
    (committeeKeys : List (PubKey × Peer)) :
    GetResult GetConsensusCommitFailureResult :=
  let result := P.Message.Parse (src.drop offset)
  if !P.Message.IsInitialized result then .returnsFalse
  else
    let consensusinfo := result.consensusinfo.getD default
    if consensusinfo.consensusid.getD 0 != consensusID then .returnsFalse
    else if consensusinfo.blocknumber.getD 0 != blockNumber then .returnsFalse
    else if (consensusinfo.blockhash.getD []).length != blockHash.length
        || consensusinfo.blockhash.getD [] != blockHash then .returnsFalse
    else
      let backupID := consensusinfo.backupid.getD 0 % UINT16_MOD
      if backupID ≥ committeeKeys.length then .returnsFalse
      else
        let errorMsg := consensusinfo.errormsg.getD []
        let tmp := P.ConsensusInfo.Serialize consensusinfo
        let signature :=
          ProtobufByteArrayToSerializable c.Signature (result.signature.getD default)
            Signature.default
        match committeeKeys[backupID]? with
        | none => .throwsOutOfRange
        | some key =>
          if !S.Verify tmp signature key.1 then .returnsFalse
          else .returnsTrue { backupID := backupID, errorMsg := errorMsg }

/-! ## `Messenger.cpp`: consensus collective signature -/

/-- Message `ConsensusCollectiveSig.ConsensusInfo`. -/
structure ConsensusCollectiveSig.ConsensusInfo where
  consensusid : Option Nat := none
  blocknumber : Option Nat := none
  blockhash : Option Bytes := none
  leaderid : Option Nat := none
  collectivesig : Option ByteArray := none
  bitmap : List Bool := []
deriving DecidableEq, Repr, Inhabited

/-- Message `ConsensusCollectiveSig`. -/
structure ConsensusCollectiveSig where
  consensusinfo : Option ConsensusCollectiveSig.ConsensusInfo := none
  signature : Option ByteArray := none
deriving DecidableEq, Repr, Inhabited

/-- The consensus-info sub-message `Messenger::SetConsensusCollectiveSig` fills. -/
def SetConsensusCollectiveSig.consensusinfo (c : Common) (consensusID blockNumber : Nat)
    (blockHash : Bytes) (leaderID : Nat) (collectiveSig : Signature) (bitmap : List Bool) :
    ConsensusCollectiveSig.ConsensusInfo :=
  { consensusid := some consensusID
    blocknumber := some blockNumber
    blockhash := some blockHash
    leaderid := some leaderID
    collectivesig := some (SerializableToProtobufByteArray c.Signature collectiveSig)
    bitmap := bitmap }

/-- The message `Messenger::SetConsensusCollectiveSig` has built when it reaches
`SerializeToArray`; `none` when it has returned false by then. -/
def SetConsensusCollectiveSig.result
    (P : ConsensusProto ConsensusCollectiveSig.ConsensusInfo ConsensusCollectiveSig)
    (S : Schnorr) (c : Common) (consensusID blockNumber : Nat) (blockHash : Bytes)
    (leaderID : Nat) (collectiveSig : Signature) (bitmap : List Bool)
    (leaderKey : PrivKey × PubKey) : Option ConsensusCollectiveSig :=
  let consensusinfo := SetConsensusCollectiveSig.consensusinfo c consensusID blockNumber
    blockHash leaderID collectiveSig bitmap
  if !P.ConsensusInfo.IsInitialized consensusinfo then none
  else
    let tmp := P.ConsensusInfo.Serialize consensusinfo
    match S.Sign tmp leaderKey.1 leaderKey.2 with
    | none => none
    | some signature =>
      let result : ConsensusCollectiveSig :=
        { consensusinfo := some consensusinfo
          signature := some (SerializableToProtobufByteArray c.Signature signature) }
      if !P.Message.IsInitialized result then none else some result

/-- The function `Messenger::SetConsensusCollectiveSig`: the destination buffer when it
returns true, `none` when it returns false. -/
def SetConsensusCollectiveSig
    (P : ConsensusProto ConsensusCollectiveSig.ConsensusInfo ConsensusCollectiveSig)
    (S : Schnorr) (c : Common) (dst : Bytes) (offset : Nat) (consensusID blockNumber : Nat)
    (blockHash : Bytes) (leaderID : Nat) (collectiveSig : Signature) (bitmap : List Bool)
    (leaderKey : PrivKey × PubKey) : Option Bytes :=
  match SetConsensusCollectiveSig.result P S c consensusID blockNumber blockHash leaderID
      collectiveSig bitmap leaderKey with
  | none => none
  | some result =>
    let r := SerializeToArray P.Message result dst offset
    if r.1 then some r.2 else none

/-- The struct `MicroBlockHashSet`. -/
structure MicroBlockHashSet where
  m_txRootHash : Bytes
  m_stateDeltaHash : Bytes
  m_tranReceiptHash : Bytes
deriving DecidableEq, Repr

/-- The class `MicroBlockHeader` (`MicroBlockHeader.cpp`); `m_committeeHash` is the member
of the base class `BlockHeaderBase`. -/
structure MicroBlockHeader where
  m_type : Nat
  m_version : Nat
  m_shardId : Nat
  m_gasLimit : Nat
  m_gasUsed : Nat
  m_prevHash : Bytes
  m_blockNum : Nat
  m_timestamp : Nat
  m_hash : MicroBlockHashSet
  m_numTxs : Nat
  m_minerPubKey : PubKey
  m_dsBlockNum : Nat
  m_dsBlockHeader : Bytes
  m_committeeHash : Bytes
deriving DecidableEq, Repr

/-- Modelled from the spec: the class `MicroBlock` (its files are not under src). It
holds the header, the ordered transaction hashes and the co-signatures that
`MicroBlockToProtobuf` reads, and, as the specification gives every block type, a
separately stored block hash. -/
structure MicroBlock where
  m_header : MicroBlockHeader
  m_tranHashes : List Bytes
  m_cosigs : CoSignatures
  m_blockHash : Bytes
deriving DecidableEq, Repr

/-- Modelled from the spec: the constructor `MicroBlock(header, tranHashes, cosigs)`; the
block hash is not among its arguments and stays default-constructed (zero-filled). -/
def MicroBlock.new (header : MicroBlockHeader) (tranHashes : List Bytes)
    (cosigs : CoSignatures) : MicroBlock :=
  { m_header := header, m_tranHashes := tranHashes, m_cosigs := cosigs
    m_blockHash := List.replicate HASH_SIZE 0 }

/-- The function `MicroBlockHeaderToProtobuf` on a fresh message. -/
def MicroBlockHeaderToProtobuf (c : Common) (microBlockHeader : MicroBlockHeader) :
    ProtoMicroBlock.MicroBlockHeader :=
  { type := some microBlockHeader.m_type
    version := some microBlockHeader.m_version
    shardid := some microBlockHeader.m_shardId
    gaslimit := some (NumberToProtobufByteArray microBlockHeader.m_gasLimit UINT256_SIZE)
    gasused := some (NumberToProtobufByteArray microBlockHeader.m_gasUsed UINT256_SIZE)
    prevhash := some microBlockHeader.m_prevHash
    blocknum := some microBlockHeader.m_blockNum
    timestamp := some (NumberToProtobufByteArray microBlockHeader.m_timestamp UINT256_SIZE)
    txroothash := some microBlockHeader.m_hash.m_txRootHash
    numtxs := some microBlockHeader.m_numTxs
    minerpubkey :=
      some (SerializableToProtobufByteArray c.PubKey microBlockHeader.m_minerPubKey)
    dsblocknum := some microBlockHeader.m_dsBlockNum
    dsblockheader := some microBlockHeader.m_dsBlockHeader
    statedeltahash := some microBlockHeader.m_hash.m_stateDeltaHash
    tranreceipthash := some microBlockHeader.m_hash.m_tranReceiptHash
    committeehash := some microBlockHeader.m_committeeHash }

/-- The function `ProtobufToMicroBlockHeader`. The type passes through the `uint8_t`
constructor parameter. -/
def ProtobufToMicroBlockHeader (c : Common)
    (protoMicroBlockHeader : ProtoMicroBlock.MicroBlockHeader) : MicroBlockHeader :=
  { m_type := protoMicroBlockHeader.type.getD 0 % 256
    m_version := protoMicroBlockHeader.version.getD 0
    m_shardId := protoMicroBlockHeader.shardid.getD 0
    m_gasLimit :=
      ProtobufByteArrayToNumber (protoMicroBlockHeader.gaslimit.getD default) UINT256_SIZE
    m_gasUsed :=
      ProtobufByteArrayToNumber (protoMicroBlockHeader.gasused.getD default) UINT256_SIZE
    m_prevHash := copyToFixed (protoMicroBlockHeader.prevhash.getD []) HASH_SIZE
    m_blockNum := protoMicroBlockHeader.blocknum.getD 0
    m_timestamp :=
      ProtobufByteArrayToNumber (protoMicroBlockHeader.timestamp.getD default) UINT256_SIZE
    m_hash :=
      { m_txRootHash := copyToFixed (protoMicroBlockHeader.txroothash.getD []) HASH_SIZE
        m_stateDeltaHash :=
          copyToFixed (protoMicroBlockHeader.statedeltahash.getD []) HASH_SIZE
        m_tranReceiptHash :=
          copyToFixed (protoMicroBlockHeader.tranreceipthash.getD []) HASH_SIZE }
    m_numTxs := protoMicroBlockHeader.numtxs.getD 0
    m_minerPubKey :=
      ProtobufByteArrayToSerializable c.PubKey (protoMicroBlockHeader.minerpubkey.getD default)
        PubKey.default
    m_dsBlockNum := protoMicroBlockHeader.dsblocknum.getD 0
    m_dsBlockHeader := copyToFixed (protoMicroBlockHeader.dsblockheader.getD []) HASH_SIZE
    m_committeeHash := copyToFixed (protoMicroBlockHeader.committeehash.getD []) HASH_SIZE }

/-- The function `Messenger::SetMicroBlockHeader`. -/
def SetMicroBlockHeader (c : Common) (pm : ProtoMessage ProtoMicroBlock.MicroBlockHeader)
    (dst : Bytes) (offset : Nat) (microBlockHeader : MicroBlockHeader) : Bool × Bytes :=
  let result := MicroBlockHeaderToProtobuf c microBlockHeader
  if !pm.IsInitialized result then (false, dst)
  else SerializeToArray pm result dst offset

/-- The function `Messenger::GetMicroBlockHeader`; `none` when it returns false. -/
def GetMicroBlockHeader (c : Common) (pm : ProtoMessage ProtoMicroBlock.MicroBlockHeader)
    (src : Bytes) (offset : Nat) : Option MicroBlockHeader :=
  let result := pm.Parse (src.drop offset)
  if !pm.IsInitialized result then none
  else some (ProtobufToMicroBlockHeader c result)

/-- The member `MicroBlockHeader::Serialize`: status and the new `dst`. -/
def MicroBlockHeader.Serialize (c : Common) (pm : ProtoMessage ProtoMicroBlock.MicroBlockHeader)
    (self : MicroBlockHeader) (dst : Bytes) (offset : Nat) : Bool × Bytes :=
  let r := SetMicroBlockHeader c pm dst offset self
  if !r.1 then (false, r.2) else (true, r.2)

/-- The member `MicroBlockHeader::Deserialize`: status and the header the object holds
afterwards. -/
def MicroBlockHeader.Deserialize (c : Common)
    (pm : ProtoMessage ProtoMicroBlock.MicroBlockHeader) (self : MicroBlockHeader)
    (src : Bytes) (offset : Nat) : Bool × MicroBlockHeader :=
  match GetMicroBlockHeader c pm src offset with
  | none => (false, self)
  | some header => (true, header)

/-- The class `FallbackBlockHeader`. -/
structure FallbackBlockHeader where
  m_fallbackDSEpochNo : Nat
  m_fallbackEpochNo : Nat
  m_fallbackState : Nat
  m_stateRootHash : Bytes
  m_leaderConsensusId : Nat
  m_leaderNetworkInfo : Peer
  m_leaderPubKey : PubKey
  m_shardId : Nat
  m_timestamp : Nat
  m_committeeHash : Bytes
deriving DecidableEq, Repr

/-- The class `FallbackBlock` (`FallbackBlock.cpp`): header, the co-signatures of the
base class and the block hash set by `SetBlockHash`. -/
structure FallbackBlock where
  m_header : FallbackBlockHeader
  m_cosigs : CoSignatures
  m_blockHash : Bytes
deriving DecidableEq, Repr

/-- Message `ProtoFallbackBlock.FallbackBlockHeader`. -/
structure ProtoFallbackBlock.FallbackBlockHeader where
  fallbackdsepochno : Option Nat := none
  fallbackepochno : Option Nat := none
  fallbackstate : Option Nat := none
  stateroothash : Option Bytes := none
  leaderconsensusid : Option Nat := none
  leadernetworkinfo : Option ByteArray := none
  leaderpubkey : Option ByteArray := none
  shardid : Option Nat := none
  timestamp : Option ByteArray := none
  committeehash : Option Bytes := none
deriving DecidableEq, Repr, Inhabited

/-- Message `ProtoFallbackBlock`. -/
structure ProtoFallbackBlock where
  header : Option ProtoFallbackBlock.FallbackBlockHeader := none
  cosigs : Option ProtoCoSignatures := none
  blockhash : Option Bytes := none
deriving DecidableEq, Repr, Inhabited

/-- The function `FallbackBlockHeaderToProtobuf` on a fresh message. -/
def FallbackBlockHeaderToProtobuf (c : Common) (fallbackBlockHeader : FallbackBlockHeader) :
    ProtoFallbackBlock.FallbackBlockHeader :=
  { fallbackdsepochno := some fallbackBlockHeader.m_fallbackDSEpochNo
    fallbackepochno := some fallbackBlockHeader.m_fallbackEpochNo
    fallbackstate := some fallbackBlockHeader.m_fallbackState
    stateroothash := some fallbackBlockHeader.m_stateRootHash
    leaderconsensusid := some fallbackBlockHeader.m_leaderConsensusId
    leadernetworkinfo :=
      some (SerializableToProtobufByteArray c.Peer fallbackBlockHeader.m_leaderNetworkInfo)
    leaderpubkey :=
      some (SerializableToProtobufByteArray c.PubKey fallbackBlockHeader.m_leaderPubKey)
    shardid := some fallbackBlockHeader.m_shardId
    timestamp := some (NumberToProtobufByteArray fallbackBlockHeader.m_timestamp UINT256_SIZE)
    committeehash := some fallbackBlockHeader.m_committeeHash }

/-- The function `FallbackBlockToProtobuf` on a fresh message. -/
def FallbackBlockToProtobuf (c : Common) (fallbackBlock : FallbackBlock) :
    ProtoFallbackBlock :=
  { header := some (FallbackBlockHeaderToProtobuf c fallbackBlock.m_header)
    cosigs := some (CoSignaturesToProtobuf c fallbackBlock.m_cosigs)
    blockhash := some fallbackBlock.m_blockHash }

/-- The function `ProtobufToFallbackBlockHeader`. -/
def ProtobufToFallbackBlockHeader (c : Common)
    (protoFallbackBlockHeader : ProtoFallbackBlock.FallbackBlockHeader) :
    FallbackBlockHeader :=
  { m_fallbackDSEpochNo := protoFallbackBlockHeader.fallbackdsepochno.getD 0
    m_fallbackEpochNo := protoFallbackBlockHeader.fallbackepochno.getD 0
    m_fallbackState := protoFallbackBlockHeader.fallbackstate.getD 0
    m_stateRootHash := copyToFixed (protoFallbackBlockHeader.stateroothash.getD []) HASH_SIZE
    m_leaderConsensusId := protoFallbackBlockHeader.leaderconsensusid.getD 0
    m_leaderNetworkInfo :=
      ProtobufByteArrayToSerializable c.Peer
        (protoFallbackBlockHeader.leadernetworkinfo.getD default) Peer.default
    m_leaderPubKey :=
      ProtobufByteArrayToSerializable c.PubKey
        (protoFallbackBlockHeader.leaderpubkey.getD default) PubKey.default
    m_shardId := protoFallbackBlockHeader.shardid.getD 0
    m_timestamp :=
      ProtobufByteArrayToNumber (protoFallbackBlockHeader.timestamp.getD default) UINT256_SIZE
    m_committeeHash := copyToFixed (protoFallbackBlockHeader.committeehash.getD []) HASH_SIZE }

/-- The function `ProtobufToFallbackBlock`: the block is rebuilt from header and
co-signatures, then `SetBlockHash` stores the decoded hash. -/
def ProtobufToFallbackBlock (c : Common) (protoFallbackBlock : ProtoFallbackBlock) :
    FallbackBlock :=
  { m_header := ProtobufToFallbackBlockHeader c (protoFallbackBlock.header.getD default)
    m_cosigs := ProtobufToCoSignatures c (protoFallbackBlock.cosigs.getD default)
    m_blockHash := copyToFixed (protoFallbackBlock.blockhash.getD []) HASH_SIZE }

/-- The function `Messenger::SetFallbackBlock`. -/
def SetFallbackBlock (c : Common) (pm : ProtoMessage ProtoFallbackBlock)
    (dst : Bytes) (offset : Nat) (fallbackBlock : FallbackBlock) : Bool × Bytes :=
  let result := FallbackBlockToProtobuf c fallbackBlock
  if !pm.IsInitialized result then (false, dst)
  else SerializeToArray pm result dst offset

/-- The function `Messenger::GetFallbackBlock`; `none` when it returns false. -/
def GetFallbackBlock (c : Common) (pm : ProtoMessage ProtoFallbackBlock)
    (src : Bytes) (offset : Nat) : Option FallbackBlock :=
  let result := pm.Parse (src.drop offset)
  if !pm.IsInitialized result then none
  else some (ProtobufToFallbackBlock c result)

/-- The member `FallbackBlock::Serialize`: status and the new `dst`. -/
def FallbackBlock.Serialize (c : Common) (pm : ProtoMessage ProtoFallbackBlock)
    (self : FallbackBlock) (dst : Bytes) (offset : Nat) : Bool × Bytes :=
  let r := SetFallbackBlock c pm dst offset self
  if !r.1 then (false, r.2) else (true, r.2)

/-- The member `FallbackBlock::Deserialize`: status and the block the object holds
afterwards. -/
def FallbackBlock.Deserialize (c : Common) (pm : ProtoMessage ProtoFallbackBlock)
    (self : FallbackBlock) (src : Bytes) (offset : Nat) : Bool × FallbackBlock :=
  match GetFallbackBlock c pm src offset with
  | none => (false, self)
  | some block => (true, block)

/-! ## `Messenger.cpp`: Tx block headers and block links -/

/-- The struct `TxBlockHashSet`. -/
structure TxBlockHashSet where
  m_txRootHash : Bytes
  m_stateRootHash : Bytes
  m_deltaRootHash : Bytes
  m_stateDeltaHash : Bytes
  m_tranReceiptRootHash : Bytes
deriving DecidableEq, Repr

/-- The class `TxBlockHeader`, by the arguments `ProtobufToTxBlockHeader` constructs it
from. -/
structure TxBlockHeader where
  m_type : Nat
  m_version : Nat
  m_gasLimit : Nat
  m_gasUsed : Nat
  m_prevHash : Bytes
  m_blockNum : Nat
  m_timestamp : Nat
  m_hash : TxBlockHashSet
  m_numTxs : Nat
  m_numMicroBlockHashes : Nat
  m_minerPubKey : PubKey
  m_dsBlockNum : Nat
  m_dsBlockHeader : Bytes
  m_committeeHash : Bytes
deriving DecidableEq, Repr

/-- The function `ProtobufToTxBlockHeader`. -/
def ProtobufToTxBlockHeader (c : Common) (protoTxBlockHeader : ProtoTxBlock.TxBlockHeader) :
    TxBlockHeader :=
  let protoTxBlockHeaderHash := protoTxBlockHeader.hash.getD default
  { m_type := protoTxBlockHeader.type.getD 0
    m_version := protoTxBlockHeader.version.getD 0
    m_gasLimit :=
      ProtobufByteArrayToNumber (protoTxBlockHeader.gaslimit.getD default) UINT256_SIZE
    m_gasUsed :=
      ProtobufByteArrayToNumber (protoTxBlockHeader.gasused.getD default) UINT256_SIZE
    m_prevHash := copyToFixed (protoTxBlockHeader.prevhash.getD []) HASH_SIZE
    m_blockNum := protoTxBlockHeader.blocknum.getD 0
    m_timestamp :=
      ProtobufByteArrayToNumber (protoTxBlockHeader.timestamp.getD default) UINT256_SIZE
    m_hash :=
      { m_txRootHash := copyToFixed (protoTxBlockHeaderHash.txroothash.getD []) HASH_SIZE
        m_stateRootHash := copyToFixed (protoTxBlockHeaderHash.stateroothash.getD []) HASH_SIZE
        m_deltaRootHash := copyToFixed (protoTxBlockHeaderHash.deltaroothash.getD []) HASH_SIZE
        m_stateDeltaHash :=
          copyToFixed (protoTxBlockHeaderHash.statedeltahash.getD []) HASH_SIZE
        m_tranReceiptRootHash :=
          copyToFixed (protoTxBlockHeaderHash.tranreceiptroothash.getD []) HASH_SIZE }
    m_numTxs := protoTxBlockHeader.numtxs.getD 0
    m_numMicroBlockHashes := protoTxBlockHeader.nummicroblockhashes.getD 0
    m_minerPubKey :=
      ProtobufByteArrayToSerializable c.PubKey (protoTxBlockHeader.minerpubkey.getD default)
        PubKey.default
    m_dsBlockNum := protoTxBlockHeader.dsblocknum.getD 0
    m_dsBlockHeader := copyToFixed (protoTxBlockHeader.dsblockheader.getD []) HASH_SIZE
    m_committeeHash := copyToFixed (protoTxBlockHeader.committeehash.getD []) HASH_SIZE }

/-- Message `ProtoBlockLink`. -/
structure ProtoBlockLink where
  index : Option Nat := none
  dsindex : Option Nat := none
  blocktype : Option Nat := none
  blockhash : Option Bytes := none
deriving DecidableEq, Repr, Inhabited

/-- The tuple `Messenger::GetBlockLink` fills, the block type as the integer the enum is
cast from. -/
structure BlockLinkTuple where
  INDEX : Nat
  DSINDEX : Nat
  BLOCKTYPE : Nat
  BLOCKHASH : Bytes
deriving DecidableEq, Repr

/-- The function `Messenger::GetBlockLink`; `none` when it returns false. -/
def GetBlockLink (pm : ProtoMessage ProtoBlockLink) (src : Bytes) (offset : Nat) :
    Option BlockLinkTuple :=
  let result := pm.Parse (src.drop offset)
  if !pm.IsInitialized result then none
  else
    some { INDEX := result.index.getD 0
           DSINDEX := result.dsindex.getD 0
           BLOCKTYPE := result.blocktype.getD 0
           BLOCKHASH := copyToFixed (result.blockhash.getD []) HASH_SIZE }

/-! ## `Messenger.cpp`: decoders that copy a whole wire field into a hash -/

/-- What `copy(src.begin(), src.end(), dst.asArray().begin())` stores: `dst` is the
fixed-width destination afterwards and `pastEnd` the bytes stored beyond its last byte,
in order. -/
structure CopyAll where
  dst : Bytes
  pastEnd : Bytes
deriving DecidableEq, Repr

/-- The call `copy(src.begin(), src.end(), dst.asArray().begin())` on a destination
that holds `old`: every byte of `src` is stored, the first one at the first byte of the
destination. -/
def copyAll (src old : Bytes) : CopyAll :=
  { dst := src.take old.length ++ old.drop src.length
    pastEnd := src.drop old.length }

/-- A transaction with its receipt (`TransactionWithReceipt`). -/
structure TransactionWithReceipt where
  tx : Nat
deriving DecidableEq, Repr

/-- The default-constructed `TransactionWithReceipt()`. -/
def TransactionWithReceipt.default : TransactionWithReceipt := ⟨0⟩

/-- Message `NodeForwardTransaction`. -/
structure NodeForwardTransaction where
  blocknum : Option Nat := none
  microblocktxhash : Option Bytes := none
  microblockdeltahash : Option Bytes := none
  microblockreceipthash : Option Bytes := none
  shardid : Option Nat := none
  txnswithreceipt : List ByteArray := []
deriving DecidableEq, Repr, Inhabited

/-- Message `LookupGetTxBodyFromSeed`. -/
structure LookupGetTxBodyFromSeed where
  txhash : Option Bytes := none
  listenport : Option Nat := none
deriving DecidableEq, Repr, Inhabited

/-- Message `LookupSetTxBodyFromSeed`. -/
structure LookupSetTxBodyFromSeed where
  txhash : Option Bytes := none
  txbody : Option ByteArray := none
deriving DecidableEq, Repr, Inhabited

/-- The struct `ForwardedTxnEntry`. -/
structure ForwardedTxnEntry where
  m_blockNum : Nat
  m_hash : MicroBlockHashSet
  m_shardId : Nat
  m_transactions : List TransactionWithReceipt
deriving DecidableEq, Repr

/-- The outcome of a successful `Messenger::GetNodeForwardTransaction`: the entry, and
for the three hash copies, in source order, the bytes stored past the end of the
destination. -/
structure GetNodeForwardTransactionResult where
  entry : ForwardedTxnEntry
  pastEnd : List Bytes
deriving DecidableEq, Repr

/-- The function `Messenger::GetNodeForwardTransaction`; `entry` is what the output
object holds before the call; `none` when it returns false. The three hashes are
default-constructed (zero-filled) locals filled by `copy(begin, end, out)`. -/
def GetNodeForwardTransaction (tr : Serializable TransactionWithReceipt)
    (pm : ProtoMessage NodeForwardTransaction) (src : Bytes) (offset : Nat)
    (entry : ForwardedTxnEntry) : Option GetNodeForwardTransactionResult :=
  let result := pm.Parse (src.drop offset)
  if !pm.IsInitialized result then none
  else
    let txRootHash := copyAll (result.microblocktxhash.getD []) (List.replicate HASH_SIZE 0)
    let stateDeltaHash :=
      copyAll (result.microblockdeltahash.getD []) (List.replicate HASH_SIZE 0)
    let tranReceiptHash :=
      copyAll (result.microblockreceipthash.getD []) (List.replicate HASH_SIZE 0)
    some
      { entry :=
          { m_blockNum := result.blocknum.getD 0
            m_hash :=
              { m_txRootHash := txRootHash.dst
                m_stateDeltaHash := stateDeltaHash.dst
                m_tranReceiptHash := tranReceiptHash.dst }
            m_shardId := result.shardid.getD 0
            m_transactions := entry.m_transactions ++ result.txnswithreceipt.map (fun txn =>
              ProtobufByteArrayToSerializable tr txn TransactionWithReceipt.default) }
        pastEnd := [txRootHash.pastEnd, stateDeltaHash.pastEnd, tranReceiptHash.pastEnd] }

/-- The outcome of a successful `Messenger::GetLookupGetTxBodyFromSeed`. -/
structure GetLookupGetTxBodyFromSeedResult where
  txHash : Bytes
  listenPort : Nat
  pastEnd : Bytes
deriving DecidableEq, Repr

/-- The function `Messenger::GetLookupGetTxBodyFromSeed`; `txHash` is what the caller's
hash holds before the call; `none` when it returns false. -/
def GetLookupGetTxBodyFromSeed (pm : ProtoMessage LookupGetTxBodyFromSeed) (src : Bytes)
    (offset : Nat) (txHash : Bytes) : Option GetLookupGetTxBodyFromSeedResult :=
  let result := pm.Parse (src.drop offset)
  if !pm.IsInitialized result then none
  else
    let copied := copyAll (result.txhash.getD []) txHash
    some { txHash := copied.dst, listenPort := result.listenport.getD 0
           pastEnd := copied.pastEnd }

/-- The outcome of a successful `Messenger::GetLookupSetTxBodyFromSeed`. -/
structure GetLookupSetTxBodyFromSeedResult where
  txHash : Bytes
  txBody : TransactionWithReceipt
  pastEnd : Bytes
deriving DecidableEq, Repr

/-- The function `Messenger::GetLookupSetTxBodyFromSeed`; `txHash` and `txBody` are what
the caller's objects hold before the call; `none` when it returns false. -/
def GetLookupSetTxBodyFromSeed (tr : Serializable TransactionWithReceipt)
    (pm : ProtoMessage LookupSetTxBodyFromSeed) (src : Bytes) (offset : Nat)
    (txHash : Bytes) (txBody : TransactionWithReceipt) :
    Option GetLookupSetTxBodyFromSeedResult :=
  let result := pm.Parse (src.drop offset)
  if !pm.IsInitialized result then none
  else
    let copied := copyAll (result.txhash.getD []) txHash
    some { txHash := copied.dst
           txBody := ProtobufByteArrayToSerializable tr (result.txbody.getD default) txBody
           pastEnd := copied.pastEnd }

/-! ## `FallbackBlock.cpp`: comparison and block hash -/

/-- The comparison operators of `FallbackBlockHeader`, a class outside the translated
files: `eq` is its `operator==` and `lt` its `operator<`. -/
structure FallbackBlockHeaderOps where
  eq : FallbackBlockHeader → FallbackBlockHeader → Bool
  lt : FallbackBlockHeader → FallbackBlockHeader → Bool

/-- The member `FallbackBlock::GetHeader`. -/
def FallbackBlock.GetHeader (self : FallbackBlock) : FallbackBlockHeader := self.m_header

/-- The member `FallbackBlock::operator==`. -/
def FallbackBlock.operatorEq (o : FallbackBlockHeaderOps) (self block : FallbackBlock) : Bool :=
  o.eq self.m_header block.m_header

/-- The member `FallbackBlock::operator<`. -/
def FallbackBlock.operatorLt (o : FallbackBlockHeaderOps) (self block : FallbackBlock) : Bool :=
  o.lt self.m_header block.m_header

/-- The member `FallbackBlock::operator>`. -/
def FallbackBlock.operatorGt (o : FallbackBlockHeaderOps) (self block : FallbackBlock) : Bool :=
  !(FallbackBlock.operatorEq o self block || FallbackBlock.operatorLt o self block)

/-- The member `FallbackBlock::GetBlockHash`. -/
def FallbackBlock.GetBlockHash (self : FallbackBlock) : Bytes := self.m_blockHash

/-- The member `FallbackBlock::SetBlockHash`. -/
def FallbackBlock.SetBlockHash (self : FallbackBlock) (blockHash : Bytes) : FallbackBlock :=
  { self with m_blockHash := blockHash }

/-! ## `MicroBlockHeader.cpp`: constructors -/

/-- The members of a `MicroBlockHeader` object when a constructor body starts to run. No
constructor of `MicroBlockHeader.cpp` has a member initializer for the default and the
byte-buffer construction: the members of class type are default-constructed (zero
hashes, zero `uint256_t`, default key) and the members of built-in type keep whatever
the storage held, passed here as `storage`. -/
def MicroBlockHeader.membersAtEntry (storage : MicroBlockHeader) : MicroBlockHeader :=
  { m_type := storage.m_type
    m_version := storage.m_version
    m_shardId := storage.m_shardId
    m_gasLimit := 0
    m_gasUsed := 0
    m_prevHash := List.replicate HASH_SIZE 0
    m_blockNum := storage.m_blockNum
    m_timestamp := 0
    m_hash :=
      { m_txRootHash := List.replicate HASH_SIZE 0
        m_stateDeltaHash := List.replicate HASH_SIZE 0
        m_tranReceiptHash := List.replicate HASH_SIZE 0 }
    m_numTxs := storage.m_numTxs
    m_minerPubKey := PubKey.default
    m_dsBlockNum := storage.m_dsBlockNum
    m_dsBlockHeader := List.replicate HASH_SIZE 0
    m_committeeHash := List.replicate HASH_SIZE 0 }

/-- The constructor `MicroBlockHeader::MicroBlockHeader()`: its body assigns
`m_blockNum = (uint64_t)-1`. -/
def MicroBlockHeader.new (storage : MicroBlockHeader) : MicroBlockHeader :=
  { MicroBlockHeader.membersAtEntry storage with m_blockNum := UINT64_MOD - 1 }

/-- The constructor `MicroBlockHeader::MicroBlockHeader(src, offset)`: its body calls
`Deserialize(src, offset)` and logs a warning when that fails. -/
def MicroBlockHeader.fromBytes (c : Common)
    (pm : ProtoMessage ProtoMicroBlock.MicroBlockHeader) (storage : MicroBlockHeader)
    (src : Bytes) (offset : Nat) : MicroBlockHeader :=
  (MicroBlockHeader.Deserialize c pm (MicroBlockHeader.membersAtEntry storage) src offset).2

/-! ## `MicroBlockHeader.cpp`: comparison -/

/-- The `operator<` of the member types of a header that are classes outside the
translated files: the fixed-width hashes, the hash set and the public key. Their
`operator==` is equality of the values. -/
structure MemberOrders where
  Hash : Bytes → Bytes → Bool
  MicroBlockHashSet : MicroBlockHashSet → MicroBlockHashSet → Bool
  PubKey : PubKey → PubKey → Bool

/-- The `operator<` of the built-in unsigned integer types. -/
def natLess (a b : Nat) : Bool := decide (a < b)

/-- The `operator<` of `std::tuple`, one element at a time: `t < u` is
`get<0>(t) < get<0>(u) || (!(get<0>(u) < get<0>(t)) && tail(t) < tail(u))`. -/
def tupleLess {α β : Type} (ltHead : α → α → Bool) (ltTail : β → β → Bool) (t u : α × β) :
    Bool :=
  ltHead t.1 u.1 || (!ltHead u.1 t.1 && ltTail t.2 u.2)

/-- The type of `std::tie(m_type, m_version, m_shardId, m_gasLimit, m_gasUsed, m_prevHash,
m_blockNum, m_timestamp, m_hash, m_numTxs, m_minerPubKey, m_dsBlockNum,
m_dsBlockHeader)`. -/
abbrev MicroBlockHeader.Tie : Type :=
  Nat × Nat × Nat × Nat × Nat × Bytes × Nat × Nat × MicroBlockHashSet × Nat × PubKey × Nat × Bytes

/-- The tuple `std::tie(...)` of the thirteen members the comparison operators read. -/
def MicroBlockHeader.tie (h : MicroBlockHeader) : MicroBlockHeader.Tie :=
  (h.m_type, h.m_version, h.m_shardId, h.m_gasLimit, h.m_gasUsed, h.m_prevHash, h.m_blockNum,
   h.m_timestamp, h.m_hash, h.m_numTxs, h.m_minerPubKey, h.m_dsBlockNum, h.m_dsBlockHeader)

/-- The `operator<` of the thirteen-element tuple. -/
def MicroBlockHeader.tieLess (o : MemberOrders) :
    MicroBlockHeader.Tie → MicroBlockHeader.Tie → Bool :=
  tupleLess natLess (tupleLess natLess (tupleLess natLess (tupleLess natLess
    (tupleLess natLess (tupleLess o.Hash (tupleLess natLess (tupleLess natLess
      (tupleLess o.MicroBlockHashSet (tupleLess natLess (tupleLess o.PubKey
        (tupleLess natLess o.Hash)))))))))))

/-- The `operator>` of the thirteen-element tuple: `t > u` is `u < t`. -/
def MicroBlockHeader.tieGreater (o : MemberOrders) (t u : MicroBlockHeader.Tie) : Bool :=
  MicroBlockHeader.tieLess o u t

/-- The `operator==` of a member: equality of the values. -/
def valueEq {α : Type} [DecidableEq α] (a b : α) : Bool := decide (a = b)

/-- The `operator==` of `std::tuple`, one element at a time:
`get<0>(t) == get<0>(u) && tail(t) == tail(u)`. -/
def tupleEq {α β : Type} (eqHead : α → α → Bool) (eqTail : β → β → Bool) (t u : α × β) :
    Bool :=
  eqHead t.1 u.1 && eqTail t.2 u.2

/-- The `operator==` of the thirteen-element tuple. -/
def MicroBlockHeader.tieEq : MicroBlockHeader.Tie → MicroBlockHeader.Tie → Bool :=
  tupleEq valueEq (tupleEq valueEq (tupleEq valueEq (tupleEq valueEq
    (tupleEq valueEq (tupleEq valueEq (tupleEq valueEq (tupleEq valueEq
      (tupleEq valueEq (tupleEq valueEq (tupleEq valueEq
        (tupleEq valueEq valueEq)))))))))))

/-- The member `MicroBlockHeader::operator==`: `std::tie(...) == std::tie(header...)`. -/
def MicroBlockHeader.operatorEq (self header : MicroBlockHeader) : Bool :=
  MicroBlockHeader.tieEq self.tie header.tie

/-- The member `MicroBlockHeader::operator<`: `std::tie(header...) > std::tie(...)`. -/
def MicroBlockHeader.operatorLt (o : MemberOrders) (self header : MicroBlockHeader) : Bool :=
  MicroBlockHeader.tieGreater o header.tie self.tie

/-- The member `MicroBlockHeader::operator>`: `header < *this`. -/
def MicroBlockHeader.operatorGt (o : MemberOrders) (self header : MicroBlockHeader) : Bool :=
  MicroBlockHeader.operatorLt o header self

/-! ## `Messenger.cpp`: DS blocks from a seed -/

/-- Message `LookupSetDSBlockFromSeed`. -/
structure LookupSetDSBlockFromSeed where
  lowblocknum : Option Nat := none
  highblocknum : Option Nat := none
  pubkey : Option ByteArray := none
  dsblocks : List ProtoDSBlock := []
  signature : Option ByteArray := none
deriving DecidableEq, Repr, Inhabited

/-- The template `RepeatableToArray(repeatable, dst, offset)`: the elements are written
one after the other, each at the running offset; the first failing `SerializeToArray`
ends the loop. Returns the status and the new `dst`. -/
def RepeatableToArray {M : Type} (pm : ProtoMessage M) :
    List M → Bytes → Nat → Bool × Bytes
  | [], dst, _ => (true, dst)
  | element :: rest, dst, tempOffset =>
    let r := SerializeToArray pm element dst tempOffset
    if !r.1 then (false, r.2)
    else RepeatableToArray pm rest r.2 (tempOffset + pm.ByteSize element)

/-- The outcome of a successful `Messenger::GetLookupSetDSBlockFromSeed`. -/
structure GetLookupSetDSBlockFromSeedResult where
  lowBlockNum : Nat
  highBlockNum : Nat
  lookupPubKey : PubKey
  dsBlocks : List DSBlock
deriving DecidableEq, Repr

/-- The function `Messenger::GetLookupSetDSBlockFromSeed`; `lookupPubKey` and `dsBlocks`
are what the caller's objects hold before the call; `none` when it returns false. -/
def GetLookupSetDSBlockFromSeed (c : Common) (pm : ProtoMessage LookupSetDSBlockFromSeed)
    (pmDSBlock : ProtoMessage ProtoDSBlock) (schnorr : Schnorr) (src : Bytes) (offset : Nat)
    (lookupPubKey : PubKey) (dsBlocks : List DSBlock) :
    Option GetLookupSetDSBlockFromSeedResult :=
  let result := pm.Parse (src.drop offset)
  if !pm.IsInitialized result then none
  else
    let lowBlockNum := result.lowblocknum.getD 0
    let highBlockNum := result.highblocknum.getD 0
    let lookupPubKey :=
      ProtobufByteArrayToSerializable c.PubKey (result.pubkey.getD default) lookupPubKey
    let dsBlocks := dsBlocks ++ result.dsblocks.map (fun proto_dsblock =>
      ProtobufToDSBlock c proto_dsblock)
    let signature :=
      ProtobufByteArrayToSerializable c.Signature (result.signature.getD default)
        Signature.default
    if result.dsblocks.length > 0 then
      let tmp := RepeatableToArray pmDSBlock result.dsblocks [] 0
      if !tmp.1 then none
      else if !schnorr.Verify tmp.2 signature lookupPubKey then none
      else some { lowBlockNum := lowBlockNum, highBlockNum := highBlockNum
                  lookupPubKey := lookupPubKey, dsBlocks := dsBlocks }
    else some { lowBlockNum := lowBlockNum, highBlockNum := highBlockNum
                lookupPubKey := lookupPubKey, dsBlocks := dsBlocks }

/-! ## Concrete inputs

A four-member committee `[A, B, C, D]`, DS block 9 on the chain and DS block 10 arriving
with the single PoW winner `E`; the collaborators are small executable stand-ins. -/

namespace Example

/-- Key of member `A`. -/
def A : PubKey := ⟨1⟩
/-- Key of member `B`. -/
def B : PubKey := ⟨2⟩
/-- Key of member `C`. -/
def C : PubKey := ⟨3⟩
/-- Key of member `D`. -/
def D : PubKey := ⟨4⟩
/-- Key of the PoW winner `E`. -/
def E : PubKey := ⟨5⟩

/-- Peer of the node with key number `n`. -/
def peerOf (n : Nat) : Peer := ⟨167772160 + n, 30300 + n⟩

/-- The committee `[A, B, C, D]`. -/
def committee : DSCommittee := [(A, peerOf 1), (B, peerOf 2), (C, peerOf 3), (D, peerOf 4)]

/-- Stand-in value codecs: one or two "bytes" per value. -/
def common : Common :=
  { PubKey := { Serialize := fun k => [k.key], Deserialize := fun b _ => ⟨b.headD 0⟩ }
    Peer :=
      { Serialize := fun p => [p.m_ipAddress, p.m_listenPortHost]
        Deserialize := fun b _ => ⟨b.getD 0 0, b.getD 1 0⟩ }
    Signature := { Serialize := fun g => [g.sig], Deserialize := fun b _ => ⟨b.headD 0⟩ }
    SWInfo := { Serialize := fun w => [w.version], Deserialize := fun b _ => ⟨b.headD 0⟩ }
    RESERVED_FIELD_SIZE := 4 }

/-- Stand-in signer: the signature of `m` under key `k` is `(sum m + k) % 251`, and the
public key of private key `k` is `k`. -/
def schnorr : Schnorr :=
  { Sign := fun m sk _ => some ⟨(m.sum + sk.key) % 251⟩
    Verify := fun m g pk => g.sig == (m.sum + pk.key) % 251 }

/-- Stand-in digest: 32 copies of the byte sum. -/
def sha2 (b : Bytes) : Bytes := List.replicate HASH_SIZE (b.sum % 256)

/-- A 32-byte hash with every byte `b`. -/
def hashOf (b : Nat) : Bytes := List.replicate HASH_SIZE b

/-- The received sharding structure: one shard of two nodes. -/
def shards : DequeOfShard := [[(⟨6⟩, peerOf 6, 10), (⟨7⟩, peerOf 7, 20)]]

/-- The received DS receivers. -/
def dsReceivers : List Peer := [peerOf 1]

/-- The received shard receivers. -/
def shardReceivers : List (List Peer) := [[peerOf 6]]

/-- The received shard senders. -/
def shardSenders : List (List Peer) := [[peerOf 7]]

/-- Header of DS block `n` with winner `E`, carrying the given sharding hash. -/
def header (n : Nat) (shardingHash : Bytes) : DSBlockHeader :=
  { m_dsDifficulty := 5, m_difficulty := 3, m_prevHash := hashOf 9
    m_leaderPubKey := A, m_blockNum := n, m_timestamp := 1541000000
    m_swInfo := ⟨1⟩, m_PoWDSWinners := [(E, peerOf 5)]
    m_hashset :=
      { m_shardingHash := shardingHash, m_txSharingHash := hashOf 3
        m_reservedField := [0, 0, 0, 0] }
    m_committeeHash := hashOf 4 }

/-- The DS block `n` co-signed with bitmap `B2`. -/
def block (n : Nat) (shardingHash : Bytes) (B2 : List Bool) : DSBlock :=
  { m_header := header n shardingHash
    m_cosigs := { m_CS1 := ⟨11⟩, m_B1 := [true, true, true, false], m_CS2 := ⟨15⟩, m_B2 := B2 }
    m_blockHash := hashOf 7 }

/-- The arriving DS block 10, co-signed by `A`, `B`, `C`. -/
def block10 : DSBlock := block 10 (hashOf 1) [true, true, true, false]

/-- A VC block with counter `n`. -/
def vcBlock (n : Nat) : VCBlock :=
  { m_header :=
      { m_VieWChangeDSEpochNo := 10, m_VieWChangeEpochNo := 100, m_ViewChangeState := 1
        m_CandidateLeaderIndex := 1, m_CandidateLeaderNetworkInfo := peerOf 2
        m_CandidateLeaderPubKey := B, m_VCCounter := n, m_Timestamp := 1541000001
        m_committeeHash := hashOf 4 }
    m_cosigs := { m_CS1 := ⟨21⟩, m_B1 := [true, true, true, false], m_CS2 := ⟨22⟩,
                  m_B2 := [true, true, true, false] }
    m_blockHash := hashOf 8 }

/-- The wire message is decoded by a stand-in runtime: byte `b` at the offset selects
the DS block whose sharding hash has every byte `b`. -/
def pmNodeDSBlock : ProtoMessage NodeDSBlock :=
  { Serialize := fun m => [((m.dsblock.getD default).blockhash.getD []).length]
    Parse := fun b =>
      { shardid := some 0
        dsblock := some (DSBlockToProtobuf common
          (block 10 (hashOf (b.headD 0)) [true, true, true, false]))
        vcblocks := [VCBlockToProtobuf common (vcBlock 1)]
        sharding := some (ShardingStructureToProtobuf common shards)
        assignments :=
          TxSharingAssignmentsToProtobuf common dsReceivers shardReceivers shardSenders }
    IsInitialized := fun m => m.dsblock.isSome }

/-- The node state before the reception: the shard node with key 6, DS block 9 last. -/
def state : NodeState :=
  { m_selfKey := (⟨6⟩, ⟨6⟩), m_selfPeer := peerOf 6
    m_dsBlockChain := [block 9 (hashOf 1) [true, true, true, false]]
    m_txBlockChain := { lastBlockHash := hashOf 2, lastBlockNum := 900 }
    m_blocklinkchain := [{ index := 9, dsindex := 9, blocktype := BlockType.DS,
                           blockhash := hashOf 6 }]
    m_currentEpochNum := 901, m_consensusID := 0
    m_DSCommittee := committee, m_dsBlockRand := [], m_curSWInfo := ⟨1⟩
    ds_m_shards := [], ds_m_DSReceivers := [], ds_m_shardReceivers := []
    ds_m_shardSenders := [], ds_m_latestActiveDSBlockNum := 9
    ds_m_consensusMyID := 2, ds_m_consensusLeaderID := 0, ds_m_mode := Mode.BACKUP_DS
    lookup_m_syncType := SyncType.NO_SYNC, m_fromNewProcess := false
    m_myshardId := 0, m_numShards := 1, m_myShardMembers := []
    m_consensusMyID := 0, m_consensusLeaderID := 0, m_isPrimary := false
    m_isMBSender := false, m_DSMBReceivers := [], m_txnSharingIAmSender := false
    m_txnSharingIAmForwarder := false, m_txnSharingAssignedNodes := []
    m_stillMiningPrimary := true, m_justDidFallback := false
    calls := [] }

/-- Stand-in collaborators of the node; the aggregate of a key list is the sum of its
keys and every collective signature `15` is accepted for the first three members. -/
def env : NodeEnv :=
  { LOOKUP_NODE_MODE := false
    BROADCAST_TREEBASED_CLUSTER_MODE := false
    BROADCAST_GOSSIP_MODE := false
    USE_REMOTE_TXN_CREATOR := false
    NUM_MICROBLOCK_SENDERS := 5
    NUM_MICROBLOCK_GOSSIP_RECEIVERS := 10
    common := common
    schnorr := { Sign := fun _ _ _ => none, Verify := fun _ g pk => g.sig == 15 && pk.key == 6 }
    pmNodeDSBlock := pmNodeDSBlock
    pmShardingStructure :=
      { Serialize := fun m => [m.shards.length], Parse := fun _ => default
        IsInitialized := fun _ => true }
    pmTxSharingAssignments :=
      { Serialize := fun m => [m.dsnodes.length + 2], Parse := fun _ => default
        IsInitialized := fun _ => true }
    pmCommittee :=
      { Serialize := fun m => [m.members.length], Parse := fun _ => default
        IsInitialized := fun _ => true }
    sha2 := sha2
    NumForConsensus := fun n => 2 * n / 3 + 1
    AggregatePubKeys := fun keys => if keys = [] then none else some ⟨(keys.map (·.key)).sum⟩
    SerializeHeader := fun h => some [h.m_blockNum % 256]
    SerializeDSBlock := fun b => [b.m_header.m_blockNum % 256, b.m_cosigs.m_CS2.sig]
    SetBitVector := fun bits => bits.map (fun b => if b then 1 else 0)
    GetMyHash := fun _ => hashOf 7
    charArrTo16Bits := fun h => h.getD 30 0 * 256 + h.getD 31 0
    DSBlockRand := fun b => b.m_blockHash
    GetLatestIndex := fun c => (c.getLast?.map (·.index)).getD 0
    CheckState := fun _ => true
    ProcessVCBlockCore := fun s _ => (true, s)
    ProcessShardingStructure := fun _ => true
    GetIsServer := fun _ => false }

end Example

/-! ## Definitions used in the statements: committee rotation -/

/-- The committee entry `UpdateDSCommiteeComposition` pushes for a winner. -/
def winnerEntry (selfPubKey : PubKey) (w : PubKey × Peer) : PubKey × Peer :=
  if selfPubKey = w.1 then (selfPubKey, Peer.default) else w

/-! ## Definitions used in the statements: co-signature inputs -/

/-- Inputs on which the claim C1 fails: all four members of `[A, B, C, D]` are flagged
in `B2`, one more than `NumForConsensus 4 = 3`. -/
def Example.blockAllSigned : DSBlock :=
  Example.block 10 (Example.hashOf 1) [true, true, true, true]

/-- A node environment in which every aggregation succeeds and every signature
verifies. -/
def Example.envAcceptAll : NodeEnv :=
  { Example.env with
    AggregatePubKeys := fun keys => some ⟨(keys.map (·.key)).sum⟩
    schnorr := { Sign := fun _ _ _ => none, Verify := fun _ _ _ => true } }

/-! ## Definitions used in the statements: stages and call log of the reception -/

/-- The state in which `ProcessVCDSBlocksMessage` decodes the message: the sync type is
reset and the four containers of the directory service are cleared. -/
def ProcessVCDSBlocksMessage.entry (env : NodeEnv) (s : NodeState) : NodeState :=
  let s :=
    if !env.LOOKUP_NODE_MODE && s.lookup_m_syncType != SyncType.NO_SYNC then
      { s with lookup_m_syncType := SyncType.NO_SYNC, m_fromNewProcess := false }
    else s
  { s with
    ds_m_shards := [], ds_m_DSReceivers := [], ds_m_shardReceivers := [],
    ds_m_shardSenders := [] }

/-- The state in which the hash checks run: the decoded containers are in place. -/
def ProcessVCDSBlocksMessage.decoded (env : NodeEnv) (s : NodeState)
    (m : NodeVCDSBlocksMessage) : NodeState :=
  { ProcessVCDSBlocksMessage.entry env s with
    ds_m_shards := m.shards, ds_m_DSReceivers := m.dsReceivers,
    ds_m_shardReceivers := m.shardReceivers, ds_m_shardSenders := m.shardSenders }

/-- Calls recorded by the loop over the VC blocks. -/
def Call.isVCStage : Call → Bool
  | .WarnUnexpectedVCBlockCounter _ _ => true
  | .ProcessVCBlockCore _ _ => true
  | _ => false

/-- The call log `after` extends the log `before` by calls that satisfy `ok`. -/
def callsExtend (ok : Call → Bool) (before after : List Call) : Prop :=
  ∃ R, after = before ++ R ∧ ∀ c ∈ R, ok c = true

/-- The value classes round-trip through their own serialization: `Deserialize` applied
to the bytes of `Serialize x` yields `x`, whatever the object held before. -/
structure Common.RoundTrip (c : Common) : Prop where
  PubKey : ∀ x old, c.PubKey.Deserialize (c.PubKey.Serialize x) old = x
  Peer : ∀ x old, c.Peer.Deserialize (c.Peer.Serialize x) old = x
  Signature : ∀ x old, c.Signature.Deserialize (c.Signature.Serialize x) old = x
  SWInfo : ∀ x old, c.SWInfo.Deserialize (c.SWInfo.Serialize x) old = x

/-- A `DSBlockHeader` value the C++ class can hold: `uint8_t` difficulties, a `uint256_t`
timestamp, fixed-width hashes and reserved field, and winners in strictly ascending key
order (the iteration order of the `std::map`). -/
def DSBlockHeader.WF (c : Common) (h : DSBlockHeader) : Prop :=
  h.m_dsDifficulty < 256 ∧ h.m_difficulty < 256
  ∧ h.m_prevHash.length = HASH_SIZE
  ∧ h.m_timestamp < 256 ^ UINT256_SIZE
  ∧ h.m_PoWDSWinners.Pairwise (fun a b => a.1.key < b.1.key)
  ∧ h.m_hashset.m_shardingHash.length = HASH_SIZE
  ∧ h.m_hashset.m_txSharingHash.length = HASH_SIZE
  ∧ h.m_hashset.m_reservedField.length = c.RESERVED_FIELD_SIZE
  ∧ h.m_committeeHash.length = HASH_SIZE

/-- A `DSBlock` value the C++ class can hold. -/
def DSBlock.WF (c : Common) (b : DSBlock) : Prop :=
  DSBlockHeader.WF c b.m_header ∧ b.m_blockHash.length = HASH_SIZE

/-! ## Definitions used in the statements: signing input, announcement inputs -/

/-- A protobuf runtime stand-in for the announcement messages in which every message
counts as initialised and an encoding records a few lengths only. -/
def Example.permissiveProto : AnnouncementProto :=
  { ConsensusInfo :=
      { Serialize := fun m =>
          [m.consensusid.getD 0 % 256, m.blocknumber.getD 0 % 256, m.leaderid.getD 0 % 256]
          ++ m.blockhash.getD []
        Parse := fun _ => default
        IsInitialized := fun _ => true }
    DSDSBlockAnnouncement :=
      { Serialize := fun m => (m.dsblock.getD default).blockhash.getD []
        Parse := fun _ => default
        IsInitialized := fun m => m.dsblock.isSome && m.sharding.isSome && m.assignments.isSome }
    NodeMicroBlockAnnouncement :=
      { Serialize := fun _ => [2], Parse := fun _ => default
        IsInitialized := fun m => m.microblock.isSome }
    DSFinalBlockAnnouncement :=
      { Serialize := fun _ => [3], Parse := fun _ => default
        IsInitialized := fun m => m.txblock.isSome }
    DSVCBlockAnnouncement :=
      { Serialize := fun m => (m.vcblock.getD default).getData
        Parse := fun _ => default
        IsInitialized := fun m => m.vcblock.isSome }
    NodeFallbackBlockAnnouncement :=
      { Serialize := fun m => (m.fallbackblock.getD default).getData
        Parse := fun _ => default
        IsInitialized := fun m => m.fallbackblock.isSome }
    ConsensusAnnouncement :=
      { Serialize := fun m => (m.signature.getD default).getData
        Parse := fun _ => {}
        IsInitialized := fun m => m.consensusinfo.isSome && m.signature.isSome } }

/-- The leader's key pair in the announcement example. -/
def Example.leaderKey : PrivKey × PubKey := (⟨1⟩, ⟨1⟩)

/-- The announcement the leader builds for DS block 10 (consensus id 7, block number 10,
leader 0). -/
def Example.announcement : ConsensusAnnouncement :=
  (SetDSDSBlockAnnouncement.announcement Example.permissiveProto Example.schnorr
    Example.common 7 10 (Example.hashOf 7) 0 Example.leaderKey Example.block10
    Example.shards Example.dsReceivers Example.shardReceivers Example.shardSenders).getD {}

/-- The runtime stand-in of the announcement example: as `permissiveProto`, and a buffer
is parsed to the announcement of the example. -/
def Example.proto : AnnouncementProto :=
  { Example.permissiveProto with
    ConsensusAnnouncement :=
      { Serialize := fun m => (m.signature.getD default).getData
        Parse := fun _ => Example.announcement
        IsInitialized := fun m => m.consensusinfo.isSome && m.signature.isSome } }

/-- The header serialization of the announcement example. -/
def Example.SerializeHeader (h : DSBlockHeader) : Option Bytes :=
  some [h.m_blockNum % 256, h.m_dsDifficulty, h.m_difficulty]

/-! ## Definitions used in the statements: backup messages -/

/-- What a backup-message getter has established when it returns true: the returned
`backupID` indexes the committee, and the signature carried by the message verifies,
over `tmp`, against the public key stored at that position. -/
def backupVerified (S : Schnorr) (c : Common) (committeeKeys : List (PubKey × Peer))
    (tmp : Bytes) (signature : ByteArray) (backupID : Nat) : Prop :=
  backupID < committeeKeys.length
  ∧ ∃ key, committeeKeys[backupID]? = some key
    ∧ S.Verify tmp (ProtobufByteArrayToSerializable c.Signature signature Signature.default)
        key.1 = true

/-- Stand-in codec of commit points. -/
def Example.commitPoint : Serializable CommitPoint :=
  { Serialize := fun x => [x.p], Deserialize := fun b _ => ⟨b.headD 0⟩ }

/-- Stand-in codec of responses. -/
def Example.response : Serializable Response :=
  { Serialize := fun x => [x.r], Deserialize := fun b _ => ⟨b.headD 0⟩ }

/-- Stand-in runtime for `ConsensusCommit`. A message is laid out as the signature byte,
the consensus id, the block number, the backup id as four big-endian bytes, the commit
byte and the block hash; the consensus info is the same without the signature byte. -/
def Example.pmCommit : ConsensusProto ConsensusCommit.ConsensusInfo ConsensusCommit :=
  { ConsensusInfo :=
      { Serialize := fun m =>
          [m.consensusid.getD 0, m.blocknumber.getD 0] ++ SetNumber (m.backupid.getD 0) 4
            ++ (m.commit.getD default).getData ++ m.blockhash.getD []
        Parse := fun _ => default
        IsInitialized := fun m => m.consensusid.isSome && m.blocknumber.isSome
          && m.blockhash.isSome && m.backupid.isSome && m.commit.isSome }
    Message :=
      { Serialize := fun m => (m.signature.getD default).getData
        Parse := fun b =>
          { consensusinfo := some
              { consensusid := some (b.getD 1 0)
                blocknumber := some (b.getD 2 0)
                backupid := some (GetNumber (b.drop 3) 4)
                commit := some { data := some [b.getD 7 0] }
                blockhash := some (b.drop 8) }
            signature := some { data := some [b.getD 0 0] } }
        IsInitialized := fun m => m.consensusinfo.isSome && m.signature.isSome } }

/-- Stand-in runtime for `ConsensusResponse`, laid out as `pmCommit`. -/
def Example.pmResponse : ConsensusProto ConsensusResponse.ConsensusInfo ConsensusResponse :=
  { ConsensusInfo :=
      { Serialize := fun m =>
          [m.consensusid.getD 0, m.blocknumber.getD 0] ++ SetNumber (m.backupid.getD 0) 4
            ++ (m.response.getD default).getData ++ m.blockhash.getD []
        Parse := fun _ => default
        IsInitialized := fun m => m.consensusid.isSome && m.blocknumber.isSome
          && m.blockhash.isSome && m.backupid.isSome && m.response.isSome }
    Message :=
      { Serialize := fun m => (m.signature.getD default).getData
        Parse := fun b =>
          { consensusinfo := some
              { consensusid := some (b.getD 1 0)
                blocknumber := some (b.getD 2 0)
                backupid := some (GetNumber (b.drop 3) 4)
                response := some { data := some [b.getD 7 0] }
                blockhash := some (b.drop 8) }
            signature := some { data := some [b.getD 0 0] } }
        IsInitialized := fun m => m.consensusinfo.isSome && m.signature.isSome } }

/-- Stand-in runtime for `ConsensusCommitFailure`, laid out as `pmCommit` with a one-byte
error message. -/
def Example.pmCommitFailure :
    ConsensusProto ConsensusCommitFailure.ConsensusInfo ConsensusCommitFailure :=
  { ConsensusInfo :=
      { Serialize := fun m =>
          [m.consensusid.getD 0, m.blocknumber.getD 0] ++ SetNumber (m.backupid.getD 0) 4
            ++ m.errormsg.getD [] ++ m.blockhash.getD []
        Parse := fun _ => default
        IsInitialized := fun m => m.consensusid.isSome && m.blocknumber.isSome
          && m.blockhash.isSome && m.backupid.isSome && m.errormsg.isSome }
    Message :=
      { Serialize := fun m => (m.signature.getD default).getData
        Parse := fun b =>
          { consensusinfo := some
              { consensusid := some (b.getD 1 0)
                blocknumber := some (b.getD 2 0)
                backupid := some (GetNumber (b.drop 3) 4)
                errormsg := some [b.getD 7 0]
                blockhash := some (b.drop 8) }
            signature := some { data := some [b.getD 0 0] } }
        IsInitialized := fun m => m.consensusinfo.isSome && m.signature.isSome } }

/-- The wire bytes of a backup message of member `B` (position 1 of the committee) for
consensus id 7, block number 10 and block hash `hashOf 7`, carrying the payload byte 42
and the signature byte 35 of `B`. -/
def Example.backupMessage : Bytes := [35, 7, 10, 0, 0, 0, 1, 42] ++ Example.hashOf 7

/-- The wire bytes of a commit whose consensus info carries the backup id
`65537 = 2 ^ 16 + 1` (bytes `0, 1, 0, 1`), signed over that consensus info by `B`, the
member at position 1 of the four-member committee. -/
def Example.wrappedCommit : Bytes := [36, 7, 10, 0, 1, 0, 1, 42] ++ Example.hashOf 7

/-! ## Definitions used in the statements: collective signature -/

/-- A `MicroBlockHeader` value the C++ class can hold: a `uint8_t` type, `uint256_t`
gas limit, gas used and timestamp, and fixed-width hashes. -/
def MicroBlockHeader.WF (h : MicroBlockHeader) : Prop :=
  h.m_type < 256
  ∧ h.m_gasLimit < 256 ^ UINT256_SIZE
  ∧ h.m_gasUsed < 256 ^ UINT256_SIZE
  ∧ h.m_timestamp < 256 ^ UINT256_SIZE
  ∧ h.m_prevHash.length = HASH_SIZE
  ∧ h.m_hash.m_txRootHash.length = HASH_SIZE
  ∧ h.m_hash.m_stateDeltaHash.length = HASH_SIZE
  ∧ h.m_hash.m_tranReceiptHash.length = HASH_SIZE
  ∧ h.m_dsBlockHeader.length = HASH_SIZE
  ∧ h.m_committeeHash.length = HASH_SIZE

/-- A `MicroBlock` value the C++ class can hold. -/
def MicroBlock.WF (b : MicroBlock) : Prop :=
  MicroBlockHeader.WF b.m_header
  ∧ (∀ hash ∈ b.m_tranHashes, hash.length = HASH_SIZE)
  ∧ b.m_blockHash.length = HASH_SIZE

/-- A `FallbackBlock` value the C++ class can hold: a `uint256_t` timestamp and
fixed-width hashes. -/
def FallbackBlock.WF (b : FallbackBlock) : Prop :=
  b.m_header.m_stateRootHash.length = HASH_SIZE
  ∧ b.m_header.m_timestamp < 256 ^ UINT256_SIZE
  ∧ b.m_header.m_committeeHash.length = HASH_SIZE
  ∧ b.m_blockHash.length = HASH_SIZE

/-- A `VCBlock` value the C++ class can hold: a `uint256_t` timestamp and fixed-width
hashes. -/
def VCBlock.WF (b : VCBlock) : Prop :=
  b.m_header.m_Timestamp < 256 ^ UINT256_SIZE
  ∧ b.m_header.m_committeeHash.length = HASH_SIZE
  ∧ b.m_blockHash.length = HASH_SIZE

/-- A micro block header of shard 0 in DS epoch 10. -/
def Example.microHeader : MicroBlockHeader :=
  { m_type := 1, m_version := 1, m_shardId := 0, m_gasLimit := 1000000, m_gasUsed := 21000
    m_prevHash := Example.hashOf 1, m_blockNum := 900, m_timestamp := 1541000002
    m_hash :=
      { m_txRootHash := Example.hashOf 2, m_stateDeltaHash := Example.hashOf 3
        m_tranReceiptHash := Example.hashOf 4 }
    m_numTxs := 2, m_minerPubKey := ⟨6⟩, m_dsBlockNum := 10
    m_dsBlockHeader := Example.hashOf 5, m_committeeHash := Example.hashOf 6 }

/-- Stand-in runtime for `ProtoMicroBlock.MicroBlockHeader`: the encoding holds the
type and the number of transactions, the other fields are those of the example. -/
def Example.pmMicroBlockHeader : ProtoMessage ProtoMicroBlock.MicroBlockHeader :=
  { Serialize := fun m => [m.type.getD 0, m.numtxs.getD 0]
    Parse := fun b =>
      { MicroBlockHeaderToProtobuf Example.common Example.microHeader with
        type := some (b.getD 0 0), numtxs := some (b.getD 1 0) }
    IsInitialized := fun m => m.type.isSome && m.numtxs.isSome && m.committeehash.isSome }

/-- A fallback block whose two bitmaps are empty. -/
def Example.fallbackBlock : FallbackBlock :=
  { m_header :=
      { m_fallbackDSEpochNo := 10, m_fallbackEpochNo := 901, m_fallbackState := 1
        m_stateRootHash := Example.hashOf 2, m_leaderConsensusId := 1
        m_leaderNetworkInfo := Example.peerOf 7, m_leaderPubKey := ⟨7⟩, m_shardId := 0
        m_timestamp := 1541000003, m_committeeHash := Example.hashOf 6 }
    m_cosigs := { m_CS1 := ⟨41⟩, m_B1 := [], m_CS2 := ⟨42⟩, m_B2 := [] }
    m_blockHash := Example.hashOf 8 }

/-- The `NodeDSBlock` message `SetNodeVCDSBlocksMessage` builds from its arguments. -/
def SetNodeVCDSBlocksMessage.result (c : Common) (shardId : Nat) (dsBlock : DSBlock)
    (vcBlocks : List VCBlock) (shards : DequeOfShard) (dsReceivers : List Peer)
    (shardReceivers shardSenders : List (List Peer)) : NodeDSBlock :=
  { shardid := some shardId
    dsblock := some (DSBlockToProtobuf c dsBlock)
    vcblocks := vcBlocks.map (VCBlockToProtobuf c)
    sharding := some (ShardingStructureToProtobuf c shards)
    assignments := TxSharingAssignmentsToProtobuf c dsReceivers shardReceivers shardSenders }

/-- The hash `dst` is the truncation-tolerant decode of the wire field `src`: it has the
fixed width, its first `min n 32` bytes are the first `min n 32` bytes of `src` (`n` the
length of `src`), and every remaining byte is zero. -/
def truncatedCopy (src dst : Bytes) : Prop :=
  dst.length = HASH_SIZE
  ∧ dst.take (min src.length HASH_SIZE) = src.take (min src.length HASH_SIZE)
  ∧ ∀ i, min src.length HASH_SIZE ≤ i → i < HASH_SIZE → dst[i]? = some 0

/-- A 16-byte wire field. -/
def Example.shortHash : Bytes := [1, 2, 3, 4, 5, 6, 7, 8, 9, 10, 11, 12, 13, 14, 15, 16]

/-- A 34-byte wire field: 32 bytes `9` followed by the bytes `1, 2`. -/
def Example.longHash : Bytes := Example.hashOf 9 ++ [1, 2]

/-- Stand-in runtime for `ProtoBlockLink`: index, DS index and block type, then the
block hash. -/
def Example.pmBlockLink : ProtoMessage ProtoBlockLink :=
  { Serialize := fun m =>
      [m.index.getD 0, m.dsindex.getD 0, m.blocktype.getD 0] ++ m.blockhash.getD []
    Parse := fun b =>
      { index := some (b.getD 0 0), dsindex := some (b.getD 1 0)
        blocktype := some (b.getD 2 0), blockhash := some (b.drop 3) }
    IsInitialized := fun m =>
      m.index.isSome && m.dsindex.isSome && m.blocktype.isSome && m.blockhash.isSome }

/-- Stand-in codec of transactions with receipt. -/
def Example.transaction : Serializable TransactionWithReceipt :=
  { Serialize := fun x => [x.tx], Deserialize := fun b _ => ⟨b.headD 0⟩ }

/-- Stand-in runtime for `LookupGetTxBodyFromSeed`: the listening port, then the
transaction hash. -/
def Example.pmLookupGetTxBodyFromSeed : ProtoMessage LookupGetTxBodyFromSeed :=
  { Serialize := fun m => [m.listenport.getD 0] ++ m.txhash.getD []
    Parse := fun b => { txhash := some (b.drop 1), listenport := some (b.getD 0 0) }
    IsInitialized := fun m => m.txhash.isSome && m.listenport.isSome }

/-- Stand-in runtime for `LookupSetTxBodyFromSeed`: the transaction byte, then the
transaction hash. -/
def Example.pmLookupSetTxBodyFromSeed : ProtoMessage LookupSetTxBodyFromSeed :=
  { Serialize := fun m => (m.txbody.getD default).getData ++ m.txhash.getD []
    Parse := fun b =>
      { txhash := some (b.drop 1), txbody := some { data := some [b.getD 0 0] } }
    IsInitialized := fun m => m.txhash.isSome && m.txbody.isSome }

/-- Stand-in runtime for `NodeForwardTransaction`: block number and shard id, then one
byte string that is parsed as each of the three hashes; no transactions. -/
def Example.pmNodeForwardTransaction : ProtoMessage NodeForwardTransaction :=
  { Serialize := fun m =>
      [m.blocknum.getD 0, m.shardid.getD 0] ++ m.microblocktxhash.getD []
    Parse := fun b =>
      { blocknum := some (b.getD 0 0), shardid := some (b.getD 1 0)
        microblocktxhash := some (b.drop 2), microblockdeltahash := some (b.drop 2)
        microblockreceipthash := some (b.drop 2) }
    IsInitialized := fun m => m.blocknum.isSome && m.shardid.isSome
      && m.microblocktxhash.isSome && m.microblockdeltahash.isSome
      && m.microblockreceipthash.isSome }

/-! ## Definitions used in the statements: buffers, fallback blocks, constructors -/

/-- Stand-in comparison of fallback block headers: by the pair of epoch numbers. -/
def Example.fallbackHeaderOps : FallbackBlockHeaderOps :=
  { eq := fun a b => a == b
    lt := fun a b =>
      decide (a.m_fallbackDSEpochNo < b.m_fallbackDSEpochNo
        ∨ (a.m_fallbackDSEpochNo = b.m_fallbackDSEpochNo
          ∧ a.m_fallbackEpochNo < b.m_fallbackEpochNo)) }

/-- Stand-in runtime for `ProtoMicroBlock.MicroBlockHeader` that, unlike
`pmMicroBlockHeader`, parses a buffer of fewer than two bytes to the empty message. -/
def Example.pmMicroBlockHeaderStrict : ProtoMessage ProtoMicroBlock.MicroBlockHeader :=
  { Example.pmMicroBlockHeader with
    Parse := fun b => if b.length < 2 then default else Example.pmMicroBlockHeader.Parse b }

/-- Storage whose built-in members all read zero. -/
def Example.zeroStorage : MicroBlockHeader :=
  { Example.microHeader with
    m_type := 0, m_version := 0, m_shardId := 0, m_blockNum := 0, m_numTxs := 0
    m_dsBlockNum := 0 }

/-- The public keys of the committee members whose position is set in `B2`, in committee
order, as the specification words the selection. -/
def flaggedKeysSpec (committee : DSCommittee) (B2 : List Bool) : List PubKey :=
  ((List.range committee.length).filter (fun i => B2.getD i false)).map
    (fun i => (committee.getD i (PubKey.default, Peer.default)).1)

/-- The example collaborators with the stand-in signer `Example.schnorr`, whose
verification depends on the signed message. -/
def Example.envSigned : NodeEnv :=
  { Example.env with schnorr := Example.schnorr }

/-- DS block 10 carrying a one-entry first-round bitmap and co-signed over it by `A`, `B`,
`C` in the second round: the signed message is `[10, 11, 1]`, the aggregate key is 6 and
the collective signature is 22 + 6. -/
def Example.blockShortB1 : DSBlock :=
  { Example.block10 with
    m_cosigs := { m_CS1 := ⟨11⟩, m_B1 := [true], m_CS2 := ⟨28⟩,
                  m_B2 := [true, true, true, false] } }

/-! ## Definitions used in the statements: ordering of micro block headers -/

/-- A strict total order given by its `<`: irreflexive, transitive, and any two different
values are in order one way or the other. -/
structure StrictTotal {α : Type} (lt : α → α → Bool) : Prop where
  irrefl : ∀ a, lt a a = false
  trans : ∀ a b c, lt a b = true → lt b c = true → lt a c = true
  total : ∀ a b, lt a b = true ∨ a = b ∨ lt b a = true

/-- The member types order their values strictly and totally. -/
structure MemberOrders.Lawful (o : MemberOrders) : Prop where
  Hash : StrictTotal o.Hash
  MicroBlockHashSet : StrictTotal o.MicroBlockHashSet
  PubKey : StrictTotal o.PubKey

/-- The lexicographic order on a head and a tail as the specification words it: the
heads are in order, or they are equal and the tails are in order. -/
def lexLess {α β : Type} (ltHead : α → α → Bool) (ltTail : β → β → Prop) (t u : α × β) : Prop :=
  ltHead t.1 u.1 = true ∨ (t.1 = u.1 ∧ ltTail t.2 u.2)

/-- The tuple `u` is lexicographically greater than the tuple `t`: at the first of the
thirteen positions where they differ, the element of `u` is the greater one. -/
def MicroBlockHeader.tieLexGreater (o : MemberOrders) (u t : MicroBlockHeader.Tie) : Prop :=
  lexLess natLess (lexLess natLess (lexLess natLess (lexLess natLess
    (lexLess natLess (lexLess o.Hash (lexLess natLess (lexLess natLess
      (lexLess o.MicroBlockHashSet (lexLess natLess (lexLess o.PubKey
        (lexLess natLess (fun a b => o.Hash a b = true)))))))))))) t u

/-- Stand-in member orders: hashes in lexicographic byte order, hash sets by their
three hashes in turn, keys by their number. -/
def Example.memberOrders : MemberOrders :=
  { Hash := fun a b => decide (a < b)
    MicroBlockHashSet := fun a b =>
      decide ([a.m_txRootHash, a.m_stateDeltaHash, a.m_tranReceiptHash]
        < [b.m_txRootHash, b.m_stateDeltaHash, b.m_tranReceiptHash])
    PubKey := fun a b => decide (a.key < b.key) }

/-- A micro block header that differs from the example in the number of transactions
only. -/
def Example.microHeader3 : MicroBlockHeader := { Example.microHeader with m_numTxs := 3 }

/-! ## Definitions used in the statements: the VC stage and the role assignment -/

/-- The warning of the view-change counter comparison. -/
def Call.isCounterWarning : Call → Bool
  | .WarnUnexpectedVCBlockCounter _ _ => true
  | _ => false

/-- The node state without its call log. -/
def NodeState.eraseLog (s : NodeState) : NodeState := { s with calls := [] }

/-- The collaborator `ProcessVCBlockCore` does not read the call log, which exists in the
model only: on states that differ in the log alone it returns the same status and leaves
states that differ in the log alone. -/
def NodeEnv.logBlind (env : NodeEnv) : Prop :=
  ∀ (a b : NodeState) (vcBlock : VCBlock), a.eraseLog = b.eraseLog →
    (env.ProcessVCBlockCore a vcBlock).1 = (env.ProcessVCBlockCore b vcBlock).1
    ∧ (env.ProcessVCBlockCore a vcBlock).2.eraseLog = (env.ProcessVCBlockCore b vcBlock).2.eraseLog

/-- The VC stage as the specification words it: every VC block, in list order, must pass
`ProcessVCBlockCore`, and the first one that does not ends the reception. The state is
handed from one call of the collaborator to the next; the counters play no part. -/
def vcStageSpec (env : NodeEnv) : List VCBlock → NodeState → Bool × NodeState
  | [], s => (true, s)
  | vcBlock :: rest, s =>
    if (env.ProcessVCBlockCore s vcBlock).1 then
      vcStageSpec env rest (env.ProcessVCBlockCore s vcBlock).2
    else (false, (env.ProcessVCBlockCore s vcBlock).2)

/-- The calls of `ProcessVCBlockCore` the VC stage makes, as the specification words it:
one per VC block in list order, each with the status the collaborator returned, up to
and including the first one that fails. -/
def vcTraceSpec (env : NodeEnv) : List VCBlock → NodeState → List Call
  | [], _ => []
  | vcBlock :: rest, s =>
    Call.ProcessVCBlockCore vcBlock (env.ProcessVCBlockCore s vcBlock).1 ::
      (if (env.ProcessVCBlockCore s vcBlock).1 then
        vcTraceSpec env rest (env.ProcessVCBlockCore s vcBlock).2
       else [])

/-- The example collaborators, except that `ProcessVCBlockCore` rejects the VC blocks
with counter 1. -/
def Example.envVCFail : NodeEnv :=
  { Example.env with
    ProcessVCBlockCore := fun s vcBlock => (vcBlock.m_header.m_VCCounter != 1, s) }

/-! ## Definitions used in the statements: what a reception commits -/

/-- The state in which the role assignment of `ProcessVCDSBlocksMessage` starts: the
software-upgrade task is detached, the block stored, the randomness updated and the
committee rotated. -/
def ProcessVCDSBlocksMessage.stored (env : NodeEnv) (s : NodeState) (dsblock : DSBlock) :
    NodeState :=
  UpdateDSCommiteeComposition (UpdateDSBlockRand env (StoreDSBlockToDisk env
    { s with calls := s.calls ++ [Call.DetachedDownloadSW dsblock.m_header.m_swInfo] } dsblock))

/-- The seed of the leader election as the specification words it: 0 when the current
epoch number is at most 1, otherwise the 16-bit value derived from the hash of the last
Tx block. -/
def leaderSeedSpec (env : NodeEnv) (s : NodeState) : Nat :=
  if s.m_currentEpochNum ≤ 1 then 0
  else env.charArrTo16Bits s.m_txBlockChain.lastBlockHash % 2 ^ 16

/-- The node with key `E`, the winner of DS block 10, idle so far; the last Tx block
hash has every byte `b`. -/
def Example.stateWinner (b : Nat) : NodeState :=
  { Example.state with
    m_selfKey := (⟨5⟩, ⟨5⟩), m_selfPeer := Example.peerOf 5, ds_m_mode := Mode.IDLE
    m_txBlockChain := { lastBlockHash := Example.hashOf b, lastBlockNum := 900 } }

/-! ## Definitions used in the statements: the shard side -/

/-- The entry `LoadShardingStructure` stores in `m_myShardMembers` for a shard node: the
key, and the peer unless it is the node's own, which is zeroed. -/
def memberEntry (selfPeer : Peer) (shardNode : PubKey × Peer × Nat) : PubKey × Peer :=
  (shardNode.1, if selfPeer = shardNode.2.1 then Peer.default else shardNode.2.1)

/-- The example node once the sharding structure of the message is in place. -/
def Example.stateReceived : NodeState :=
  { Example.state with ds_m_shards := Example.shards }

/-- A node whose peer is in no shard of the received structure and whose received shard
id is 1, while the structure has the single shard 0. -/
def Example.stateOutOfRange : NodeState :=
  { Example.state with
    ds_m_shards := Example.shards, m_myshardId := 1, m_selfPeer := Example.peerOf 9 }

/-- A node whose peer is not in shard 0, the shard it was told it is in. -/
def Example.stateAbsent : NodeState :=
  { Example.state with ds_m_shards := Example.shards, m_selfPeer := Example.peerOf 9 }

/-- The shard node with key 7, second member of the shard `[6, 7]`, when the last Tx
block hash gives the value 771 and so the leader index 1. -/
def Example.stateSeven : NodeState :=
  { Example.state with
    m_selfKey := (⟨7⟩, ⟨7⟩), m_selfPeer := Example.peerOf 7
    m_txBlockChain := { lastBlockHash := Example.hashOf 3, lastBlockNum := 900 } }

/-! ## Definitions used in the statements: hashes, rotation, seed messages -/

/-- A committee with the keys of `Example.committee` and other peers. -/
def Example.committeeMoved : DSCommittee :=
  [(Example.A, Example.peerOf 11), (Example.B, Example.peerOf 12),
   (Example.C, Example.peerOf 13), (Example.D, Example.peerOf 14)]

/-- A shard whose members have the keys of `Example.committee`. -/
def Example.shardOfCommittee : Shard :=
  [(Example.A, Example.peerOf 21, 1), (Example.B, Example.peerOf 22, 2),
   (Example.C, Example.peerOf 23, 3), (Example.D, Example.peerOf 24, 4)]

/-- Stand-in runtime for `ProtoCommittee` whose encoding concatenates the member
fields. -/
def Example.pmCommitteeKeys : ProtoMessage ProtoCommittee :=
  { Serialize := fun m => (m.members.map (fun b => b.getData)).flatten
    Parse := fun _ => default
    IsInitialized := fun _ => true }

/-- Stand-in runtime for `LookupSetDSBlockFromSeed`: every buffer parses to a message
without DS blocks whose key and signature fields are taken from the buffer. -/
def Example.pmLookupSetDSBlockFromSeed : ProtoMessage LookupSetDSBlockFromSeed :=
  { Serialize := fun _ => []
    Parse := fun b =>
      { lowblocknum := some 3, highblocknum := some 2
        pubkey := some { data := some (b.take 1) }
        dsblocks := []
        signature := some { data := some (b.drop 1) } }
    IsInitialized := fun m => m.pubkey.isSome && m.signature.isSome }

/-- Stand-in runtime for the `ProtoDSBlock` elements of a repeated field. -/
def Example.pmDSBlockElement : ProtoMessage ProtoDSBlock :=
  { Serialize := fun m => [(m.blockhash.getD []).length], Parse := fun _ => default
    IsInitialized := fun _ => true }

/-- A verifier that rejects every signature. -/
def Example.schnorrRejectAll : Schnorr :=
  { Sign := fun _ _ _ => none, Verify := fun _ _ _ => false }

/-- A micro block header that differs from the example in the committee hash only. -/
def Example.microHeaderOtherCommittee : MicroBlockHeader :=
  { Example.microHeader with m_committeeHash := Example.hashOf 99 }

/-! # Theorems

## Committee rotation: lemmas -/

theorem winnerEntry_fst (selfPubKey : PubKey) (w : PubKey × Peer) :
    (winnerEntry selfPubKey w).1 = w.1 := by
  unfold winnerEntry
  split
  · next h => exact h
  · rfl

theorem rotation_step (e : PubKey × Peer) (c : DSCommittee) (h : 1 ≤ c.length) :
    (e :: c).dropLast = e :: c.take (c.length - 1) := by
  cases c with
  | nil => simp at h
  | cons x xs =>
    rw [List.dropLast_cons_of_ne_nil (List.cons_ne_nil x xs), List.dropLast_eq_take]

theorem rotation_loop (selfPubKey : PubKey) (ws : List (PubKey × Peer)) :
    ∀ c : DSCommittee, ws.length ≤ c.length →
      UpdateDSCommiteeComposition.loop selfPubKey ws c
        = (ws.map (winnerEntry selfPubKey)).reverse ++ c.take (c.length - ws.length) := by
  induction ws with
  | nil => intro c _; simp [UpdateDSCommiteeComposition.loop]
  | cons w rest ih =>
    intro c hc
    have hc1 : 1 ≤ c.length := by simp at hc; omega
    have hstep : (if selfPubKey = w.1 then (selfPubKey, Peer.default) :: c else w :: c).dropLast
        = winnerEntry selfPubKey w :: c.take (c.length - 1) := by
      rw [← rotation_step _ c hc1]
      unfold winnerEntry
      split <;> rfl
    have hlen : rest.length ≤ (winnerEntry selfPubKey w :: c.take (c.length - 1)).length := by
      simp at hc ⊢; omega
    have ih' := ih (winnerEntry selfPubKey w :: c.take (c.length - 1)) hlen
    unfold UpdateDSCommiteeComposition.loop at ih' ⊢
    rw [List.foldl_cons, hstep, ih']
    have h1 : (winnerEntry selfPubKey w :: List.take (c.length - 1) c).length = c.length := by
      simp; omega
    rw [h1]
    have h2 : c.length - rest.length = (c.length - (rest.length + 1)) + 1 := by
      simp at hc; omega
    rw [h2, List.take_succ_cons, List.take_take]
    have h3 : min (c.length - (rest.length + 1)) (c.length - 1) = c.length - (rest.length + 1) := by
      omega
    rw [h3]
    simp

/-! ## `VerifyDSBlockCoSignature` (C1, C2) -/

/-- C1 (as stated, refuted): with committee `[A, B, C, D]` and threshold
`NumForConsensus 4 = 3`, a DS block whose `B2` has the committee's length and four set
bits (at least the threshold), whose flagged keys aggregate and whose `CS2` verifies
over header, `CS1` and `B1`, is rejected by `VerifyDSBlockCoSignature`. -/
theorem VerifyDSBlockCoSignature_rejects_more_than_threshold :
    Example.blockAllSigned.m_cosigs.m_B2.length = Example.state.m_DSCommittee.length
    ∧ Example.envAcceptAll.NumForConsensus Example.state.m_DSCommittee.length
        ≤ (Example.blockAllSigned.m_cosigs.m_B2.filter (fun b => b)).length
    ∧ (∃ aggregatedKey message,
        Example.envAcceptAll.AggregatePubKeys
            (VerifyDSBlockCoSignature.keys Example.state.m_DSCommittee
              Example.blockAllSigned.m_cosigs.m_B2) = some aggregatedKey
        ∧ VerifyDSBlockCoSignature.message Example.envAcceptAll Example.blockAllSigned
            = some message
        ∧ Example.envAcceptAll.schnorr.Verify message Example.blockAllSigned.m_cosigs.m_CS2
            aggregatedKey = true)
    ∧ VerifyDSBlockCoSignature Example.envAcceptAll Example.state Example.blockAllSigned
        = false := by
  refine ⟨by decide, by decide, ⟨_, _, rfl, rfl, rfl⟩, by decide⟩

/-- C1 (amended): `VerifyDSBlockCoSignature` returns true for every DS block whose `B2`
bitmap has the same length as the DS committee, whose number of flagged members equals
`NumForConsensus` of that length, whose flagged keys aggregate successfully, whose header
serializes and whose `CS2` verifies against the aggregate key over header, `CS1` and
`B1`. -/
theorem VerifyDSBlockCoSignature_accepts (env : NodeEnv) (s : NodeState) (dsblock : DSBlock)
    (aggregatedKey : PubKey) (message : Bytes)
    (hlen : dsblock.m_cosigs.m_B2.length = s.m_DSCommittee.length)
    (hcount : (VerifyDSBlockCoSignature.keys s.m_DSCommittee dsblock.m_cosigs.m_B2).length
      = env.NumForConsensus s.m_DSCommittee.length)
    (hagg : env.AggregatePubKeys
      (VerifyDSBlockCoSignature.keys s.m_DSCommittee dsblock.m_cosigs.m_B2) = some aggregatedKey)
    (hmsg : VerifyDSBlockCoSignature.message env dsblock = some message)
    (hver : env.schnorr.Verify message dsblock.m_cosigs.m_CS2 aggregatedKey = true) :
    VerifyDSBlockCoSignature env s dsblock = true := by
  unfold VerifyDSBlockCoSignature
  simp [hlen, hcount, hagg, hmsg, hver]

/-- Witness of C1 (amended): the block co-signed by `A`, `B`, `C` of `[A, B, C, D]`. -/
theorem VerifyDSBlockCoSignature_accepts_witness :
    VerifyDSBlockCoSignature Example.env Example.state Example.block10 = true :=
  VerifyDSBlockCoSignature_accepts Example.env Example.state Example.block10 ⟨6⟩
    [10, 11, 1, 1, 1, 0] (by decide) (by decide) (by decide) (by decide) (by decide)

/-- The keys collected by the loop are at most as many as the set bits of `B2`. -/
theorem keys_length_le (committee : DSCommittee) (B2 : List Bool) :
    (VerifyDSBlockCoSignature.keys committee B2).length ≤ (B2.filter (fun b => b)).length := by
  unfold VerifyDSBlockCoSignature.keys
  rw [List.length_map]
  induction committee generalizing B2 with
  | nil => simp
  | cons m ms ih =>
    cases B2 with
    | nil => simp
    | cons b bs =>
      have := ih bs
      cases b <;> simp [List.zip_cons_cons, List.filter_cons] <;> omega

/-- C2: for every committee of size `N` and every DS block whose `B2` has fewer than
`NumForConsensus N` set bits, `VerifyDSBlockCoSignature` returns false, whatever key
aggregation and Schnorr verification would answer: replacing both in the environment
by arbitrary functions does not change the result. -/
theorem VerifyDSBlockCoSignature_insufficient (env : NodeEnv) (s : NodeState)
    (dsblock : DSBlock) (aggregate : List PubKey → Option PubKey) (schnorr : Schnorr)
    (hfew : (dsblock.m_cosigs.m_B2.filter (fun b => b)).length
      < env.NumForConsensus s.m_DSCommittee.length) :
    VerifyDSBlockCoSignature { env with AggregatePubKeys := aggregate, schnorr := schnorr }
      s dsblock = false := by
  unfold VerifyDSBlockCoSignature
  by_cases hlen : s.m_DSCommittee.length = dsblock.m_cosigs.m_B2.length
  · have hle := keys_length_le s.m_DSCommittee dsblock.m_cosigs.m_B2
    have hne : (VerifyDSBlockCoSignature.keys s.m_DSCommittee dsblock.m_cosigs.m_B2).length
        ≠ env.NumForConsensus dsblock.m_cosigs.m_B2.length := by
      rw [← hlen]; omega
    simp [hlen, hne]
  · simp [hlen]

/-- Witness of C2: two of four members flagged, threshold three, with an aggregator and
a verifier that accept everything. -/
theorem VerifyDSBlockCoSignature_insufficient_witness :
    VerifyDSBlockCoSignature
      { Example.env with
        AggregatePubKeys := fun _ => some ⟨0⟩
        schnorr := { Sign := fun _ _ _ => none, Verify := fun _ _ _ => true } }
      Example.state (Example.block 10 (Example.hashOf 1) [true, true, false, false]) = false :=
  VerifyDSBlockCoSignature_insufficient Example.env Example.state
    (Example.block 10 (Example.hashOf 1) [true, true, false, false])
    (fun _ => some ⟨0⟩) { Sign := fun _ _ _ => none, Verify := fun _ _ _ => true }
    (by decide)

/-! ## Block number and committee rotation (C5, C6) -/

/-- C5: `CheckWhetherDSBlockNumIsLatest n` returns true if and only if `n` equals the
block number of the last block of the DS chain plus one, the sum taken in 64-bit
unsigned arithmetic; for every other `n` it returns false. -/
theorem CheckWhetherDSBlockNumIsLatest_iff (s : NodeState) (n : Nat) :
    (CheckWhetherDSBlockNumIsLatest s n = true
      ↔ n = ((GetLastBlock s.m_dsBlockChain).m_header.m_blockNum + 1) % UINT64_MOD)
    ∧ (n ≠ ((GetLastBlock s.m_dsBlockChain).m_header.m_blockNum + 1) % UINT64_MOD
      → CheckWhetherDSBlockNumIsLatest s n = false) := by
  unfold CheckWhetherDSBlockNumIsLatest
  constructor
  · constructor
    · intro h
      by_contra hne
      rcases Nat.lt_or_gt_of_ne hne with hlt | hgt
      · simp [hlt] at h
      · have : ¬ n < ((GetLastBlock s.m_dsBlockChain).m_header.m_blockNum + 1) % UINT64_MOD := by
          omega
        simp [this, hgt] at h
    · intro h
      simp [← h]
  · intro hne
    rcases Nat.lt_or_gt_of_ne hne with hlt | hgt
    · simp [hlt]
    · have : ¬ n < ((GetLastBlock s.m_dsBlockChain).m_header.m_blockNum + 1) % UINT64_MOD := by
        omega
      simp [this, hgt]

/-- Witness of C5: with DS block 9 last, 10 is accepted and 9 and 11 are not; on an
empty chain the sum wraps and 0 is accepted. -/
theorem CheckWhetherDSBlockNumIsLatest_witness :
    CheckWhetherDSBlockNumIsLatest Example.state 9 = false
    ∧ CheckWhetherDSBlockNumIsLatest Example.state 11 = false
    ∧ CheckWhetherDSBlockNumIsLatest Example.state 10 = true
    ∧ CheckWhetherDSBlockNumIsLatest { Example.state with m_dsBlockChain := [] } 0 = true :=
  ⟨(CheckWhetherDSBlockNumIsLatest_iff Example.state 9).2 (by decide),
   (CheckWhetherDSBlockNumIsLatest_iff Example.state 11).2 (by decide),
   (CheckWhetherDSBlockNumIsLatest_iff Example.state 10).1.2 (by decide),
   (CheckWhetherDSBlockNumIsLatest_iff { Example.state with m_dsBlockChain := [] } 0).1.2
     (by decide)⟩

/-- C6: when the `k` PoW winners of the last DS block are applied by
`UpdateDSCommiteeComposition` to a committee of size `N` with `k ≤ N`, the resulting
committee has size `N`, its first `k` entries carry the winners' public keys (the winner
latest in map order first), and its last `N - k` entries are the first `N - k` entries
of the old committee in their old order. -/
theorem UpdateDSCommiteeComposition_rotation (s : NodeState)
    (hk : (GetLastBlock s.m_dsBlockChain).m_header.m_PoWDSWinners.length
      ≤ s.m_DSCommittee.length) :
    (UpdateDSCommiteeComposition s).m_DSCommittee.length = s.m_DSCommittee.length
    ∧ ((UpdateDSCommiteeComposition s).m_DSCommittee.take
          (GetLastBlock s.m_dsBlockChain).m_header.m_PoWDSWinners.length).map (fun m => m.1)
        = ((GetLastBlock s.m_dsBlockChain).m_header.m_PoWDSWinners.map (fun w => w.1)).reverse
    ∧ (UpdateDSCommiteeComposition s).m_DSCommittee.drop
          (GetLastBlock s.m_dsBlockChain).m_header.m_PoWDSWinners.length
        = s.m_DSCommittee.take (s.m_DSCommittee.length
            - (GetLastBlock s.m_dsBlockChain).m_header.m_PoWDSWinners.length) := by
  have hloop := rotation_loop s.m_selfKey.2
    (GetLastBlock s.m_dsBlockChain).m_header.m_PoWDSWinners s.m_DSCommittee hk
  have hc : (UpdateDSCommiteeComposition s).m_DSCommittee
      = ((GetLastBlock s.m_dsBlockChain).m_header.m_PoWDSWinners.map
          (winnerEntry s.m_selfKey.2)).reverse
        ++ s.m_DSCommittee.take (s.m_DSCommittee.length
            - (GetLastBlock s.m_dsBlockChain).m_header.m_PoWDSWinners.length) := by
    rw [← hloop]; rfl
  have hl : (((GetLastBlock s.m_dsBlockChain).m_header.m_PoWDSWinners.map
      (winnerEntry s.m_selfKey.2)).reverse).length
      = (GetLastBlock s.m_dsBlockChain).m_header.m_PoWDSWinners.length := by simp
  refine ⟨?_, ?_, ?_⟩
  · rw [hc]; simp; omega
  · rw [hc, List.take_left' hl, ← List.map_reverse, ← List.map_reverse, List.map_map]
    apply List.map_congr_left
    intro w _
    exact winnerEntry_fst _ w
  · rw [hc, List.drop_left' hl]

/-- Witness of C6: `[A, B, C, D]` with the single winner `E` becomes `[E, A, B, C]`. -/
theorem UpdateDSCommiteeComposition_rotation_witness :
    (UpdateDSCommiteeComposition { Example.state with m_dsBlockChain := [Example.block10] }).m_DSCommittee
        = [(Example.E, Example.peerOf 5), (Example.A, Example.peerOf 1),
           (Example.B, Example.peerOf 2), (Example.C, Example.peerOf 3)]
    ∧ (UpdateDSCommiteeComposition
          { Example.state with m_dsBlockChain := [Example.block10] }).m_DSCommittee.length = 4 :=
  ⟨by decide,
   (UpdateDSCommiteeComposition_rotation
      { Example.state with m_dsBlockChain := [Example.block10] } (by decide)).1⟩

/-! ## `ProcessVCDSBlocksMessage` (C3, C4) -/

theorem ProcessVCDSBlocksMessage_eq_validate (env : NodeEnv) (message : Bytes)
    (cur_offset : Nat) (s : NodeState) (m : NodeVCDSBlocksMessage)
    (hstate : (!env.LOOKUP_NODE_MODE && !env.CheckState s) = false)
    (hdec : GetNodeVCDSBlocksMessage env.common env.pmNodeDSBlock message cur_offset
      [] [] [] [] [] = some m) :
    ProcessVCDSBlocksMessage env message cur_offset s
      = ProcessVCDSBlocksMessage.validate env message
          (ProcessVCDSBlocksMessage.decoded env s m) m.shardId m.dsBlock m.vcBlocks := by
  unfold ProcessVCDSBlocksMessage
  simp only [hstate, Bool.false_eq_true, ↓reduceIte, hdec]
  rfl

/-- C4: `ProcessVCDSBlocksMessage` returns false whenever the sharding hash recomputed
from the received sharding structure, the tx-sharing hash recomputed from the received
assignments, the committee hash recomputed from the node's current DS committee, or the
block hash recomputed from the received header is not the value carried by the DS block;
the DS blockchain and the DS committee are then left unchanged. -/
theorem ProcessVCDSBlocksMessage_hash_mismatch (env : NodeEnv) (message : Bytes)
    (cur_offset : Nat) (s : NodeState) (m : NodeVCDSBlocksMessage)
    (hdec : GetNodeVCDSBlocksMessage env.common env.pmNodeDSBlock message cur_offset
      [] [] [] [] [] = some m)
    (hmis :
      GetShardingStructureHash env.common env.pmShardingStructure env.sha2 m.shards
        ≠ some m.dsBlock.m_header.m_hashset.m_shardingHash
      ∨ GetTxSharingAssignmentsHash env.common env.pmTxSharingAssignments env.sha2
          m.dsReceivers m.shardReceivers m.shardSenders
        ≠ some m.dsBlock.m_header.m_hashset.m_txSharingHash
      ∨ GetDSCommitteeHash env.common env.pmCommittee env.sha2 s.m_DSCommittee
        ≠ some m.dsBlock.m_header.m_committeeHash
      ∨ env.GetMyHash m.dsBlock.m_header ≠ m.dsBlock.m_blockHash) :
    (ProcessVCDSBlocksMessage env message cur_offset s).1 = false
    ∧ (ProcessVCDSBlocksMessage env message cur_offset s).2.m_dsBlockChain = s.m_dsBlockChain
    ∧ (ProcessVCDSBlocksMessage env message cur_offset s).2.m_DSCommittee = s.m_DSCommittee := by
  by_cases hstate : (!env.LOOKUP_NODE_MODE && !env.CheckState s) = true
  · unfold ProcessVCDSBlocksMessage
    simp [hstate]
  · have hstate' : (!env.LOOKUP_NODE_MODE && !env.CheckState s) = false := by
      simpa using hstate
    rw [ProcessVCDSBlocksMessage_eq_validate env message cur_offset s m hstate' hdec]
    have hchain : (ProcessVCDSBlocksMessage.decoded env s m).m_dsBlockChain = s.m_dsBlockChain := by
      unfold ProcessVCDSBlocksMessage.decoded ProcessVCDSBlocksMessage.entry
      split <;> rfl
    have hcomm : (ProcessVCDSBlocksMessage.decoded env s m).m_DSCommittee = s.m_DSCommittee := by
      unfold ProcessVCDSBlocksMessage.decoded ProcessVCDSBlocksMessage.entry
      split <;> rfl
    have hsh : (ProcessVCDSBlocksMessage.decoded env s m).ds_m_shards = m.shards := rfl
    have hdr : (ProcessVCDSBlocksMessage.decoded env s m).ds_m_DSReceivers = m.dsReceivers := rfl
    have hsr : (ProcessVCDSBlocksMessage.decoded env s m).ds_m_shardReceivers
        = m.shardReceivers := rfl
    have hss : (ProcessVCDSBlocksMessage.decoded env s m).ds_m_shardSenders
        = m.shardSenders := rfl
    generalize ProcessVCDSBlocksMessage.decoded env s m = s1 at *
    unfold ProcessVCDSBlocksMessage.validate
    rw [hsh, hdr, hsr, hss, hcomm]
    cases h1 : GetShardingStructureHash env.common env.pmShardingStructure env.sha2 m.shards with
    | none => exact ⟨rfl, hchain, hcomm⟩
    | some shardingHash =>
      by_cases e1 : shardingHash = m.dsBlock.m_header.m_hashset.m_shardingHash
      swap
      · simp [e1, hchain, hcomm]
      cases h2 : GetTxSharingAssignmentsHash env.common env.pmTxSharingAssignments env.sha2
          m.dsReceivers m.shardReceivers m.shardSenders with
      | none => simp [e1, hchain, hcomm]
      | some txSharingHash =>
        by_cases e2 : txSharingHash = m.dsBlock.m_header.m_hashset.m_txSharingHash
        swap
        · simp [e1, e2, hchain, hcomm]
        cases h3 : GetDSCommitteeHash env.common env.pmCommittee env.sha2 s.m_DSCommittee with
        | none => simp [e1, e2, hchain, hcomm]
        | some committeeHash =>
          by_cases e3 : committeeHash = m.dsBlock.m_header.m_committeeHash
          swap
          · simp [e1, e2, e3, hchain, hcomm]
          by_cases e4 : env.GetMyHash m.dsBlock.m_header = m.dsBlock.m_blockHash
          swap
          · simp [e1, e2, e3, e4, hchain, hcomm]
          exfalso
          rw [h1, h2, h3, e1, e2, e3] at hmis
          simp [e4] at hmis

/-- Witness of C4: the message whose DS block carries a sharding hash other than the
recomputed one is rejected and leaves chain and committee as they were. -/
theorem ProcessVCDSBlocksMessage_hash_mismatch_witness :
    (ProcessVCDSBlocksMessage Example.env [2] 0 Example.state).1 = false
    ∧ (ProcessVCDSBlocksMessage Example.env [2] 0 Example.state).2.m_dsBlockChain
        = Example.state.m_dsBlockChain
    ∧ (ProcessVCDSBlocksMessage Example.env [2] 0 Example.state).2.m_DSCommittee
        = Example.state.m_DSCommittee :=
  ProcessVCDSBlocksMessage_hash_mismatch Example.env [2] 0 Example.state
    { shardId := 0
      dsBlock := Example.block 10 (Example.hashOf 2) [true, true, true, false]
      vcBlocks := [Example.vcBlock 1]
      shards := Example.shards
      dsReceivers := Example.dsReceivers
      shardReceivers := Example.shardReceivers
      shardSenders := Example.shardSenders }
    (by decide) (Or.inl (by decide))

theorem vcLoop_calls (env : NodeEnv) (vcBlocks : List VCBlock) :
    ∀ (expected : Nat) (s : NodeState),
      ∃ L, (ProcessVCDSBlocksMessage.vcLoop env vcBlocks expected s).2.calls = s.calls ++ L
        ∧ (∀ c ∈ L, c.isVCStage = true)
        ∧ ((ProcessVCDSBlocksMessage.vcLoop env vcBlocks expected s).1 = true →
            (∀ vc ∈ vcBlocks, Call.ProcessVCBlockCore vc true ∈ L)
            ∧ (∀ vc, Call.ProcessVCBlockCore vc false ∉ L)) := by
  induction vcBlocks with
  | nil =>
    intro expected s
    exact ⟨[], by simp [ProcessVCDSBlocksMessage.vcLoop], by simp, by simp⟩
  | cons vc rest ih =>
    intro expected s
    -- the state after the counter comparison
    obtain ⟨W, hW, hWs⟩ : ∃ W : List Call,
        (if (vc.m_header.m_VCCounter != expected) = true then
          { s with calls := s.calls ++ [Call.WarnUnexpectedVCBlockCounter expected
              vc.m_header.m_VCCounter] }
         else s).calls = s.calls ++ W
        ∧ ∀ c ∈ W, c.isVCStage = true ∧ ∀ v b, c ≠ Call.ProcessVCBlockCore v b := by
      by_cases hc : (vc.m_header.m_VCCounter != expected) = true
      · exact ⟨[Call.WarnUnexpectedVCBlockCounter expected vc.m_header.m_VCCounter],
          by simp [hc], by simp [Call.isVCStage]⟩
      · exact ⟨[], by simp [hc], by simp⟩
    generalize hs0 : (if (vc.m_header.m_VCCounter != expected) = true then
          { s with calls := s.calls ++ [Call.WarnUnexpectedVCBlockCounter expected
              vc.m_header.m_VCCounter] }
         else s) = s0 at hW
    have hunf : ProcessVCDSBlocksMessage.vcLoop env (vc :: rest) expected s
        = if !(callProcessVCBlockCore env s0 vc).1 then (false, (callProcessVCBlockCore env s0 vc).2)
          else ProcessVCDSBlocksMessage.vcLoop env rest ((expected + 1) % 2 ^ 32)
            (callProcessVCBlockCore env s0 vc).2 := by
      rw [ProcessVCDSBlocksMessage.vcLoop, hs0]
    have hcall : (callProcessVCBlockCore env s0 vc).2.calls
        = s.calls ++ (W ++ [Call.ProcessVCBlockCore vc (callProcessVCBlockCore env s0 vc).1]) := by
      simp [callProcessVCBlockCore, hW]
    rw [hunf]
    by_cases hok : (callProcessVCBlockCore env s0 vc).1 = true
    · obtain ⟨L, hL, hLs, hLok⟩ := ih ((expected + 1) % 2 ^ 32) (callProcessVCBlockCore env s0 vc).2
      refine ⟨W ++ [Call.ProcessVCBlockCore vc true] ++ L, ?_, ?_, ?_⟩
      · simp only [hok, Bool.not_true, Bool.false_eq_true, ↓reduceIte]
        rw [hL, hcall, hok]
        simp
      · intro c hc
        simp only [List.mem_append, List.mem_singleton] at hc
        rcases hc with (hc | hc) | hc
        · exact (hWs c hc).1
        · subst hc; rfl
        · exact hLs c hc
      · simp only [hok, Bool.not_true, Bool.false_eq_true, ↓reduceIte]
        intro hres
        obtain ⟨h1, h2⟩ := hLok hres
        constructor
        · intro v hv
          simp only [List.mem_cons] at hv
          rcases hv with hv | hv
          · subst hv; simp
          · have := h1 v hv
            simp [this]
        · intro v hv
          simp only [List.mem_append, List.mem_singleton] at hv
          rcases hv with (hv | hv) | hv
          · exact (hWs _ hv).2 v false rfl
          · simp at hv
          · exact h2 v hv
    · have hok' : (callProcessVCBlockCore env s0 vc).1 = false := by simpa using hok
      refine ⟨W ++ [Call.ProcessVCBlockCore vc false], ?_, ?_, ?_⟩
      · simp only [hok', Bool.not_false, ↓reduceIte]
        rw [hcall, hok']
      · intro c hc
        simp only [List.mem_append, List.mem_singleton] at hc
        rcases hc with hc | hc
        · exact (hWs c hc).1
        · subst hc; rfl
      · simp [hok']

theorem callsExtend_refl (ok : Call → Bool) (a : List Call) : callsExtend ok a a :=
  ⟨[], by simp, by simp⟩

theorem callsExtend_of_eq (ok : Call → Bool) {a b : List Call} (h : b = a) :
    callsExtend ok a b := by
  subst h; exact callsExtend_refl ok b

theorem copyToFixed_of_length (src : Bytes) (n : Nat) (h : src.length = n) :
    copyToFixed src n = src := by
  unfold copyToFixed
  simp [h]

theorem SetNumber_succ (v S : Nat) :
    SetNumber v (S + 1) = SetNumber (v / 256) S ++ [v % 256] := by
  unfold SetNumber
  rw [List.range_succ, List.map_append]
  congr 1
  · apply List.map_congr_left
    intro i hi
    have hi' : i < S := List.mem_range.1 hi
    have h1 : S + 1 - 1 - i = (S - 1 - i) + 1 := by omega
    rw [h1, pow_succ, Nat.div_div_eq_div_mul, Nat.mul_comm]
  · simp

theorem SetNumber_length (v S : Nat) : (SetNumber v S).length = S := by
  simp [SetNumber]

theorem foldl_SetNumber (S : Nat) :
    ∀ v, (SetNumber v S).foldl (fun result b => result * 256 + b) 0 = v % 256 ^ S := by
  induction S with
  | zero => intro v; simp [SetNumber, Nat.mod_one]
  | succ S ih =>
    intro v
    rw [SetNumber_succ, List.foldl_append, ih]
    simp only [List.foldl_cons, List.foldl_nil]
    rw [pow_succ', Nat.mod_mul]
    ring

theorem GetNumber_SetNumber (v S : Nat) (h : v < 256 ^ S) :
    GetNumber (SetNumber v S) S = v := by
  unfold GetNumber
  rw [SetNumber_length]
  simp only [le_refl, ↓reduceIte]
  rw [List.take_of_length_le (by rw [SetNumber_length]), foldl_SetNumber, Nat.mod_eq_of_lt h]

theorem SerializeToArray_drop {M : Type} (pm : ProtoMessage M) (m : M) (dst : Bytes)
    (offset : Nat)
    (hend : (SerializeToArray pm m dst offset).2.length = offset + pm.ByteSize m) :
    (SerializeToArray pm m dst offset).2.drop offset = pm.Serialize m := by
  unfold SerializeToArray at hend ⊢
  unfold ProtoMessage.ByteSize at hend ⊢
  dsimp only at hend ⊢
  split at hend
  · next hlt =>
    rw [if_pos hlt]
    have hn : ((dst.length : Int) + ((pm.Serialize m).length : Int)
        - ((dst.length : Int) - (offset : Int))).toNat = offset + (pm.Serialize m).length := by
      omega
    rw [hn] at hend ⊢
    have hl : (resize dst (offset + (pm.Serialize m).length)).length
        = offset + (pm.Serialize m).length := by
      unfold resize; simp; omega
    have ht : (List.take offset (resize dst (offset + (pm.Serialize m).length))).length
        = offset := by
      rw [List.length_take, hl]; omega
    rw [List.append_assoc, List.drop_left' ht, List.drop_of_length_le (by omega)]
    simp
  · next hge =>
    rw [if_neg hge]
    have hge' : offset + (pm.Serialize m).length ≤ dst.length := by omega
    have ht : (List.take offset dst).length = offset := by
      rw [List.length_take]; omega
    simp only [List.length_append, List.length_take, List.length_drop] at hend
    rw [List.append_assoc, List.drop_left' ht, List.drop_of_length_le (by omega)]
    simp

theorem mapAssign_append (pre : List (PubKey × Peer)) (k : PubKey) (v : Peer)
    (h : ∀ e ∈ pre, e.1.key < k.key) : mapAssign pre k v = pre ++ [(k, v)] := by
  induction pre with
  | nil => rfl
  | cons e rest ih =>
    have he : e.1.key < k.key := h e (List.mem_cons_self _ _)
    have hrest : ∀ e' ∈ rest, e'.1.key < k.key := fun e' he' => h e' (List.mem_cons_of_mem _ he')
    obtain ⟨k', v'⟩ := e
    simp only at he
    rw [mapAssign, if_neg (by omega), if_neg (by omega), ih hrest]
    rfl

theorem winners_fold (c : Common) (hrt : c.RoundTrip) (ws : List (PubKey × Peer)) :
    ∀ (pre : List (PubKey × Peer)) (t1 : PubKey) (t2 : Peer),
      (pre ++ ws).Pairwise (fun a b => a.1.key < b.1.key) →
      ((ws.map (fun winner =>
          ({ key := some (SerializableToProtobufByteArray c.PubKey winner.1)
             val := some (SerializableToProtobufByteArray c.Peer winner.2) } :
            ProtoDSBlock.DSBlockHeader.PowDSWinners))).foldl
        (fun (acc : List (PubKey × Peer) × PubKey × Peer) dswinner =>
          let tempPubKey :=
            ProtobufByteArrayToSerializable c.PubKey (dswinner.key.getD default) acc.2.1
          let tempWinnerNetworkInfo :=
            ProtobufByteArrayToSerializable c.Peer (dswinner.val.getD default) acc.2.2
          (mapAssign acc.1 tempPubKey tempWinnerNetworkInfo, tempPubKey, tempWinnerNetworkInfo))
        (pre, t1, t2)).1 = pre ++ ws := by
  induction ws with
  | nil => intro pre t1 t2 _; simp
  | cons w rest ih =>
    intro pre t1 t2 hp
    simp only [List.map_cons, List.foldl_cons, Option.getD_some,
      ProtobufByteArrayToSerializable, SerializableToProtobufByteArray, ByteArray.getData,
      hrt.PubKey, hrt.Peer]
    have hlt : ∀ e ∈ pre, e.1.key < w.1.key := by
      intro e he
      have := List.pairwise_append.1 hp
      exact this.2.2 e he w (List.mem_cons_self _ _)
    rw [mapAssign_append pre w.1 w.2 hlt]
    have hp' : (pre ++ [(w.1, w.2)] ++ rest).Pairwise (fun a b => a.1.key < b.1.key) := by
      simpa using hp
    have := ih (pre ++ [(w.1, w.2)]) w.1 w.2 hp'
    simp only [ProtobufByteArrayToSerializable, SerializableToProtobufByteArray,
      ByteArray.getData] at this
    rw [this]
    simp

theorem ProtobufToDSBlockHeader_roundtrip (c : Common) (hrt : c.RoundTrip)
    (h : DSBlockHeader) (hwf : DSBlockHeader.WF c h) :
    ProtobufToDSBlockHeader c (DSBlockHeaderToProtobuf c h) = h := by
  obtain ⟨h1, h2, h3, h4, h5, h6, h7, h8, h9⟩ := hwf
  have hw := winners_fold c hrt h.m_PoWDSWinners [] PubKey.default Peer.default (by simpa using h5)
  unfold ProtobufToDSBlockHeader DSBlockHeaderToProtobuf ProtobufToDSBlockHeader.winners
  simp only [Option.getD_some, ProtobufByteArrayToSerializable,
    SerializableToProtobufByteArray, ByteArray.getData, hrt.PubKey, hrt.SWInfo,
    ProtobufByteArrayToNumber, NumberToProtobufByteArray, GetNumber_SetNumber _ _ h4,
    copyToFixed_of_length _ _ h3, copyToFixed_of_length _ _ h6, copyToFixed_of_length _ _ h7,
    copyToFixed_of_length _ _ h8, copyToFixed_of_length _ _ h9, Nat.mod_eq_of_lt h1,
    Nat.mod_eq_of_lt h2]
  simp only [ProtobufByteArrayToSerializable, SerializableToProtobufByteArray,
    ByteArray.getData, List.nil_append] at hw
  rw [hw]

theorem ProtobufToCoSignatures_roundtrip (c : Common) (hrt : c.RoundTrip) (cosigs : CoSignatures) :
    ProtobufToCoSignatures c (CoSignaturesToProtobuf c cosigs) = cosigs := by
  unfold ProtobufToCoSignatures CoSignaturesToProtobuf
  simp only [Option.getD_some, ProtobufByteArrayToSerializable,
    SerializableToProtobufByteArray, ByteArray.getData, hrt.Signature]

theorem ProtobufToDSBlock_roundtrip (c : Common) (hrt : c.RoundTrip)
    (b : DSBlock) (hwf : DSBlock.WF c b) :
    ProtobufToDSBlock c (DSBlockToProtobuf c b) = b := by
  unfold ProtobufToDSBlock DSBlockToProtobuf
  simp only [Option.getD_some, ProtobufToDSBlockHeader_roundtrip c hrt _ hwf.1,
    ProtobufToCoSignatures_roundtrip c hrt, copyToFixed_of_length _ _ hwf.2]

theorem ProtobufToShardingStructure_roundtrip (c : Common) (hrt : c.RoundTrip)
    (shards : DequeOfShard) :
    ProtobufToShardingStructure c (ShardingStructureToProtobuf c shards) [] = shards := by
  unfold ProtobufToShardingStructure ShardingStructureToProtobuf
  simp only [List.nil_append, List.map_map]
  conv_rhs => rw [← List.map_id shards]
  apply List.map_congr_left
  intro shard _
  simp only [Function.comp_apply, List.map_map, id_eq]
  conv_rhs => rw [← List.map_id shard]
  apply List.map_congr_left
  intro node _
  simp only [Function.comp_apply, Option.getD_some, ProtobufByteArrayToSerializable,
    SerializableToProtobufByteArray, ByteArray.getData, hrt.PubKey, hrt.Peer, id_eq]

theorem shardnodes_mapM (c : Common) (rs ss : List (List Peer)) (hlen : rs.length = ss.length) :
    ∀ n, n ≤ rs.length →
      (List.range n).mapM (fun i =>
          TxSharingAssignmentsToProtobuf.shardnode c (rs.getD i []) ss[i]?)
        = some (List.zipWith (fun r s =>
            ({ receivers := r.map (SerializableToProtobufByteArray c.Peer)
               senders := s.map (SerializableToProtobufByteArray c.Peer) } :
              ProtoTxSharingAssignments.AssignedNodes)) (rs.take n) (ss.take n)) := by
  intro n
  induction n with
  | zero => intro _; rfl
  | succ n ih =>
    intro hn
    have hn1 : n < rs.length := by omega
    have hn2 : n < ss.length := by omega
    rw [List.range_succ, List.mapM_append, ih (by omega)]
    simp only [List.mapM_cons, List.mapM_nil, List.getElem?_eq_getElem hn2,
      TxSharingAssignmentsToProtobuf.shardnode, List.getD_eq_getElem _ _ hn1]
    rw [List.take_succ, List.take_succ, List.getElem?_eq_getElem hn1,
      List.getElem?_eq_getElem hn2]
    simp only [Option.toList_some]
    rw [List.zipWith_append _ _ _ _ _ (by simp only [List.length_take]; omega)]
    rfl

theorem TxSharingAssignmentsToProtobuf_eq (c : Common) (ds : List Peer)
    (rs ss : List (List Peer)) (hlen : rs.length = ss.length) :
    TxSharingAssignmentsToProtobuf c ds rs ss
      = some { dsnodes := ds.map (SerializableToProtobufByteArray c.Peer)
               shardnodes := List.zipWith (fun r s =>
                 ({ receivers := r.map (SerializableToProtobufByteArray c.Peer)
                    senders := s.map (SerializableToProtobufByteArray c.Peer) } :
                   ProtoTxSharingAssignments.AssignedNodes)) rs ss } := by
  unfold TxSharingAssignmentsToProtobuf
  rw [shardnodes_mapM c rs ss hlen rs.length (le_refl _)]
  simp only [Option.map_some', List.take_length]
  rw [hlen, List.take_length]

theorem zipWith_fst {α β γ : Type} (f : α → β → γ) (g : γ → α) (hg : ∀ a b, g (f a b) = a) :
    ∀ (l1 : List α) (l2 : List β), l1.length = l2.length →
      (List.zipWith f l1 l2).map g = l1 := by
  intro l1
  induction l1 with
  | nil => intro l2 _; simp
  | cons a as ih =>
    intro l2 hl
    cases l2 with
    | nil => simp at hl
    | cons b bs =>
      simp only [List.zipWith_cons_cons, List.map_cons, hg]
      rw [ih bs (by simpa using hl)]

theorem zipWith_snd {α β γ : Type} (f : α → β → γ) (g : γ → β) (hg : ∀ a b, g (f a b) = b) :
    ∀ (l1 : List α) (l2 : List β), l1.length = l2.length →
      (List.zipWith f l1 l2).map g = l2 := by
  intro l1
  induction l1 with
  | nil => intro l2 hl; cases l2 with
    | nil => rfl
    | cons b bs => simp at hl
  | cons a as ih =>
    intro l2 hl
    cases l2 with
    | nil => simp at hl
    | cons b bs =>
      simp only [List.zipWith_cons_cons, List.map_cons, hg]
      rw [ih bs (by simpa using hl)]

theorem peers_roundtrip (c : Common) (hrt : c.RoundTrip) (l : List Peer) :
    (l.map (SerializableToProtobufByteArray c.Peer)).map
      (fun b => ProtobufByteArrayToSerializable c.Peer b Peer.default) = l := by
  rw [List.map_map]
  conv_rhs => rw [← List.map_id l]
  apply List.map_congr_left
  intro p _
  simp only [Function.comp_apply, ProtobufByteArrayToSerializable,
    SerializableToProtobufByteArray, ByteArray.getData, Option.getD_some, hrt.Peer, id_eq]

theorem ProtobufToTxSharingAssignments_roundtrip (c : Common) (hrt : c.RoundTrip)
    (ds : List Peer) (rs ss : List (List Peer)) (hlen : rs.length = ss.length)
    (a : ProtoTxSharingAssignments)
    (ha : TxSharingAssignmentsToProtobuf c ds rs ss = some a) :
    ProtobufToTxSharingAssignments c a [] [] [] = (ds, rs, ss) := by
  rw [TxSharingAssignmentsToProtobuf_eq c ds rs ss hlen] at ha
  cases ha
  unfold ProtobufToTxSharingAssignments
  simp only [List.nil_append, peers_roundtrip c hrt]
  rw [zipWith_fst
      (fun r s =>
        ({ receivers := r.map (SerializableToProtobufByteArray c.Peer)
           senders := s.map (SerializableToProtobufByteArray c.Peer) } :
          ProtoTxSharingAssignments.AssignedNodes))
      (fun proto_shard => proto_shard.receivers.map
        (fun b => ProtobufByteArrayToSerializable c.Peer b Peer.default))
      (fun r _ => peers_roundtrip c hrt r) rs ss hlen,
    zipWith_snd
      (fun r s =>
        ({ receivers := r.map (SerializableToProtobufByteArray c.Peer)
           senders := s.map (SerializableToProtobufByteArray c.Peer) } :
          ProtoTxSharingAssignments.AssignedNodes))
      (fun proto_shard => proto_shard.senders.map
        (fun b => ProtobufByteArrayToSerializable c.Peer b Peer.default))
      (fun _ s => peers_roundtrip c hrt s) rs ss hlen]

/-! ## Consensus announcements (C7, C8, C9, C10) -/

theorem tmp_eq_inputToSigning (P : AnnouncementProto) (a : ConsensusAnnouncement)
    (sig : Option ByteArray) :
    GetConsensusAnnouncementCore.tmp P { a with signature := sig }
      = SetConsensusAnnouncementCore.inputToSigning P a := by
  unfold GetConsensusAnnouncementCore.tmp SetConsensusAnnouncementCore.inputToSigning
  cases h : a.announcement with
  | ANNOUNCEMENT_NOT_SET => simp only [h]
  | kDsblock m => cases hi : P.DSDSBlockAnnouncement.IsInitialized m <;> simp [h, hi]
  | kMicroblock m => cases hi : P.NodeMicroBlockAnnouncement.IsInitialized m <;> simp [h, hi]
  | kFinalblock m => cases hi : P.DSFinalBlockAnnouncement.IsInitialized m <;> simp [h, hi]
  | kVcblock m => cases hi : P.DSVCBlockAnnouncement.IsInitialized m <;> simp [h, hi]
  | kFallbackblock m =>
    cases hi : P.NodeFallbackBlockAnnouncement.IsInitialized m <;> simp [h, hi]

theorem SetConsensusAnnouncementCore_some (P : AnnouncementProto) (S : Schnorr) (c : Common)
    (a0 : ConsensusAnnouncement) (consensusID blockNumber : Nat) (blockHash : Bytes)
    (leaderID : Nat) (leaderKey : PrivKey × PubKey) (a : ConsensusAnnouncement)
    (h : SetConsensusAnnouncementCore P S c a0 consensusID blockNumber blockHash leaderID
      leaderKey = some a) :
    ∃ input signature,
      SetConsensusAnnouncementCore.inputToSigning P
          (SetConsensusAnnouncementCore.setInfo a0 consensusID blockNumber blockHash leaderID)
        = some input
      ∧ S.Sign input leaderKey.1 leaderKey.2 = some signature
      ∧ a = { SetConsensusAnnouncementCore.setInfo a0 consensusID blockNumber blockHash
                leaderID with
              signature := some (SerializableToProtobufByteArray c.Signature signature) }
      ∧ P.ConsensusAnnouncement.IsInitialized a = true := by
  unfold SetConsensusAnnouncementCore at h
  dsimp only at h
  split at h
  · cases h
  · split at h
    · cases h
    · next input hin =>
      split at h
      · cases h
      · next signature hsig =>
        split at h
        · next hinit =>
          cases h
          exact ⟨input, signature, hin, hsig, rfl, hinit⟩
        · cases h

theorem GetConsensusAnnouncementCore_of_Set (P : AnnouncementProto) (S : Schnorr) (c : Common)
    (hrt : c.RoundTrip)
    (a0 : ConsensusAnnouncement) (consensusID blockNumber : Nat) (blockHash : Bytes)
    (leaderID : Nat) (leaderKey : PrivKey × PubKey) (a : ConsensusAnnouncement)
    (hver : ∀ m sig, S.Sign m leaderKey.1 leaderKey.2 = some sig →
      S.Verify m sig leaderKey.2 = true)
    (h : SetConsensusAnnouncementCore P S c a0 consensusID blockNumber blockHash leaderID
      leaderKey = some a) :
    GetConsensusAnnouncementCore P S c a consensusID blockNumber blockHash leaderID
      leaderKey.2 = true := by
  obtain ⟨input, signature, hin, hsig, ha, -⟩ :=
    SetConsensusAnnouncementCore_some P S c a0 consensusID blockNumber blockHash leaderID
      leaderKey a h
  subst ha
  unfold GetConsensusAnnouncementCore
  rw [tmp_eq_inputToSigning, hin]
  simp [SetConsensusAnnouncementCore.setInfo, ProtobufByteArrayToSerializable,
    SerializableToProtobufByteArray, ByteArray.getData, hrt.Signature, hver input signature hsig]

theorem Example.common_roundTrip : Example.common.RoundTrip :=
  ⟨fun _ _ => rfl, fun _ _ => rfl, fun _ _ => rfl, fun _ _ => rfl⟩

theorem Example.block10_WF : DSBlock.WF Example.common Example.block10 := by
  unfold DSBlock.WF DSBlockHeader.WF
  decide

theorem GetDSDSBlockAnnouncement_decode (P : AnnouncementProto) (S : Schnorr) (c : Common)
    (SerializeHeader : DSBlockHeader → Option Bytes) (src : Bytes) (offset : Nat)
    (consensusID blockNumber : Nat) (blockHash : Bytes) (leaderID : Nat) (leaderKey : PubKey)
    (shards : DequeOfShard) (dsReceivers : List Peer)
    (shardReceivers shardSenders : List (List Peer)) (g : GetDSDSBlockAnnouncementResult)
    (h : GetDSDSBlockAnnouncement P S c SerializeHeader src offset consensusID blockNumber
      blockHash leaderID leaderKey shards dsReceivers shardReceivers shardSenders = some g) :
    ∃ dsblock,
      (P.ConsensusAnnouncement.Parse (src.drop offset)).announcement = .kDsblock dsblock
      ∧ g.dsBlock = ProtobufToDSBlock c (dsblock.dsblock.getD default)
      ∧ SerializeHeader g.dsBlock.m_header = some g.messageToCosign := by
  unfold GetDSDSBlockAnnouncement at h
  dsimp only at h
  split at h
  · cases h
  · split at h
    · next dsblock hd =>
      split at h
      · cases h
      · split at h
        · cases h
        · next mtc hm =>
          cases h
          exact ⟨dsblock, hd, rfl, hm⟩
    · cases h

theorem SetDSDSBlockAnnouncement_some (P : AnnouncementProto) (S : Schnorr) (c : Common)
    (SerializeHeader : DSBlockHeader → Option Bytes)
    (dst : Bytes) (offset : Nat) (consensusID blockNumber : Nat) (blockHash : Bytes)
    (leaderID : Nat) (leaderKey : PrivKey × PubKey) (dsBlock : DSBlock)
    (shards : DequeOfShard) (dsReceivers : List Peer)
    (shardReceivers shardSenders : List (List Peer)) (r : SetAnnouncementResult)
    (h : SetDSDSBlockAnnouncement P S c SerializeHeader dst offset consensusID blockNumber
      blockHash leaderID leaderKey dsBlock shards dsReceivers shardReceivers shardSenders
      = some r) :
    ∃ a,
      SetDSDSBlockAnnouncement.announcement P S c consensusID blockNumber blockHash leaderID
        leaderKey dsBlock shards dsReceivers shardReceivers shardSenders = some a
      ∧ SerializeHeader dsBlock.m_header = some r.messageToCosign
      ∧ r.dst = (SerializeToArray P.ConsensusAnnouncement a dst offset).2 := by
  unfold SetDSDSBlockAnnouncement at h
  split at h
  · cases h
  · next a ha =>
    split at h
    · cases h
    · next mtc hm =>
      dsimp only at h
      split at h
      · cases h
        exact ⟨a, ha, hm, rfl⟩
      · cases h

theorem announcement_some (P : AnnouncementProto) (S : Schnorr) (c : Common)
    (consensusID blockNumber : Nat) (blockHash : Bytes)
    (leaderID : Nat) (leaderKey : PrivKey × PubKey) (dsBlock : DSBlock)
    (shards : DequeOfShard) (dsReceivers : List Peer)
    (shardReceivers shardSenders : List (List Peer)) (a : ConsensusAnnouncement)
    (h : SetDSDSBlockAnnouncement.announcement P S c consensusID blockNumber blockHash leaderID
      leaderKey dsBlock shards dsReceivers shardReceivers shardSenders = some a) :
    ∃ assignments,
      TxSharingAssignmentsToProtobuf c dsReceivers shardReceivers shardSenders = some assignments
      ∧ SetConsensusAnnouncementCore P S c
          { announcement := .kDsblock
              { dsblock := some (DSBlockToProtobuf c dsBlock)
                sharding := some (ShardingStructureToProtobuf c shards)
                assignments := some assignments } }
          consensusID blockNumber blockHash leaderID leaderKey = some a := by
  unfold SetDSDSBlockAnnouncement.announcement at h
  split at h
  · cases h
  · next assignments hasg =>
    dsimp only at h
    split at h
    · cases h
    · exact ⟨assignments, hasg, h⟩

/-- C7: end-to-end announcement success. Assume the value classes round-trip, signing
succeeds and `Verify m (Sign m sk pk) pk` holds for the leader's key pair. For every
consensusID, blockNumber, blockHash, leaderID, DS block, sharding structure and
tx-sharing assignment (`shardReceivers` and `shardSenders` of equal length) that
`SetDSDSBlockAnnouncement` encodes successfully into a buffer ending at the end of the
encoding, and whose encoding the protobuf runtime parses back to the announcement,
`GetDSDSBlockAnnouncement` called on those bytes with the same four expected values, the
leader's public key and empty output containers returns true and yields the same DS
block, sharding structure and assignments. -/
theorem DSDSBlockAnnouncement_roundtrip (P : AnnouncementProto) (S : Schnorr) (c : Common)
    (SerializeHeader : DSBlockHeader → Option Bytes)
    (dst : Bytes) (offset : Nat) (consensusID blockNumber : Nat) (blockHash : Bytes)
    (leaderID : Nat) (leaderKey : PrivKey × PubKey) (dsBlock : DSBlock)
    (shards : DequeOfShard) (dsReceivers : List Peer)
    (shardReceivers shardSenders : List (List Peer))
    (a : ConsensusAnnouncement) (r : SetAnnouncementResult)
    (hrt : c.RoundTrip)
    (hver : ∀ m sig, S.Sign m leaderKey.1 leaderKey.2 = some sig →
      S.Verify m sig leaderKey.2 = true)
    (hwf : DSBlock.WF c dsBlock)
    (hlen : shardReceivers.length = shardSenders.length)
    (ha : SetDSDSBlockAnnouncement.announcement P S c consensusID blockNumber blockHash
      leaderID leaderKey dsBlock shards dsReceivers shardReceivers shardSenders = some a)
    (hset : SetDSDSBlockAnnouncement P S c SerializeHeader dst offset consensusID blockNumber
      blockHash leaderID leaderKey dsBlock shards dsReceivers shardReceivers shardSenders
      = some r)
    (hend : r.dst.length = offset + P.ConsensusAnnouncement.ByteSize a)
    (hparse : P.ConsensusAnnouncement.Parse (P.ConsensusAnnouncement.Serialize a) = a) :
    GetDSDSBlockAnnouncement P S c SerializeHeader r.dst offset consensusID blockNumber
      blockHash leaderID leaderKey.2 [] [] [] []
      = some { dsBlock := dsBlock, shards := shards, dsReceivers := dsReceivers,
               shardReceivers := shardReceivers, shardSenders := shardSenders,
               messageToCosign := r.messageToCosign } := by
  obtain ⟨a', ha', hmtc, hdst⟩ := SetDSDSBlockAnnouncement_some P S c SerializeHeader dst offset
    consensusID blockNumber blockHash leaderID leaderKey dsBlock shards dsReceivers
    shardReceivers shardSenders r hset
  rw [ha] at ha'
  cases ha'
  obtain ⟨assignments, hasg, hcore⟩ := announcement_some P S c consensusID blockNumber
    blockHash leaderID leaderKey dsBlock shards dsReceivers shardReceivers shardSenders a ha
  have hget := GetConsensusAnnouncementCore_of_Set P S c hrt _ consensusID blockNumber blockHash
    leaderID leaderKey a hver hcore
  obtain ⟨input, signature, -, -, haeq, hinit⟩ := SetConsensusAnnouncementCore_some P S c _
    consensusID blockNumber blockHash leaderID leaderKey a hcore
  have hdrop : r.dst.drop offset = P.ConsensusAnnouncement.Serialize a := by
    rw [hdst]
    exact SerializeToArray_drop _ _ _ _ (by rw [← hdst]; exact hend)
  have hann : a.announcement = .kDsblock
      { dsblock := some (DSBlockToProtobuf c dsBlock)
        sharding := some (ShardingStructureToProtobuf c shards)
        assignments := some assignments } := by
    rw [haeq]; rfl
  unfold GetDSDSBlockAnnouncement
  dsimp only
  rw [hdrop, hparse]
  simp only [hinit, Bool.not_true, Bool.false_eq_true, ↓reduceIte, hann, hget,
    Option.getD_some, ProtobufToDSBlock_roundtrip c hrt dsBlock hwf,
    ProtobufToShardingStructure_roundtrip c hrt shards,
    ProtobufToTxSharingAssignments_roundtrip c hrt dsReceivers shardReceivers shardSenders hlen
      assignments hasg, hmtc]

/-- Witness of C7: the announcement of DS block 10 written at offset 2 of a two-byte
buffer is read back. -/
theorem DSDSBlockAnnouncement_roundtrip_witness :
    GetDSDSBlockAnnouncement Example.proto Example.schnorr Example.common
      Example.SerializeHeader [0, 0, 215] 2 7 10 (Example.hashOf 7) 0 Example.leaderKey.2
      [] [] [] []
      = some { dsBlock := Example.block10, shards := Example.shards,
               dsReceivers := Example.dsReceivers, shardReceivers := Example.shardReceivers,
               shardSenders := Example.shardSenders, messageToCosign := [10, 5, 3] } :=
  DSDSBlockAnnouncement_roundtrip Example.proto Example.schnorr Example.common
    Example.SerializeHeader [0, 0] 2 7 10 (Example.hashOf 7) 0 Example.leaderKey
    Example.block10 Example.shards Example.dsReceivers Example.shardReceivers
    Example.shardSenders Example.announcement
    { dst := [0, 0, 215], messageToCosign := [10, 5, 3] }
    Example.common_roundTrip
    (by intro m sig h; cases h; simp [Example.schnorr, Example.leaderKey])
    Example.block10_WF (by decide) (by decide) (by decide) (by decide) (by decide)

/-- C10: leader and backup agree on what is co-signed. Whenever
`SetDSDSBlockAnnouncement` succeeds (into a buffer ending at the end of the encoding,
which the runtime parses back) and `GetDSDSBlockAnnouncement` succeeds on its output,
the `messageToCosign` returned by both is the same byte string, the header-only
serialization of the DS block; any other successful `SetDSDSBlockAnnouncement` for a
block with the same header returns the same `messageToCosign`, whatever the block's
co-signatures and block hash, the sharding structure, the assignments and the
consensus-info values. -/
theorem messageToCosign_agrees (P : AnnouncementProto) (S : Schnorr) (c : Common)
    (SerializeHeader : DSBlockHeader → Option Bytes)
    (dst : Bytes) (offset : Nat) (consensusID blockNumber : Nat) (blockHash : Bytes)
    (leaderID : Nat) (leaderKey : PrivKey × PubKey) (dsBlock : DSBlock)
    (shards : DequeOfShard) (dsReceivers : List Peer)
    (shardReceivers shardSenders : List (List Peer))
    (a : ConsensusAnnouncement) (r : SetAnnouncementResult)
    (consensusID' blockNumber' : Nat) (blockHash' : Bytes) (leaderID' : Nat)
    (leaderKey' : PubKey) (shards' : DequeOfShard) (dsReceivers' : List Peer)
    (shardReceivers' shardSenders' : List (List Peer)) (g : GetDSDSBlockAnnouncementResult)
    (hrt : c.RoundTrip)
    (hwf : DSBlockHeader.WF c dsBlock.m_header)
    (ha : SetDSDSBlockAnnouncement.announcement P S c consensusID blockNumber blockHash
      leaderID leaderKey dsBlock shards dsReceivers shardReceivers shardSenders = some a)
    (hset : SetDSDSBlockAnnouncement P S c SerializeHeader dst offset consensusID blockNumber
      blockHash leaderID leaderKey dsBlock shards dsReceivers shardReceivers shardSenders
      = some r)
    (hend : r.dst.length = offset + P.ConsensusAnnouncement.ByteSize a)
    (hparse : P.ConsensusAnnouncement.Parse (P.ConsensusAnnouncement.Serialize a) = a)
    (hget : GetDSDSBlockAnnouncement P S c SerializeHeader r.dst offset consensusID'
      blockNumber' blockHash' leaderID' leaderKey' shards' dsReceivers' shardReceivers'
      shardSenders' = some g) :
    g.messageToCosign = r.messageToCosign
    ∧ SerializeHeader dsBlock.m_header = some r.messageToCosign
    ∧ ∀ (dst2 : Bytes) (offset2 consensusID2 blockNumber2 : Nat) (blockHash2 : Bytes)
        (leaderID2 : Nat) (leaderKey2 : PrivKey × PubKey) (dsBlock2 : DSBlock)
        (shards2 : DequeOfShard) (dsReceivers2 : List Peer)
        (shardReceivers2 shardSenders2 : List (List Peer)) (r2 : SetAnnouncementResult),
        dsBlock2.m_header = dsBlock.m_header →
        SetDSDSBlockAnnouncement P S c SerializeHeader dst2 offset2 consensusID2 blockNumber2
          blockHash2 leaderID2 leaderKey2 dsBlock2 shards2 dsReceivers2 shardReceivers2
          shardSenders2 = some r2 →
        r2.messageToCosign = r.messageToCosign := by
  obtain ⟨a', ha', hmtc, hdst⟩ := SetDSDSBlockAnnouncement_some P S c SerializeHeader dst offset
    consensusID blockNumber blockHash leaderID leaderKey dsBlock shards dsReceivers
    shardReceivers shardSenders r hset
  rw [ha] at ha'
  cases ha'
  obtain ⟨assignments, -, hcore⟩ := announcement_some P S c consensusID blockNumber
    blockHash leaderID leaderKey dsBlock shards dsReceivers shardReceivers shardSenders a ha
  obtain ⟨input, signature, -, -, haeq, -⟩ := SetConsensusAnnouncementCore_some P S c _
    consensusID blockNumber blockHash leaderID leaderKey a hcore
  have hdrop : r.dst.drop offset = P.ConsensusAnnouncement.Serialize a := by
    rw [hdst]
    exact SerializeToArray_drop _ _ _ _ (by rw [← hdst]; exact hend)
  obtain ⟨dsblock, hd, hg, hgm⟩ := GetDSDSBlockAnnouncement_decode P S c SerializeHeader r.dst
    offset consensusID' blockNumber' blockHash' leaderID' leaderKey' shards' dsReceivers'
    shardReceivers' shardSenders' g hget
  rw [hdrop, hparse, haeq] at hd
  have hdb : dsblock.dsblock = some (DSBlockToProtobuf c dsBlock) := by
    simp only [SetConsensusAnnouncementCore.setInfo] at hd
    cases hd
    rfl
  have hhead : g.dsBlock.m_header = dsBlock.m_header := by
    rw [hg, hdb]
    simp only [Option.getD_some, ProtobufToDSBlock, DSBlockToProtobuf,
      ProtobufToDSBlockHeader_roundtrip c hrt _ hwf]
  rw [hhead, hmtc] at hgm
  refine ⟨(Option.some.inj hgm).symm, hmtc, ?_⟩
  intro dst2 offset2 consensusID2 blockNumber2 blockHash2 leaderID2 leaderKey2 dsBlock2 shards2
    dsReceivers2 shardReceivers2 shardSenders2 r2 hh hset2
  obtain ⟨_, -, hmtc2, -⟩ := SetDSDSBlockAnnouncement_some P S c SerializeHeader dst2 offset2
    consensusID2 blockNumber2 blockHash2 leaderID2 leaderKey2 dsBlock2 shards2 dsReceivers2
    shardReceivers2 shardSenders2 r2 hset2
  rw [hh, hmtc] at hmtc2
  exact (Option.some.inj hmtc2).symm

/-- Witness of C10: in the example the leader's `SetDSDSBlockAnnouncement` and the
backup's `GetDSDSBlockAnnouncement` both succeed and both return the header bytes
`[10, 5, 3]`. -/
theorem messageToCosign_agrees_witness :
    (SetDSDSBlockAnnouncement Example.proto Example.schnorr Example.common
        Example.SerializeHeader [0, 0] 2 7 10 (Example.hashOf 7) 0 Example.leaderKey
        Example.block10 Example.shards Example.dsReceivers Example.shardReceivers
        Example.shardSenders).map (fun r => r.messageToCosign) = some [10, 5, 3]
    ∧ (GetDSDSBlockAnnouncement Example.proto Example.schnorr Example.common
        Example.SerializeHeader [0, 0, 215] 2 7 10 (Example.hashOf 7) 0 Example.leaderKey.2
        [] [] [] []).map (fun g => g.messageToCosign) = some [10, 5, 3]
    ∧ Example.SerializeHeader Example.block10.m_header = some [10, 5, 3] :=
  have h := messageToCosign_agrees Example.proto Example.schnorr Example.common
    Example.SerializeHeader [0, 0] 2 7 10 (Example.hashOf 7) 0 Example.leaderKey
    Example.block10 Example.shards Example.dsReceivers Example.shardReceivers
    Example.shardSenders Example.announcement
    { dst := [0, 0, 215], messageToCosign := [10, 5, 3] }
    7 10 (Example.hashOf 7) 0 Example.leaderKey.2 [] [] [] []
    { dsBlock := Example.block10, shards := Example.shards,
      dsReceivers := Example.dsReceivers, shardReceivers := Example.shardReceivers,
      shardSenders := Example.shardSenders, messageToCosign := [10, 5, 3] }
    Example.common_roundTrip Example.block10_WF.1 (by decide) (by decide) (by decide)
    (by decide) (by decide)
  ⟨by decide, by decide, h.2.1⟩

/-! ## Writing at an offset: lemmas -/

/-- C11 fails on this input: the consensus info of `Example.wrappedCommit` carries the
backup id 65537, which is not below the committee size 4, and `GetConsensusCommit`
nevertheless returns true, with `backupID = 1`: the wire value is narrowed to the
`uint16_t` output before it is compared with the committee size. -/
theorem GetConsensusCommit_accepts_wrapped_backupID :
    ((Example.pmCommit.Message.Parse Example.wrappedCommit).consensusinfo.getD
        default).backupid.getD 0 = 65537
    ∧ Example.committee.length = 4
    ∧ GetConsensusCommit Example.pmCommit Example.schnorr Example.common Example.commitPoint
        Example.wrappedCommit 0 7 10 (Example.hashOf 7) ⟨0⟩ Example.committee
      = .returnsTrue { backupID := 1, commit := ⟨42⟩ } := by
  decide

theorem GetConsensusCommit_cases
    (P : ConsensusProto ConsensusCommit.ConsensusInfo ConsensusCommit)
    (S : Schnorr) (c : Common) (cp : Serializable CommitPoint)
    (src : Bytes) (offset : Nat) (consensusID blockNumber : Nat) (blockHash : Bytes)
    (commit : CommitPoint) (committeeKeys : List (PubKey × Peer)) :
    GetConsensusCommit P S c cp src offset consensusID blockNumber blockHash commit
        committeeKeys ≠ .throwsOutOfRange
    ∧ ∀ out, GetConsensusCommit P S c cp src offset consensusID blockNumber blockHash commit
        committeeKeys = .returnsTrue out →
      backupVerified S c committeeKeys
        (P.ConsensusInfo.Serialize ((P.Message.Parse (src.drop offset)).consensusinfo.getD
          default))
        ((P.Message.Parse (src.drop offset)).signature.getD default) out.backupID := by
  unfold GetConsensusCommit
  dsimp only
  split
  · exact ⟨by simp, by intro out h; cases h⟩
  split
  · exact ⟨by simp, by intro out h; cases h⟩
  split
  · exact ⟨by simp, by intro out h; cases h⟩
  split
  · exact ⟨by simp, by intro out h; cases h⟩
  split
  · exact ⟨by simp, by intro out h; cases h⟩
  · next hlt =>
    have hlt' : ((P.Message.Parse (src.drop offset)).consensusinfo.getD default).backupid.getD 0
        % UINT16_MOD < committeeKeys.length := by omega
    split
    · next hnone =>
      rw [List.getElem?_eq_none_iff] at hnone
      omega
    · next key hkey =>
      split
      · exact ⟨by simp, by intro out h; cases h⟩
      · next hv =>
        refine ⟨by simp, ?_⟩
        intro out h
        cases h
        refine ⟨hlt', key, hkey, ?_⟩
        simpa using hv

theorem GetConsensusResponse_cases
    (P : ConsensusProto ConsensusResponse.ConsensusInfo ConsensusResponse)
    (S : Schnorr) (c : Common) (rs : Serializable Response)
    (src : Bytes) (offset : Nat) (consensusID blockNumber : Nat) (blockHash : Bytes)
    (response : Response) (committeeKeys : List (PubKey × Peer)) :
    GetConsensusResponse P S c rs src offset consensusID blockNumber blockHash response
        committeeKeys ≠ .throwsOutOfRange
    ∧ ∀ out, GetConsensusResponse P S c rs src offset consensusID blockNumber blockHash response
        committeeKeys = .returnsTrue out →
      backupVerified S c committeeKeys
        (P.ConsensusInfo.Serialize ((P.Message.Parse (src.drop offset)).consensusinfo.getD
          default))
        ((P.Message.Parse (src.drop offset)).signature.getD default) out.backupID := by
  unfold GetConsensusResponse
  dsimp only
  split
  · exact ⟨by simp, by intro out h; cases h⟩
  split
  · exact ⟨by simp, by intro out h; cases h⟩
  split
  · exact ⟨by simp, by intro out h; cases h⟩
  split
  · exact ⟨by simp, by intro out h; cases h⟩
  split
  · exact ⟨by simp, by intro out h; cases h⟩
  · next hlt =>
    have hlt' : ((P.Message.Parse (src.drop offset)).consensusinfo.getD default).backupid.getD 0
        % UINT16_MOD < committeeKeys.length := by omega
    split
    · next hnone =>
      rw [List.getElem?_eq_none_iff] at hnone
      omega
    · next key hkey =>
      split
      · exact ⟨by simp, by intro out h; cases h⟩
      · next hv =>
        refine ⟨by simp, ?_⟩
        intro out h
        cases h
        refine ⟨hlt', key, hkey, ?_⟩
        simpa using hv

theorem GetConsensusCommitFailure_cases
    (P : ConsensusProto ConsensusCommitFailure.ConsensusInfo ConsensusCommitFailure)
    (S : Schnorr) (c : Common)
    (src : Bytes) (offset : Nat) (consensusID blockNumber : Nat) (blockHash : Bytes)
    (committeeKeys : List (PubKey × Peer)) :
    GetConsensusCommitFailure P S c src offset consensusID blockNumber blockHash
        committeeKeys ≠ .throwsOutOfRange
    ∧ ∀ out, GetConsensusCommitFailure P S c src offset consensusID blockNumber blockHash
        committeeKeys = .returnsTrue out →
      backupVerified S c committeeKeys
        (P.ConsensusInfo.Serialize ((P.Message.Parse (src.drop offset)).consensusinfo.getD
          default))
        ((P.Message.Parse (src.drop offset)).signature.getD default) out.backupID := by
  unfold GetConsensusCommitFailure
  dsimp only
  split
  · exact ⟨by simp, by intro out h; cases h⟩
  split
  · exact ⟨by simp, by intro out h; cases h⟩
  split
  · exact ⟨by simp, by intro out h; cases h⟩
  split
  · exact ⟨by simp, by intro out h; cases h⟩
  split
  · exact ⟨by simp, by intro out h; cases h⟩
  · next hlt =>
    have hlt' : ((P.Message.Parse (src.drop offset)).consensusinfo.getD default).backupid.getD 0
        % UINT16_MOD < committeeKeys.length := by omega
    split
    · next hnone =>
      rw [List.getElem?_eq_none_iff] at hnone
      omega
    · next key hkey =>
      split
      · exact ⟨by simp, by intro out h; cases h⟩
      · next hv =>
        refine ⟨by simp, ?_⟩
        intro out h
        cases h
        refine ⟨hlt', key, hkey, ?_⟩
        simpa using hv

/-- C12: whenever `GetConsensusCommit`, `GetConsensusResponse` or
`GetConsensusCommitFailure` returns true, the returned `backupID` is less than the
committee size and the signature carried by the message was verified, over the
serialization of the message's consensus-info sub-message, against the public key stored
at position `backupID` of the committee; none of the three ever leaves through the
`std::out_of_range` of `committeeKeys.at(backupID)`. -/
theorem backup_getters_verify_at_backupID
    (PC : ConsensusProto ConsensusCommit.ConsensusInfo ConsensusCommit)
    (PR : ConsensusProto ConsensusResponse.ConsensusInfo ConsensusResponse)
    (PF : ConsensusProto ConsensusCommitFailure.ConsensusInfo ConsensusCommitFailure)
    (S : Schnorr) (c : Common) (cp : Serializable CommitPoint) (rs : Serializable Response)
    (src : Bytes) (offset : Nat) (consensusID blockNumber : Nat) (blockHash : Bytes)
    (commit : CommitPoint) (response : Response) (committeeKeys : List (PubKey × Peer)) :
    (GetConsensusCommit PC S c cp src offset consensusID blockNumber blockHash commit
        committeeKeys ≠ .throwsOutOfRange
      ∧ ∀ out, GetConsensusCommit PC S c cp src offset consensusID blockNumber blockHash commit
          committeeKeys = .returnsTrue out →
        backupVerified S c committeeKeys
          (PC.ConsensusInfo.Serialize ((PC.Message.Parse (src.drop offset)).consensusinfo.getD
            default))
          ((PC.Message.Parse (src.drop offset)).signature.getD default) out.backupID)
    ∧ (GetConsensusResponse PR S c rs src offset consensusID blockNumber blockHash response
        committeeKeys ≠ .throwsOutOfRange
      ∧ ∀ out, GetConsensusResponse PR S c rs src offset consensusID blockNumber blockHash
          response committeeKeys = .returnsTrue out →
        backupVerified S c committeeKeys
          (PR.ConsensusInfo.Serialize ((PR.Message.Parse (src.drop offset)).consensusinfo.getD
            default))
          ((PR.Message.Parse (src.drop offset)).signature.getD default) out.backupID)
    ∧ (GetConsensusCommitFailure PF S c src offset consensusID blockNumber blockHash
        committeeKeys ≠ .throwsOutOfRange
      ∧ ∀ out, GetConsensusCommitFailure PF S c src offset consensusID blockNumber blockHash
          committeeKeys = .returnsTrue out →
        backupVerified S c committeeKeys
          (PF.ConsensusInfo.Serialize ((PF.Message.Parse (src.drop offset)).consensusinfo.getD
            default))
          ((PF.Message.Parse (src.drop offset)).signature.getD default) out.backupID) :=
  ⟨GetConsensusCommit_cases PC S c cp src offset consensusID blockNumber blockHash commit
      committeeKeys,
   GetConsensusResponse_cases PR S c rs src offset consensusID blockNumber blockHash response
      committeeKeys,
   GetConsensusCommitFailure_cases PF S c src offset consensusID blockNumber blockHash
      committeeKeys⟩

/-- Witness of C12: the backup message of `B` is accepted by the three getters with
`backupID = 1`, and position 1 of the committee holds the key the signature verifies
against. -/
theorem backup_getters_verify_at_backupID_witness :
    GetConsensusCommit Example.pmCommit Example.schnorr Example.common Example.commitPoint
        Example.backupMessage 0 7 10 (Example.hashOf 7) ⟨0⟩ Example.committee
      = .returnsTrue { backupID := 1, commit := ⟨42⟩ }
    ∧ GetConsensusResponse Example.pmResponse Example.schnorr Example.common Example.response
        Example.backupMessage 0 7 10 (Example.hashOf 7) ⟨0⟩ Example.committee
      = .returnsTrue { backupID := 1, response := ⟨42⟩ }
    ∧ GetConsensusCommitFailure Example.pmCommitFailure Example.schnorr Example.common
        Example.backupMessage 0 7 10 (Example.hashOf 7) Example.committee
      = .returnsTrue { backupID := 1, errorMsg := [42] }
    ∧ backupVerified Example.schnorr Example.common Example.committee
        (Example.pmCommit.ConsensusInfo.Serialize
          ((Example.pmCommit.Message.Parse (Example.backupMessage.drop 0)).consensusinfo.getD
            default))
        ((Example.pmCommit.Message.Parse (Example.backupMessage.drop 0)).signature.getD default)
        1 :=
  ⟨by decide, by decide, by decide,
   (backup_getters_verify_at_backupID Example.pmCommit Example.pmResponse
      Example.pmCommitFailure Example.schnorr Example.common Example.commitPoint
      Example.response Example.backupMessage 0 7 10 (Example.hashOf 7) ⟨0⟩ ⟨0⟩
      Example.committee).1.2 { backupID := 1, commit := ⟨42⟩ } (by decide)⟩

/-! ## Collective signature (C13) -/

theorem truncatedCopy_copyToFixed (src : Bytes) :
    truncatedCopy src (copyToFixed src HASH_SIZE) := by
  unfold truncatedCopy copyToFixed
  refine ⟨?_, ?_, ?_⟩
  · simp only [List.length_append, List.length_take, List.length_replicate]
    omega
  · rw [List.take_append_of_le_length (by simp)]
    simp
  · intro i h1 h2
    rw [List.getElem?_append_right (by simp; omega)]
    rw [List.getElem?_replicate]
    simp only [List.length_take]
    rw [if_pos (by omega)]

/-- C18: truncation-tolerant decode. For every wire message, each 32-byte hash that
`ProtobufToDSBlockHeader`, `ProtobufToMicroBlockHeader`, `ProtobufToTxBlockHeader` or
`GetBlockLink` decodes from a wire byte field of length `n` has its first `min n 32`
bytes equal to the first `min n 32` bytes of the source and all remaining bytes zero;
the three header decoders are total, and `GetBlockLink` returns true whenever the parsed
message is initialised, whatever the length of the field. -/
theorem truncation_tolerant_decode (c : Common) (ds : ProtoDSBlock.DSBlockHeader)
    (mb : ProtoMicroBlock.MicroBlockHeader) (tx : ProtoTxBlock.TxBlockHeader)
    (pm : ProtoMessage ProtoBlockLink) (src : Bytes) (offset : Nat) :
    (truncatedCopy (ds.prevhash.getD []) (ProtobufToDSBlockHeader c ds).m_prevHash
      ∧ truncatedCopy ((ds.hash.getD default).shardinghash.getD [])
          (ProtobufToDSBlockHeader c ds).m_hashset.m_shardingHash
      ∧ truncatedCopy ((ds.hash.getD default).txsharinghash.getD [])
          (ProtobufToDSBlockHeader c ds).m_hashset.m_txSharingHash
      ∧ truncatedCopy (ds.committeehash.getD []) (ProtobufToDSBlockHeader c ds).m_committeeHash)
    ∧ (truncatedCopy (mb.prevhash.getD []) (ProtobufToMicroBlockHeader c mb).m_prevHash
      ∧ truncatedCopy (mb.txroothash.getD [])
          (ProtobufToMicroBlockHeader c mb).m_hash.m_txRootHash
      ∧ truncatedCopy (mb.statedeltahash.getD [])
          (ProtobufToMicroBlockHeader c mb).m_hash.m_stateDeltaHash
      ∧ truncatedCopy (mb.tranreceipthash.getD [])
          (ProtobufToMicroBlockHeader c mb).m_hash.m_tranReceiptHash
      ∧ truncatedCopy (mb.dsblockheader.getD []) (ProtobufToMicroBlockHeader c mb).m_dsBlockHeader
      ∧ truncatedCopy (mb.committeehash.getD [])
          (ProtobufToMicroBlockHeader c mb).m_committeeHash)
    ∧ (truncatedCopy (tx.prevhash.getD []) (ProtobufToTxBlockHeader c tx).m_prevHash
      ∧ truncatedCopy ((tx.hash.getD default).txroothash.getD [])
          (ProtobufToTxBlockHeader c tx).m_hash.m_txRootHash
      ∧ truncatedCopy ((tx.hash.getD default).stateroothash.getD [])
          (ProtobufToTxBlockHeader c tx).m_hash.m_stateRootHash
      ∧ truncatedCopy ((tx.hash.getD default).deltaroothash.getD [])
          (ProtobufToTxBlockHeader c tx).m_hash.m_deltaRootHash
      ∧ truncatedCopy ((tx.hash.getD default).statedeltahash.getD [])
          (ProtobufToTxBlockHeader c tx).m_hash.m_stateDeltaHash
      ∧ truncatedCopy ((tx.hash.getD default).tranreceiptroothash.getD [])
          (ProtobufToTxBlockHeader c tx).m_hash.m_tranReceiptRootHash
      ∧ truncatedCopy (tx.dsblockheader.getD []) (ProtobufToTxBlockHeader c tx).m_dsBlockHeader
      ∧ truncatedCopy (tx.committeehash.getD []) (ProtobufToTxBlockHeader c tx).m_committeeHash)
    ∧ (pm.IsInitialized (pm.Parse (src.drop offset)) = true →
        ∃ link, GetBlockLink pm src offset = some link
          ∧ truncatedCopy ((pm.Parse (src.drop offset)).blockhash.getD []) link.BLOCKHASH) := by
  refine ⟨⟨?_, ?_, ?_, ?_⟩, ⟨?_, ?_, ?_, ?_, ?_, ?_⟩, ⟨?_, ?_, ?_, ?_, ?_, ?_, ?_, ?_⟩, ?_⟩
  all_goals first
    | exact truncatedCopy_copyToFixed _
    | skip
  intro hinit
  refine ⟨{ INDEX := (pm.Parse (src.drop offset)).index.getD 0
            DSINDEX := (pm.Parse (src.drop offset)).dsindex.getD 0
            BLOCKTYPE := (pm.Parse (src.drop offset)).blocktype.getD 0
            BLOCKHASH := copyToFixed ((pm.Parse (src.drop offset)).blockhash.getD []) HASH_SIZE },
    ?_, truncatedCopy_copyToFixed _⟩
  unfold GetBlockLink
  simp only [hinit, Bool.not_true, Bool.false_eq_true, ↓reduceIte]

/-- Witness of C18: a block link whose wire block hash has 16 bytes is decoded to those
16 bytes followed by 16 zero bytes. -/
theorem truncation_tolerant_decode_witness :
    GetBlockLink Example.pmBlockLink ([3, 1, 0] ++ Example.shortHash) 0
      = some { INDEX := 3, DSINDEX := 1, BLOCKTYPE := 0
               BLOCKHASH := Example.shortHash ++ List.replicate 16 0 }
    ∧ ∃ link, GetBlockLink Example.pmBlockLink ([3, 1, 0] ++ Example.shortHash) 0 = some link
        ∧ truncatedCopy
            ((Example.pmBlockLink.Parse (([3, 1, 0] ++ Example.shortHash).drop 0)).blockhash.getD
              [])
            link.BLOCKHASH :=
  ⟨by decide,
   (truncation_tolerant_decode Example.common default default default Example.pmBlockLink
      ([3, 1, 0] ++ Example.shortHash) 0).2.2.2 (by decide)⟩

/-- C19 fails on these inputs: `GetLookupGetTxBodyFromSeed`, `GetLookupSetTxBodyFromSeed`
and `GetNodeForwardTransaction` fill their hashes with `copy(begin, end, out)` over the
whole wire field. For the 34-byte field `Example.longHash` each of them stores its last
two bytes, `1` and `2`, past the end of the 32-byte destination. -/
theorem hash_copy_writes_past_end :
    Example.longHash.length = 34
    ∧ (GetLookupGetTxBodyFromSeed Example.pmLookupGetTxBodyFromSeed ([80] ++ Example.longHash)
        0 (Example.hashOf 0)).map (fun r => r.pastEnd) = some [1, 2]
    ∧ (GetLookupSetTxBodyFromSeed Example.transaction Example.pmLookupSetTxBodyFromSeed
        ([5] ++ Example.longHash) 0 (Example.hashOf 0) ⟨0⟩).map (fun r => r.pastEnd)
      = some [1, 2]
    ∧ (GetNodeForwardTransaction Example.transaction Example.pmNodeForwardTransaction
        ([900, 0] ++ Example.longHash) 0
        { m_blockNum := 0
          m_hash := { m_txRootHash := Example.hashOf 0, m_stateDeltaHash := Example.hashOf 0
                      m_tranReceiptHash := Example.hashOf 0 }
          m_shardId := 0, m_transactions := [] }).map (fun r => r.pastEnd)
      = some [[1, 2], [1, 2], [1, 2]] := by
  decide

/-! ## 256-bit numbers on the wire (C20) -/

theorem SetNumber_getElem (v S i : Nat) (h : i < S) :
    (SetNumber v S)[i]? = some (v / 256 ^ (S - 1 - i) % 256) := by
  unfold SetNumber
  rw [List.getElem?_map, List.getElem?_range h]
  rfl

/-- C20: for every 256-bit value `v`, `NumberToProtobufByteArray<uint256_t, UINT256_SIZE>`
produces exactly 32 bytes, each below 256, that hold `v` in big-endian order (byte `i` is
`v / 256 ^ (31 - i) % 256`, so the bytes read most significant first give back `v`), and
`ProtobufByteArrayToNumber<uint256_t, UINT256_SIZE>` applied to that array returns `v`;
in particular a micro block header's gasLimit, gasUsed and timestamp of value `v` come
back as `v` from `ProtobufToMicroBlockHeader` after `MicroBlockHeaderToProtobuf`. -/
theorem uint256_wire_roundtrip (v : Nat) (hv : v < 2 ^ 256) :
    (NumberToProtobufByteArray v UINT256_SIZE).getData.length = 32
    ∧ (∀ b ∈ (NumberToProtobufByteArray v UINT256_SIZE).getData, b < 256)
    ∧ (∀ i, i < 32 →
        (NumberToProtobufByteArray v UINT256_SIZE).getData[i]? = some (v / 256 ^ (31 - i) % 256))
    ∧ (NumberToProtobufByteArray v UINT256_SIZE).getData.foldl (fun r b => r * 256 + b) 0 = v
    ∧ ProtobufByteArrayToNumber (NumberToProtobufByteArray v UINT256_SIZE) UINT256_SIZE = v
    ∧ ∀ (c : Common) (h : MicroBlockHeader),
        (h.m_gasLimit = v →
          (ProtobufToMicroBlockHeader c (MicroBlockHeaderToProtobuf c h)).m_gasLimit = v)
        ∧ (h.m_gasUsed = v →
          (ProtobufToMicroBlockHeader c (MicroBlockHeaderToProtobuf c h)).m_gasUsed = v)
        ∧ (h.m_timestamp = v →
          (ProtobufToMicroBlockHeader c (MicroBlockHeaderToProtobuf c h)).m_timestamp = v) := by
  have hv' : v < 256 ^ UINT256_SIZE := by
    have : (256 : Nat) ^ UINT256_SIZE = 2 ^ 256 := by unfold UINT256_SIZE; norm_num
    omega
  have hd : (NumberToProtobufByteArray v UINT256_SIZE).getData = SetNumber v 32 := rfl
  refine ⟨?_, ?_, ?_, ?_, ?_, ?_⟩
  · rw [hd, SetNumber_length]
  · rw [hd]
    intro b hb
    unfold SetNumber at hb
    obtain ⟨i, -, rfl⟩ := List.mem_map.1 hb
    exact Nat.mod_lt _ (by norm_num)
  · intro i hi
    rw [hd, SetNumber_getElem v 32 i hi]
  · rw [hd, foldl_SetNumber]
    exact Nat.mod_eq_of_lt hv'
  · exact GetNumber_SetNumber v UINT256_SIZE hv'
  · intro c h
    refine ⟨?_, ?_, ?_⟩
    all_goals
      intro he
      subst he
      simp only [ProtobufToMicroBlockHeader, MicroBlockHeaderToProtobuf, Option.getD_some]
      exact GetNumber_SetNumber _ UINT256_SIZE hv'

/-- Witness of C20: the timestamp 1541000002 is written as 28 zero bytes followed by
`91, 217, 203, 66` and read back. -/
theorem uint256_wire_roundtrip_witness :
    (NumberToProtobufByteArray 1541000002 UINT256_SIZE).getData
      = List.replicate 28 0 ++ [91, 217, 203, 66]
    ∧ ProtobufByteArrayToNumber (NumberToProtobufByteArray 1541000002 UINT256_SIZE)
        UINT256_SIZE = 1541000002 :=
  ⟨by decide, (uint256_wire_roundtrip 1541000002 (by decide)).2.2.2.2.1⟩

/-! ## Writing at an offset (C21) -/

theorem SerializeToArray_exact_frame {M : Type} (pm : ProtoMessage M) (m : M) (dst : Bytes)
    (offset : Nat) :
    (SerializeToArray pm m dst offset).1 = true
    ∧ (SerializeToArray pm m dst offset).2.length = max dst.length (offset + pm.ByteSize m)
    ∧ (∀ i, i < offset → i < dst.length → (SerializeToArray pm m dst offset).2[i]? = dst[i]?)
    ∧ ((SerializeToArray pm m dst offset).2.drop offset).take (pm.ByteSize m) = pm.Serialize m
    ∧ (∀ i, dst.length ≤ i → i < offset → (SerializeToArray pm m dst offset).2[i]? = some 0)
    ∧ (∀ i, offset + pm.ByteSize m ≤ i → i < dst.length →
        (SerializeToArray pm m dst offset).2[i]? = dst[i]?) := by
  unfold SerializeToArray
  unfold ProtoMessage.ByteSize
  dsimp only
  split
  · next hlt =>
    have hn : ((dst.length : Int) + ((pm.Serialize m).length : Int)
        - ((dst.length : Int) - (offset : Int))).toNat = offset + (pm.Serialize m).length := by
      omega
    rw [hn]
    have hlt' : dst.length < offset + (pm.Serialize m).length := by omega
    have hr : resize dst (offset + (pm.Serialize m).length)
        = dst ++ List.replicate (offset + (pm.Serialize m).length - dst.length) 0 := by
      unfold resize
      rw [List.take_of_length_le (by omega)]
    have hl : (resize dst (offset + (pm.Serialize m).length)).length
        = offset + (pm.Serialize m).length := by
      rw [hr]; simp; omega
    have ht : (List.take offset (resize dst (offset + (pm.Serialize m).length))).length
        = offset := by
      rw [List.length_take, hl]; omega
    have hd : List.drop (offset + (pm.Serialize m).length)
        (resize dst (offset + (pm.Serialize m).length)) = [] :=
      List.drop_of_length_le (by omega)
    rw [hd, List.append_nil]
    refine ⟨rfl, ?_, ?_, ?_, ?_, ?_⟩
    · rw [List.length_append, ht]; omega
    · intro i hi hid
      rw [List.getElem?_append_left (by omega), List.getElem?_take_of_lt hi, hr,
        List.getElem?_append_left hid]
    · rw [List.drop_left' ht, List.take_length]
    · intro i hi hio
      rw [List.getElem?_append_left (by omega), List.getElem?_take_of_lt hio, hr,
        List.getElem?_append_right hi, List.getElem?_replicate]
      rw [if_pos (by omega)]
    · intro i hi hid
      omega
  · next hge =>
    have hge' : offset + (pm.Serialize m).length ≤ dst.length := by omega
    have ht : (List.take offset dst).length = offset := by
      rw [List.length_take]; omega
    refine ⟨rfl, ?_, ?_, ?_, ?_, ?_⟩
    · simp only [List.length_append, List.length_take, List.length_drop]
      omega
    · intro i hi hid
      rw [List.append_assoc, List.getElem?_append_left (by omega), List.getElem?_take_of_lt hi]
    · rw [List.append_assoc, List.drop_left' ht, List.take_left' rfl]
    · intro i hi hio
      omega
    · intro i hi hid
      have hlen : (List.take offset dst ++ pm.Serialize m).length
          = offset + (pm.Serialize m).length := by
        rw [List.length_append, ht]
      rw [List.getElem?_append_right (by omega), hlen, List.getElem?_drop]
      congr 1
      omega

theorem toInt32_of_range (v : Int) (hlo : -(2 ^ 31) ≤ v) (hhi : v < 2 ^ 31) : toInt32 v = v := by
  unfold toInt32
  omega

theorem SerializeToArray_narrowed_eq {M : Type} (pm : ProtoMessage M) (m : M) (dst : Bytes)
    (offset : Nat) (hoff : offset < 2 ^ 32)
    (hlo : -(2 ^ 31) ≤ (dst.length : Int) - (offset : Int))
    (hhi : (dst.length : Int) - (offset : Int) < 2 ^ 31)
    (hlen : pm.ByteSize m < 2 ^ 31) :
    SerializeToArray.narrowed pm m dst offset = SerializeToArray pm m dst offset := by
  have hla : toInt32 ((dst.length : Int) - (offset : Int)) = (dst.length : Int) - (offset : Int) :=
    toInt32_of_range _ hlo hhi
  have hsize : ((dst.length : Int) + (pm.ByteSize m : Int)
      - ((dst.length : Int) - (offset : Int))) % 2 ^ 64
      = (dst.length : Int) + (pm.ByteSize m : Int) - ((dst.length : Int) - (offset : Int)) := by
    omega
  unfold SerializeToArray.narrowed SerializeToArray
  simp only [hla, hsize]
  by_cases hlt : (dst.length : Int) - (offset : Int) < (pm.ByteSize m : Int)
  · simp only [hlt, ↓reduceIte]
    have hn : ((dst.length : Int) + (pm.ByteSize m : Int)
        - ((dst.length : Int) - (offset : Int))).toNat = offset + pm.ByteSize m := by
      omega
    rw [hn]
    have hl : (resize dst (offset + pm.ByteSize m)).length = offset + pm.ByteSize m := by
      unfold resize
      simp only [List.length_append, List.length_take, List.length_replicate]
      omega
    rw [hl, Nat.add_sub_cancel_left]
    have ht : (pm.Serialize m).take (pm.ByteSize m) = pm.Serialize m :=
      List.take_of_length_le (le_refl _)
    rw [ht]
  · simp only [hlt, ↓reduceIte]
    have hge : pm.ByteSize m ≤ dst.length - offset := by omega
    have ht : (pm.Serialize m).take (dst.length - offset) = pm.Serialize m :=
      List.take_of_length_le hge
    rw [ht]

/-- C21 fails above the range of the `int`: on the empty buffer and the offset
`2 ^ 31 + 5`, `length_available` holds `2 ^ 31 - 5`, the buffer is not grown and stays
empty although `SerializeToArray` returns true; its size is not the maximum of the old
size and `offset + L`, and the encoding is not in it. -/
theorem SerializeToArray_narrowed_no_growth :
    Example.env.pmCommittee.Serialize { members := [] } = [0]
    ∧ toInt32 ((([] : Bytes).length : Int) - ((2 ^ 31 + 5 : Nat) : Int)) = 2 ^ 31 - 5
    ∧ (SerializeToArray.narrowed Example.env.pmCommittee { members := [] } []
        (2 ^ 31 + 5)).1 = true
    ∧ (SerializeToArray.narrowed Example.env.pmCommittee { members := [] } []
        (2 ^ 31 + 5)).2 = []
    ∧ (SerializeToArray.narrowed Example.env.pmCommittee { members := [] } []
        (2 ^ 31 + 5)).2.length
      ≠ max ([] : Bytes).length
          (2 ^ 31 + 5 + Example.env.pmCommittee.ByteSize { members := [] }) := by
  decide

/-- C21 amended: encode frame and growth while `length_available` fits its `int`. For
every message of encoded length `L` below `2 ^ 31`, buffer `dst` and `unsigned int`
offset such that the old size minus the offset lies in the range of a 32-bit `int`,
`SerializeToArray(msg, dst, offset)` returns true; afterwards the size of `dst` is
`max (old size) (offset + L)` (also when `offset` exceeds the old size), the bytes below
`offset` that existed before are unchanged, the `L` bytes from `offset` on are the
encoding of the message, the bytes between the old size and `offset` are zero and the
bytes from `offset + L` on that existed before are unchanged. -/
theorem SerializeToArray_frame {M : Type} (pm : ProtoMessage M) (m : M) (dst : Bytes)
    (offset : Nat) (hoff : offset < 2 ^ 32)
    (hlo : -(2 ^ 31) ≤ (dst.length : Int) - (offset : Int))
    (hhi : (dst.length : Int) - (offset : Int) < 2 ^ 31)
    (hlen : pm.ByteSize m < 2 ^ 31) :
    (SerializeToArray.narrowed pm m dst offset).1 = true
    ∧ (SerializeToArray.narrowed pm m dst offset).2.length
        = max dst.length (offset + pm.ByteSize m)
    ∧ (∀ i, i < offset → i < dst.length →
        (SerializeToArray.narrowed pm m dst offset).2[i]? = dst[i]?)
    ∧ ((SerializeToArray.narrowed pm m dst offset).2.drop offset).take (pm.ByteSize m)
        = pm.Serialize m
    ∧ (∀ i, dst.length ≤ i → i < offset →
        (SerializeToArray.narrowed pm m dst offset).2[i]? = some 0)
    ∧ (∀ i, offset + pm.ByteSize m ≤ i → i < dst.length →
        (SerializeToArray.narrowed pm m dst offset).2[i]? = dst[i]?) := by
  rw [SerializeToArray_narrowed_eq pm m dst offset hoff hlo hhi hlen]
  exact SerializeToArray_exact_frame pm m dst offset

/-- Witness of the amended C21: writing the one-byte encoding `[1]` at offset 4 of the
buffer `[7, 8]` gives `[7, 8, 0, 0, 1]`, of size 5. -/
theorem SerializeToArray_frame_witness :
    (SerializeToArray.narrowed Example.env.pmCommittee { members := [default] }
        [7, 8] 4).2 = [7, 8, 0, 0, 1]
    ∧ (SerializeToArray.narrowed Example.env.pmCommittee { members := [default] }
        [7, 8] 4).2.length
      = max ([7, 8] : Bytes).length
          (4 + Example.env.pmCommittee.ByteSize { members := [default] }) :=
  ⟨by decide,
   (SerializeToArray_frame Example.env.pmCommittee { members := [default] } [7, 8] 4
      (by decide) (by decide) (by decide) (by decide)).2.1⟩

/-! ## Ordering of micro block headers (C22, C23) -/

theorem StrictTotal.asymm {α : Type} {lt : α → α → Bool} (h : StrictTotal lt) (a b : α)
    (hab : lt a b = true) : lt b a = false := by
  cases hba : lt b a with
  | false => rfl
  | true =>
    have := h.trans a b a hab hba
    rw [h.irrefl] at this
    cases this

theorem natLess_strictTotal : StrictTotal natLess where
  irrefl := by intro a; simp [natLess]
  trans := by
    intro a b c h1 h2
    simp only [natLess, decide_eq_true_eq] at h1 h2 ⊢
    omega
  total := by
    intro a b
    simp only [natLess, decide_eq_true_eq]
    omega

theorem tupleLess_strictTotal {α β : Type} {ltHead : α → α → Bool} {ltTail : β → β → Bool}
    (hH : StrictTotal ltHead) (hT : StrictTotal ltTail) :
    StrictTotal (tupleLess ltHead ltTail) where
  irrefl := by
    intro a
    simp [tupleLess, hH.irrefl, hT.irrefl]
  trans := by
    intro a b c h1 h2
    simp only [tupleLess, Bool.or_eq_true, Bool.and_eq_true, Bool.not_eq_true'] at h1 h2 ⊢
    rcases h1 with h1 | ⟨h1n, h1t⟩
    · rcases h2 with h2 | ⟨h2n, h2t⟩
      · exact Or.inl (hH.trans _ _ _ h1 h2)
      · rcases hH.total b.1 c.1 with h | h | h
        · exact Or.inl (hH.trans _ _ _ h1 h)
        · rw [← h]; exact Or.inl h1
        · rw [h] at h2n; cases h2n
    · rcases hH.total a.1 b.1 with h | h | h
      · rcases h2 with h2 | ⟨h2n, h2t⟩
        · exact Or.inl (hH.trans _ _ _ h h2)
        · rcases hH.total b.1 c.1 with h' | h' | h'
          · exact Or.inl (hH.trans _ _ _ h h')
          · rw [← h']; exact Or.inl h
          · rw [h'] at h2n; cases h2n
      · rcases h2 with h2 | ⟨h2n, h2t⟩
        · rw [h]; exact Or.inl h2
        · right
          rw [h]
          exact ⟨h2n, hT.trans _ _ _ h1t h2t⟩
      · rw [h] at h1n; cases h1n
  total := by
    intro a b
    simp only [tupleLess, Bool.or_eq_true, Bool.and_eq_true, Bool.not_eq_true']
    rcases hH.total a.1 b.1 with h | h | h
    · exact Or.inl (Or.inl h)
    · rcases hT.total a.2 b.2 with h' | h' | h'
      · refine Or.inl (Or.inr ⟨?_, h'⟩)
        rw [h]; exact hH.irrefl _
      · exact Or.inr (Or.inl (Prod.ext h h'))
      · refine Or.inr (Or.inr (Or.inr ⟨?_, h'⟩))
        rw [h]; exact hH.irrefl _
    · exact Or.inr (Or.inr (Or.inl h))

theorem tupleLess_iff_lexLess {α β : Type} {ltHead : α → α → Bool} {ltTail : β → β → Bool}
    (hH : StrictTotal ltHead) (specTail : β → β → Prop)
    (hT : ∀ x y, ltTail x y = true ↔ specTail x y) (t u : α × β) :
    tupleLess ltHead ltTail t u = true ↔ lexLess ltHead specTail t u := by
  simp only [tupleLess, lexLess, Bool.or_eq_true, Bool.and_eq_true, Bool.not_eq_true']
  constructor
  · rintro (h | ⟨hn, ht⟩)
    · exact Or.inl h
    · rcases hH.total t.1 u.1 with h | h | h
      · exact Or.inl h
      · exact Or.inr ⟨h, (hT _ _).1 ht⟩
      · rw [h] at hn; cases hn
  · rintro (h | ⟨he, ht⟩)
    · exact Or.inl h
    · refine Or.inr ⟨?_, (hT _ _).2 ht⟩
      rw [he]; exact hH.irrefl _

theorem tupleEq_iff {α β : Type} {eqHead : α → α → Bool} {eqTail : β → β → Bool}
    (hH : ∀ x y, eqHead x y = true ↔ x = y) (hT : ∀ x y, eqTail x y = true ↔ x = y)
    (t u : α × β) : tupleEq eqHead eqTail t u = true ↔ t = u := by
  simp only [tupleEq, Bool.and_eq_true, hH, hT]
  exact ⟨fun h => Prod.ext h.1 h.2, fun h => by rw [h]; exact ⟨rfl, rfl⟩⟩

theorem valueEq_iff {α : Type} [DecidableEq α] (x y : α) : valueEq x y = true ↔ x = y := by
  simp [valueEq]

theorem tieEq_iff (t u : MicroBlockHeader.Tie) : MicroBlockHeader.tieEq t u = true ↔ t = u := by
  unfold MicroBlockHeader.tieEq
  exact tupleEq_iff valueEq_iff (tupleEq_iff valueEq_iff (tupleEq_iff valueEq_iff
    (tupleEq_iff valueEq_iff (tupleEq_iff valueEq_iff (tupleEq_iff valueEq_iff
      (tupleEq_iff valueEq_iff (tupleEq_iff valueEq_iff (tupleEq_iff valueEq_iff
        (tupleEq_iff valueEq_iff (tupleEq_iff valueEq_iff
          (tupleEq_iff valueEq_iff valueEq_iff))))))))))) t u

theorem tieLess_strictTotal (o : MemberOrders) (h : o.Lawful) :
    StrictTotal (MicroBlockHeader.tieLess o) := by
  have n := natLess_strictTotal
  unfold MicroBlockHeader.tieLess
  exact tupleLess_strictTotal n (tupleLess_strictTotal n (tupleLess_strictTotal n
    (tupleLess_strictTotal n (tupleLess_strictTotal n (tupleLess_strictTotal h.Hash
      (tupleLess_strictTotal n (tupleLess_strictTotal n
        (tupleLess_strictTotal h.MicroBlockHashSet (tupleLess_strictTotal n
          (tupleLess_strictTotal h.PubKey (tupleLess_strictTotal n h.Hash)))))))))))

theorem tieLess_iff_tieLexGreater (o : MemberOrders) (h : o.Lawful)
    (t u : MicroBlockHeader.Tie) :
    MicroBlockHeader.tieLess o t u = true ↔ MicroBlockHeader.tieLexGreater o u t := by
  have n := natLess_strictTotal
  unfold MicroBlockHeader.tieLess MicroBlockHeader.tieLexGreater
  exact tupleLess_iff_lexLess n _ (tupleLess_iff_lexLess n _ (tupleLess_iff_lexLess n _
    (tupleLess_iff_lexLess n _ (tupleLess_iff_lexLess n _ (tupleLess_iff_lexLess h.Hash _
      (tupleLess_iff_lexLess n _ (tupleLess_iff_lexLess n _
        (tupleLess_iff_lexLess h.MicroBlockHashSet _ (tupleLess_iff_lexLess n _
          (tupleLess_iff_lexLess h.PubKey _ (tupleLess_iff_lexLess n _
            (fun _ _ => Iff.rfl)))))))))))) t u

/-- C22: for all micro block headers `a` and `b`, when the member types order their
values strictly and totally, `a < b` holds if and only if the tuple (type, version,
shardId, gasLimit, gasUsed, prevHash, blockNum, timestamp, hashSet, numTxs, minerPubKey,
dsBlockNum, dsBlockHeader) of `b` is lexicographically greater than the same tuple of
`a`; and `a > b` holds if and only if `b < a`. -/
theorem MicroBlockHeader_lt_iff (o : MemberOrders) (h : o.Lawful) (a b : MicroBlockHeader) :
    (MicroBlockHeader.operatorLt o a b = true ↔ MicroBlockHeader.tieLexGreater o b.tie a.tie)
    ∧ (MicroBlockHeader.operatorGt o a b = true ↔ MicroBlockHeader.operatorLt o b a = true) :=
  ⟨tieLess_iff_tieLexGreater o h a.tie b.tie, Iff.rfl⟩

theorem Example.memberOrders_lawful : Example.memberOrders.Lawful where
  Hash :=
    { irrefl := by intro a; simp [Example.memberOrders]
      trans := by
        intro a b c h1 h2
        simp only [Example.memberOrders, decide_eq_true_eq] at h1 h2 ⊢
        exact lt_trans h1 h2
      total := by
        intro a b
        simp only [Example.memberOrders, decide_eq_true_eq]
        exact lt_trichotomy a b }
  MicroBlockHashSet :=
    { irrefl := by intro a; simp [Example.memberOrders]
      trans := by
        intro a b c h1 h2
        simp only [Example.memberOrders, decide_eq_true_eq] at h1 h2 ⊢
        exact lt_trans h1 h2
      total := by
        intro a b
        simp only [Example.memberOrders, decide_eq_true_eq]
        rcases lt_trichotomy [a.m_txRootHash, a.m_stateDeltaHash, a.m_tranReceiptHash]
          [b.m_txRootHash, b.m_stateDeltaHash, b.m_tranReceiptHash] with h | h | h
        · exact Or.inl h
        · refine Or.inr (Or.inl ?_)
          cases a; cases b
          simp only [List.cons.injEq, and_true] at h
          obtain ⟨h1, h2, h3⟩ := h
          subst h1 h2 h3
          rfl
        · exact Or.inr (Or.inr h) }
  PubKey :=
    { irrefl := by intro a; simp [Example.memberOrders]
      trans := by
        intro a b c h1 h2
        simp only [Example.memberOrders, decide_eq_true_eq] at h1 h2 ⊢
        omega
      total := by
        intro a b
        simp only [Example.memberOrders, decide_eq_true_eq]
        rcases Nat.lt_trichotomy a.key b.key with h | h | h
        · exact Or.inl h
        · refine Or.inr (Or.inl ?_)
          cases a; cases b
          exact congrArg PubKey.mk h
        · exact Or.inr (Or.inr h) }

/-- Witness of C22: the example header is below the header that differs from it by having
three transactions instead of two, and the tuple of the latter is the greater one. -/
theorem MicroBlockHeader_lt_iff_witness :
    MicroBlockHeader.operatorLt Example.memberOrders Example.microHeader Example.microHeader3
      = true
    ∧ MicroBlockHeader.tieLexGreater Example.memberOrders Example.microHeader3.tie
        Example.microHeader.tie :=
  ⟨by decide,
   (MicroBlockHeader_lt_iff Example.memberOrders Example.memberOrders_lawful
      Example.microHeader Example.microHeader3).1.1 (by decide)⟩

/-- C23: when the member types order their values strictly and totally, the comparison
of micro block headers is a strict total order consistent with equality: `operator<` is
irreflexive and transitive, and for all headers `a` and `b` exactly one of `a < b`,
`a == b`, `a > b` holds. -/
theorem MicroBlockHeader_strict_total (o : MemberOrders) (h : o.Lawful) :
    (∀ a, MicroBlockHeader.operatorLt o a a = false)
    ∧ (∀ a b c, MicroBlockHeader.operatorLt o a b = true →
        MicroBlockHeader.operatorLt o b c = true → MicroBlockHeader.operatorLt o a c = true)
    ∧ ∀ a b,
        (MicroBlockHeader.operatorLt o a b = true ∨ MicroBlockHeader.operatorEq a b = true
          ∨ MicroBlockHeader.operatorGt o a b = true)
        ∧ ¬(MicroBlockHeader.operatorLt o a b = true ∧ MicroBlockHeader.operatorEq a b = true)
        ∧ ¬(MicroBlockHeader.operatorLt o a b = true ∧ MicroBlockHeader.operatorGt o a b = true)
        ∧ ¬(MicroBlockHeader.operatorEq a b = true
            ∧ MicroBlockHeader.operatorGt o a b = true) := by
  have st := tieLess_strictTotal o h
  refine ⟨fun a => st.irrefl a.tie, fun a b c => st.trans a.tie b.tie c.tie, ?_⟩
  intro a b
  unfold MicroBlockHeader.operatorGt MicroBlockHeader.operatorLt MicroBlockHeader.tieGreater
    MicroBlockHeader.operatorEq
  simp only [tieEq_iff]
  refine ⟨st.total a.tie b.tie, ?_, ?_, ?_⟩
  · rintro ⟨h1, h2⟩
    rw [h2, st.irrefl] at h1
    cases h1
  · rintro ⟨h1, h2⟩
    rw [st.asymm _ _ h1] at h2
    cases h2
  · rintro ⟨h1, h2⟩
    rw [h1, st.irrefl] at h2
    cases h2

/-- Witness of C23: of the example header and the header with three transactions, the
first is below the second, and they are neither equal nor in the opposite order. -/
theorem MicroBlockHeader_strict_total_witness :
    MicroBlockHeader.operatorLt Example.memberOrders Example.microHeader Example.microHeader3
      = true
    ∧ ¬(MicroBlockHeader.operatorLt Example.memberOrders Example.microHeader
          Example.microHeader3 = true
        ∧ MicroBlockHeader.operatorEq Example.microHeader Example.microHeader3 = true)
    ∧ MicroBlockHeader.operatorLt Example.memberOrders Example.microHeader Example.microHeader
      = false :=
  have h := MicroBlockHeader_strict_total Example.memberOrders Example.memberOrders_lawful
  ⟨by decide, (h.2.2 Example.microHeader Example.microHeader3).2.1, h.1 Example.microHeader⟩

/-! ## Fallback block identity (C24) -/

/-- C24: fallback block identity is the header only. For all fallback blocks `a` and `b`,
`a == b` holds exactly when the headers are equal, so blocks with the same headers
compare alike under `==`, `<` and `>` whatever their co-signatures and block hashes;
`SetBlockHash` makes `GetBlockHash` return its argument and changes neither the result
of `==`, `<` or `>` on either side nor `GetHeader`. -/
theorem FallbackBlock_identity (o : FallbackBlockHeaderOps) (a b : FallbackBlock)
    (blockHash : Bytes) :
    (FallbackBlock.operatorEq o a b = true ↔ o.eq a.GetHeader b.GetHeader = true)
    ∧ (∀ a' b' : FallbackBlock, a'.m_header = a.m_header → b'.m_header = b.m_header →
        FallbackBlock.operatorEq o a' b' = FallbackBlock.operatorEq o a b
        ∧ FallbackBlock.operatorLt o a' b' = FallbackBlock.operatorLt o a b
        ∧ FallbackBlock.operatorGt o a' b' = FallbackBlock.operatorGt o a b)
    ∧ (a.SetBlockHash blockHash).GetBlockHash = blockHash
    ∧ (a.SetBlockHash blockHash).GetHeader = a.GetHeader
    ∧ (a.SetBlockHash blockHash).m_cosigs = a.m_cosigs
    ∧ FallbackBlock.operatorEq o (a.SetBlockHash blockHash) b = FallbackBlock.operatorEq o a b
    ∧ FallbackBlock.operatorEq o b (a.SetBlockHash blockHash) = FallbackBlock.operatorEq o b a
    ∧ FallbackBlock.operatorLt o (a.SetBlockHash blockHash) b = FallbackBlock.operatorLt o a b
    ∧ FallbackBlock.operatorLt o b (a.SetBlockHash blockHash) = FallbackBlock.operatorLt o b a
    ∧ FallbackBlock.operatorGt o (a.SetBlockHash blockHash) b = FallbackBlock.operatorGt o a b
    ∧ FallbackBlock.operatorGt o b (a.SetBlockHash blockHash)
      = FallbackBlock.operatorGt o b a := by
  refine ⟨Iff.rfl, ?_, rfl, rfl, rfl, rfl, rfl, rfl, rfl, rfl, rfl⟩
  intro a' b' ha hb
  unfold FallbackBlock.operatorGt FallbackBlock.operatorEq FallbackBlock.operatorLt
  rw [ha, hb]
  exact ⟨rfl, rfl, rfl⟩

/-- Witness of C24: the example fallback block and a copy with other co-signatures and
another block hash are equal, and neither is below the other. -/
theorem FallbackBlock_identity_witness :
    FallbackBlock.operatorEq Example.fallbackHeaderOps
        { Example.fallbackBlock with
          m_cosigs := { m_CS1 := ⟨1⟩, m_B1 := [true], m_CS2 := ⟨2⟩, m_B2 := [false] }
          m_blockHash := Example.hashOf 0 }
        Example.fallbackBlock = true
    ∧ FallbackBlock.operatorLt Example.fallbackHeaderOps
        { Example.fallbackBlock with
          m_cosigs := { m_CS1 := ⟨1⟩, m_B1 := [true], m_CS2 := ⟨2⟩, m_B2 := [false] }
          m_blockHash := Example.hashOf 0 }
        Example.fallbackBlock = false :=
  have h := (FallbackBlock_identity Example.fallbackHeaderOps Example.fallbackBlock
    Example.fallbackBlock (Example.hashOf 0)).2.1
    { Example.fallbackBlock with
      m_cosigs := { m_CS1 := ⟨1⟩, m_B1 := [true], m_CS2 := ⟨2⟩, m_B2 := [false] }
      m_blockHash := Example.hashOf 0 }
    Example.fallbackBlock rfl rfl
  ⟨h.1.trans (by decide), h.2.1.trans (by decide)⟩

/-! ## Construction from bytes (C25) -/

/-- C25 fails on this input: for the empty buffer `GetMicroBlockHeader` returns false, and
the header constructed from it keeps in `m_blockNum` what the storage held (here `0`),
because the byte-buffer constructor does not assign `m_blockNum`; the default constructor
assigns `2 ^ 64 - 1`. -/
theorem MicroBlockHeader_fromBytes_blockNum :
    GetMicroBlockHeader Example.common Example.pmMicroBlockHeaderStrict [] 0 = none
    ∧ (MicroBlockHeader.fromBytes Example.common Example.pmMicroBlockHeaderStrict
        Example.zeroStorage [] 0).m_blockNum = 0
    ∧ (MicroBlockHeader.new Example.zeroStorage).m_blockNum = 2 ^ 64 - 1
    ∧ MicroBlockHeader.fromBytes Example.common Example.pmMicroBlockHeaderStrict
        Example.zeroStorage [] 0 ≠ MicroBlockHeader.new Example.zeroStorage := by
  decide

/-! ## Co-signature verification (C26, C27) -/

/-- C26 fails on the first-round bitmap: `VerifyDSBlockCoSignature` accepts
`Example.blockShortB1`, whose `B1` has one entry while `B2` and the committee have
four. -/
theorem VerifyDSBlockCoSignature_accepts_short_B1 :
    VerifyDSBlockCoSignature Example.envSigned Example.state Example.blockShortB1 = true
    ∧ Example.blockShortB1.m_cosigs.m_B1.length = 1
    ∧ Example.blockShortB1.m_cosigs.m_B2.length = 4
    ∧ Example.state.m_DSCommittee.length = 4 := by
  decide

/-- C26 amended: every DS block accepted by `VerifyDSBlockCoSignature` has a second-round
bitmap `B2` as long as the current DS committee. -/
theorem VerifyDSBlockCoSignature_B2_length (env : NodeEnv) (s : NodeState) (dsblock : DSBlock)
    (h : VerifyDSBlockCoSignature env s dsblock = true) :
    dsblock.m_cosigs.m_B2.length = s.m_DSCommittee.length := by
  unfold VerifyDSBlockCoSignature at h
  dsimp only at h
  split at h
  · cases h
  · next hne =>
    simp only [bne_iff_ne, ne_eq, Decidable.not_not] at hne
    exact hne.symm

/-- Witness of the amended C26: DS block 10 is accepted and its `B2` has the four entries
of the committee. -/
theorem VerifyDSBlockCoSignature_B2_length_witness :
    VerifyDSBlockCoSignature Example.env Example.state Example.block10 = true
    ∧ Example.block10.m_cosigs.m_B2.length = Example.state.m_DSCommittee.length :=
  ⟨by decide,
   VerifyDSBlockCoSignature_B2_length Example.env Example.state Example.block10 (by decide)⟩

theorem filter_map_range_succ {α : Type} (p : Nat → Bool) (f : Nat → α) (n : Nat) :
    ((List.range (n + 1)).filter p).map f
      = (if p 0 then [f 0] else [])
        ++ ((List.range n).filter (fun i => p (i + 1))).map (fun i => f (i + 1)) := by
  rw [List.range_succ_eq_map, List.filter_cons]
  have hm : ((List.map Nat.succ (List.range n)).filter p).map f
      = ((List.range n).filter (fun i => p (i + 1))).map (fun i => f (i + 1)) := by
    rw [List.filter_map, List.map_map]
    rfl
  by_cases h0 : p 0 = true
  · simp only [h0, ↓reduceIte, List.map_cons, hm, List.singleton_append]
  · simp only [h0, Bool.false_eq_true, ↓reduceIte, hm, List.nil_append]

theorem keys_eq_flaggedKeysSpec (committee : DSCommittee) :
    ∀ B2 : List Bool, VerifyDSBlockCoSignature.keys committee B2 = flaggedKeysSpec committee B2 := by
  induction committee with
  | nil => intro B2; simp [VerifyDSBlockCoSignature.keys, flaggedKeysSpec]
  | cons x xs ih =>
    intro B2
    cases B2 with
    | nil =>
      unfold VerifyDSBlockCoSignature.keys flaggedKeysSpec
      simp
    | cons b bs =>
      have := ih bs
      unfold VerifyDSBlockCoSignature.keys flaggedKeysSpec at this ⊢
      rw [List.length_cons, filter_map_range_succ]
      simp only [List.zip_cons_cons, List.filter_cons, List.getD_cons_zero, List.getD_cons_succ]
      rw [← this]
      cases b <;> simp

/-- C27: when `VerifyDSBlockCoSignature` reaches signature verification, that is, `B2` is
as long as the committee, the number of flagged members equals `NumForConsensus`, key
aggregation yields `aggregatedKey` and the header serializes to `header`, the aggregate
key is built from exactly the public keys of the committee members whose position is set
in `B2`, in committee order, and the function returns the result of verifying `CS2`,
under that key, on the header serialization followed by the serialization of `CS1`
followed by the bit-vector encoding of `B1`. -/
theorem VerifyDSBlockCoSignature_verifies (env : NodeEnv) (s : NodeState) (dsblock : DSBlock)
    (aggregatedKey : PubKey) (header : Bytes)
    (hsize : s.m_DSCommittee.length = dsblock.m_cosigs.m_B2.length)
    (hcount : (flaggedKeysSpec s.m_DSCommittee dsblock.m_cosigs.m_B2).length
      = env.NumForConsensus dsblock.m_cosigs.m_B2.length)
    (hagg : env.AggregatePubKeys (flaggedKeysSpec s.m_DSCommittee dsblock.m_cosigs.m_B2)
      = some aggregatedKey)
    (hhdr : env.SerializeHeader dsblock.m_header = some header) :
    VerifyDSBlockCoSignature env s dsblock
      = env.schnorr.Verify
          (header ++ env.common.Signature.Serialize dsblock.m_cosigs.m_CS1
            ++ env.SetBitVector dsblock.m_cosigs.m_B1)
          dsblock.m_cosigs.m_CS2 aggregatedKey := by
  unfold VerifyDSBlockCoSignature VerifyDSBlockCoSignature.message
  dsimp only
  rw [keys_eq_flaggedKeysSpec]
  simp only [hsize, hcount, hagg, hhdr, bne_self_eq_false, Bool.false_eq_true, ↓reduceIte]
  cases env.schnorr.Verify (header ++ env.common.Signature.Serialize dsblock.m_cosigs.m_CS1
    ++ env.SetBitVector dsblock.m_cosigs.m_B1) dsblock.m_cosigs.m_CS2 aggregatedKey <;> rfl

/-- Witness of C27: for DS block 10 the flagged keys are `A`, `B`, `C`, their aggregate is
the key 6, and the function returns the result of verifying `CS2` on the header byte 10,
the `CS1` byte 11 and the bit vector of `B1`. -/
theorem VerifyDSBlockCoSignature_verifies_witness :
    flaggedKeysSpec Example.state.m_DSCommittee Example.block10.m_cosigs.m_B2
      = [Example.A, Example.B, Example.C]
    ∧ VerifyDSBlockCoSignature Example.env Example.state Example.block10
      = Example.env.schnorr.Verify ([10] ++ [11] ++ [1, 1, 1, 0]) ⟨15⟩ ⟨6⟩ :=
  ⟨by decide,
   VerifyDSBlockCoSignature_verifies Example.env Example.state Example.block10 ⟨6⟩ [10]
    (by decide) (by decide) (by decide) (by decide)⟩

/-! ## The VC stage (C28) -/

theorem Example.env_logBlind : Example.env.logBlind :=
  fun _ _ _ h => ⟨rfl, h⟩

theorem vcLoop_agrees (env : NodeEnv) (hblind : env.logBlind) (vcBlocks : List VCBlock) :
    ∀ (expected : Nat) (s t : NodeState), s.eraseLog = t.eraseLog →
      (ProcessVCDSBlocksMessage.vcLoop env vcBlocks expected s).1
          = (vcStageSpec env vcBlocks t).1
      ∧ (ProcessVCDSBlocksMessage.vcLoop env vcBlocks expected s).2.eraseLog
          = (vcStageSpec env vcBlocks t).2.eraseLog
      ∧ ((ProcessVCDSBlocksMessage.vcLoop env vcBlocks expected s).2.calls.drop
            s.calls.length).filter (fun c => !c.isCounterWarning)
          = vcTraceSpec env vcBlocks t := by
  induction vcBlocks with
  | nil =>
    intro expected s t he
    refine ⟨rfl, he, ?_⟩
    simp [ProcessVCDSBlocksMessage.vcLoop, vcTraceSpec]
  | cons vc rest ih =>
    intro expected s t he
    obtain ⟨s0, hs0, he0, W, hW, hWw⟩ : ∃ s0,
        (if (vc.m_header.m_VCCounter != expected) = true then
          { s with calls := s.calls ++ [Call.WarnUnexpectedVCBlockCounter expected
              vc.m_header.m_VCCounter] }
         else s) = s0
        ∧ s0.eraseLog = t.eraseLog
        ∧ ∃ W, s0.calls = s.calls ++ W
          ∧ W.filter (fun c => !c.isCounterWarning) = [] := by
      by_cases hcnt : (vc.m_header.m_VCCounter != expected) = true
      · refine ⟨_, rfl, ?_, [Call.WarnUnexpectedVCBlockCounter expected
          vc.m_header.m_VCCounter], ?_, ?_⟩
        · rw [if_pos hcnt]; exact he
        · rw [if_pos hcnt]
        · simp [Call.isCounterWarning]
      · refine ⟨_, rfl, ?_, [], ?_, rfl⟩
        · rw [if_neg hcnt]; exact he
        · rw [if_neg hcnt]; simp
    have hunf : ProcessVCDSBlocksMessage.vcLoop env (vc :: rest) expected s
        = if !(callProcessVCBlockCore env s0 vc).1 then (false, (callProcessVCBlockCore env s0 vc).2)
          else ProcessVCDSBlocksMessage.vcLoop env rest ((expected + 1) % 2 ^ 32)
            (callProcessVCBlockCore env s0 vc).2 := by
      rw [ProcessVCDSBlocksMessage.vcLoop, hs0]
    obtain ⟨hb1, hb2⟩ := hblind s0 t vc he0
    have h1 : (callProcessVCBlockCore env s0 vc).1 = (env.ProcessVCBlockCore t vc).1 := hb1
    have h2 : (callProcessVCBlockCore env s0 vc).2.eraseLog
        = (env.ProcessVCBlockCore t vc).2.eraseLog := hb2
    have hcall : (callProcessVCBlockCore env s0 vc).2.calls
        = s.calls ++ (W ++ [Call.ProcessVCBlockCore vc (env.ProcessVCBlockCore t vc).1]) := by
      rw [← hb1]
      simp [callProcessVCBlockCore, hW]
    rw [hunf, h1]
    by_cases hok : (env.ProcessVCBlockCore t vc).1 = true
    · have hspec : vcStageSpec env (vc :: rest) t
          = vcStageSpec env rest (env.ProcessVCBlockCore t vc).2 := by
        rw [vcStageSpec, if_pos hok]
      have htrace : vcTraceSpec env (vc :: rest) t
          = Call.ProcessVCBlockCore vc true
            :: vcTraceSpec env rest (env.ProcessVCBlockCore t vc).2 := by
        rw [vcTraceSpec, if_pos hok, hok]
      simp only [hok, Bool.not_true, Bool.false_eq_true, ↓reduceIte]
      obtain ⟨i1, i2, i3⟩ := ih ((expected + 1) % 2 ^ 32) (callProcessVCBlockCore env s0 vc).2
        (env.ProcessVCBlockCore t vc).2 h2
      obtain ⟨L, hL, -, -⟩ := vcLoop_calls env rest ((expected + 1) % 2 ^ 32)
        (callProcessVCBlockCore env s0 vc).2
      rw [hspec, htrace]
      refine ⟨i1, i2, ?_⟩
      rw [hL, List.drop_left] at i3
      rw [hL, hcall, hok, List.append_assoc, List.drop_left, List.filter_append,
        List.filter_append, hWw, i3]
      simp [Call.isCounterWarning]
    · have hok' : (env.ProcessVCBlockCore t vc).1 = false := Bool.eq_false_iff.mpr hok
      have hspec : vcStageSpec env (vc :: rest) t = (false, (env.ProcessVCBlockCore t vc).2) := by
        rw [vcStageSpec, if_neg hok]
      have htrace : vcTraceSpec env (vc :: rest) t = [Call.ProcessVCBlockCore vc false] := by
        rw [vcTraceSpec, if_neg hok, hok']
      simp only [hok', Bool.not_false, ↓reduceIte]
      rw [hspec, htrace]
      refine ⟨rfl, h2, ?_⟩
      rw [hcall, hok', List.drop_left, List.filter_append, hWw]
      simp [Call.isCounterWarning]

theorem vcStageSpec_false_iff (env : NodeEnv) (vcBlocks : List VCBlock) :
    ∀ s : NodeState,
      (vcStageSpec env vcBlocks s).1 = false ↔
        ∃ pre vc post, vcBlocks = pre ++ vc :: post
          ∧ (vcStageSpec env pre s).1 = true
          ∧ (env.ProcessVCBlockCore (vcStageSpec env pre s).2 vc).1 = false := by
  induction vcBlocks with
  | nil =>
    intro s
    constructor
    · intro h
      simp [vcStageSpec] at h
    · rintro ⟨pre, vc, post, h, -, -⟩
      simp at h
  | cons v rest ih =>
    intro s
    by_cases hok : (env.ProcessVCBlockCore s v).1 = true
    · have hspec : ∀ l, vcStageSpec env (v :: l) s
          = vcStageSpec env l (env.ProcessVCBlockCore s v).2 := by
        intro l
        rw [vcStageSpec, if_pos hok]
      rw [hspec, ih]
      constructor
      · rintro ⟨pre, vc, post, h, h1, h2⟩
        refine ⟨v :: pre, vc, post, by rw [h]; rfl, ?_, ?_⟩
        · rw [hspec]; exact h1
        · rw [hspec]; exact h2
      · rintro ⟨pre, vc, post, h, h1, h2⟩
        cases pre with
        | nil =>
          simp only [List.nil_append, List.cons.injEq] at h
          obtain ⟨rfl, -⟩ := h
          rw [vcStageSpec] at h2
          rw [hok] at h2
          cases h2
        | cons p pre =>
          simp only [List.cons_append, List.cons.injEq] at h
          obtain ⟨rfl, hrest⟩ := h
          rw [hspec] at h1 h2
          exact ⟨pre, vc, post, hrest, h1, h2⟩
    · have hok' : (env.ProcessVCBlockCore s v).1 = false := Bool.eq_false_iff.mpr hok
      have hspec : vcStageSpec env (v :: rest) s = (false, (env.ProcessVCBlockCore s v).2) := by
        rw [vcStageSpec, if_neg hok]
      rw [hspec]
      constructor
      · intro _
        exact ⟨[], v, rest, rfl, rfl, hok'⟩
      · intro _
        rfl

/-- C28: the view-change counter comparison never rejects a message. Provided the
collaborator `ProcessVCBlockCore` does not read the model's call log, the VC loop of
`ProcessVCDSBlocksMessage`, whatever the counters of the VC blocks and the expected
counter it starts from, returns the status and leaves the state (its log apart) of the
stage that hands the state through `ProcessVCBlockCore` block by block in list order and
stops at the first block for which the collaborator returns false; apart from counter
warnings it records exactly these calls with the statuses the collaborator returned;
and it fails if and only if the collaborator returns false for some VC block of the list
after returning true for all blocks before it. -/
theorem vc_counters_never_reject (env : NodeEnv) (vcBlocks : List VCBlock) (expected : Nat)
    (s : NodeState) (hblind : env.logBlind) :
    (ProcessVCDSBlocksMessage.vcLoop env vcBlocks expected s).1 = (vcStageSpec env vcBlocks s).1
    ∧ (ProcessVCDSBlocksMessage.vcLoop env vcBlocks expected s).2.eraseLog
        = (vcStageSpec env vcBlocks s).2.eraseLog
    ∧ ((ProcessVCDSBlocksMessage.vcLoop env vcBlocks expected s).2.calls.drop
          s.calls.length).filter (fun c => !c.isCounterWarning)
        = vcTraceSpec env vcBlocks s
    ∧ ((ProcessVCDSBlocksMessage.vcLoop env vcBlocks expected s).1 = false ↔
        ∃ pre vc post, vcBlocks = pre ++ vc :: post
          ∧ (vcStageSpec env pre s).1 = true
          ∧ (env.ProcessVCBlockCore (vcStageSpec env pre s).2 vc).1 = false) := by
  obtain ⟨h1, h2, h3⟩ := vcLoop_agrees env hblind vcBlocks expected s s rfl
  refine ⟨h1, h2, h3, ?_⟩
  rw [h1]
  exact vcStageSpec_false_iff env vcBlocks s

theorem Example.envVCFail_logBlind : Example.envVCFail.logBlind :=
  fun _ _ _ h => ⟨rfl, h⟩

/-- Witness of C28: with a collaborator that rejects the VC blocks with counter 1, the
list with the counters 5, 1, 3 fails at its second block: the first block is processed
and accepted although its counter is not the expected 1, the second is processed and
rejected, the third is not processed. With the collaborator that accepts every block the
lists with the counters 5, 7 and 1, 2 both pass. -/
theorem vc_counters_never_reject_witness :
    ((ProcessVCDSBlocksMessage.vcLoop Example.envVCFail
        [Example.vcBlock 5, Example.vcBlock 1, Example.vcBlock 3] 1 Example.state).1 = false
      ∧ (ProcessVCDSBlocksMessage.vcLoop Example.envVCFail
        [Example.vcBlock 5, Example.vcBlock 1, Example.vcBlock 3] 1 Example.state).2.calls
        = [Call.WarnUnexpectedVCBlockCounter 1 5,
           Call.ProcessVCBlockCore (Example.vcBlock 5) true,
           Call.WarnUnexpectedVCBlockCounter 2 1,
           Call.ProcessVCBlockCore (Example.vcBlock 1) false])
    ∧ ((ProcessVCDSBlocksMessage.vcLoop Example.env [Example.vcBlock 5, Example.vcBlock 7] 1
        Example.state).1 = true
      ∧ (ProcessVCDSBlocksMessage.vcLoop Example.env [Example.vcBlock 1, Example.vcBlock 2] 1
        Example.state).1 = true) :=
  ⟨⟨((vc_counters_never_reject Example.envVCFail
        [Example.vcBlock 5, Example.vcBlock 1, Example.vcBlock 3] 1 Example.state
        Example.envVCFail_logBlind).2.2.2).2
      ⟨[Example.vcBlock 5], Example.vcBlock 1, [Example.vcBlock 3], rfl, by decide, by decide⟩,
    by decide⟩,
   ((vc_counters_never_reject Example.env [Example.vcBlock 5, Example.vcBlock 7] 1
      Example.state Example.env_logBlind).1).trans (by decide),
   by decide⟩

/-! ## Leader index and role assignment (C29, C30) -/

theorem validate_true (env : NodeEnv) (message : Bytes) (s : NodeState) (shardId : Nat)
    (dsblock : DSBlock) (vcBlocks : List VCBlock) (s' : NodeState)
    (h : ProcessVCDSBlocksMessage.validate env message s shardId dsblock vcBlocks = (true, s')) :
    ∃ s2, ProcessVCDSBlocksMessage.accept env message s2 dsblock = (true, s') := by
  unfold ProcessVCDSBlocksMessage.validate at h
  split at h
  · simp at h
  split at h
  · simp at h
  split at h
  · simp at h
  split at h
  · simp at h
  split at h
  · simp at h
  split at h
  · simp at h
  dsimp only at h
  split at h
  · simp at h
  split at h
  · simp at h
  split at h
  · simp at h
  split at h
  · simp at h
  exact ⟨_, h⟩

theorem ProcessVCDSBlocksMessage_true (env : NodeEnv) (message : Bytes) (cur_offset : Nat)
    (s s' : NodeState) (h : ProcessVCDSBlocksMessage env message cur_offset s = (true, s')) :
    ∃ s2 dsblock, ProcessVCDSBlocksMessage.accept env message s2 dsblock = (true, s') := by
  unfold ProcessVCDSBlocksMessage at h
  split at h
  · simp at h
  dsimp only at h
  split at h
  · simp at h
  obtain ⟨s2, h2⟩ := validate_true env message _ _ _ _ s' h
  exact ⟨s2, _, h2⟩

theorem lastBlockHash_eq_leaderSeedSpec (env : NodeEnv) (s : NodeState) :
    lastBlockHash env s = leaderSeedSpec env s := by
  unfold lastBlockHash leaderSeedSpec UINT16_MOD
  by_cases h : s.m_currentEpochNum > 1
  · rw [if_pos h, if_neg (by omega)]
  · rw [if_neg h, if_pos (by omega)]

theorem LoadShardingStructure_frame (env : NodeEnv) (s : NodeState) :
    (LoadShardingStructure env s).2.ds_m_consensusLeaderID = s.ds_m_consensusLeaderID
    ∧ (LoadShardingStructure env s).2.ds_m_consensusMyID = s.ds_m_consensusMyID
    ∧ (LoadShardingStructure env s).2.ds_m_mode = s.ds_m_mode
    ∧ (LoadShardingStructure env s).2.m_DSCommittee = s.m_DSCommittee
    ∧ (LoadShardingStructure env s).2.m_currentEpochNum = s.m_currentEpochNum
    ∧ (LoadShardingStructure env s).2.m_txBlockChain = s.m_txBlockChain := by
  unfold LoadShardingStructure
  split
  · exact ⟨rfl, rfl, rfl, rfl, rfl, rfl⟩
  dsimp only
  split
  · exact ⟨rfl, rfl, rfl, rfl, rfl, rfl⟩
  split
  · exact ⟨rfl, rfl, rfl, rfl, rfl, rfl⟩
  · exact ⟨rfl, rfl, rfl, rfl, rfl, rfl⟩

theorem LoadTxnSharingInfo_frame (env : NodeEnv) (s : NodeState) :
    (LoadTxnSharingInfo env s).ds_m_consensusLeaderID = s.ds_m_consensusLeaderID
    ∧ (LoadTxnSharingInfo env s).ds_m_consensusMyID = s.ds_m_consensusMyID
    ∧ (LoadTxnSharingInfo env s).ds_m_mode = s.ds_m_mode
    ∧ (LoadTxnSharingInfo env s).m_DSCommittee = s.m_DSCommittee
    ∧ (LoadTxnSharingInfo env s).m_currentEpochNum = s.m_currentEpochNum
    ∧ (LoadTxnSharingInfo env s).m_txBlockChain = s.m_txBlockChain := by
  unfold LoadTxnSharingInfo
  split <;> exact ⟨rfl, rfl, rfl, rfl, rfl, rfl⟩

theorem StartFirstTxEpoch_frame (env : NodeEnv) (s : NodeState) :
    (StartFirstTxEpoch env s).ds_m_consensusLeaderID = s.ds_m_consensusLeaderID
    ∧ (StartFirstTxEpoch env s).ds_m_consensusMyID = s.ds_m_consensusMyID
    ∧ (StartFirstTxEpoch env s).ds_m_mode = s.ds_m_mode
    ∧ (StartFirstTxEpoch env s).m_DSCommittee = s.m_DSCommittee
    ∧ (StartFirstTxEpoch env s).m_currentEpochNum = s.m_currentEpochNum
    ∧ (StartFirstTxEpoch env s).m_txBlockChain = s.m_txBlockChain := by
  unfold StartFirstTxEpoch
  by_cases hl : env.LOOKUP_NODE_MODE = true
  · rw [if_pos hl]
    exact ⟨rfl, rfl, rfl, rfl, rfl, rfl⟩
  · rw [if_neg hl]
    by_cases hg : env.BROADCAST_GOSSIP_MODE = true
    · simp only [hg, ↓reduceIte]
      exact ⟨rfl, rfl, rfl, rfl, rfl, rfl⟩
    · simp only [hg, Bool.false_eq_true, ↓reduceIte]
      exact ⟨rfl, rfl, rfl, rfl, rfl, rfl⟩

theorem asShardMember_frame (env : NodeEnv) (message : Bytes) (s : NodeState) :
    (ProcessVCDSBlocksMessage.asShardMember env message s).1 = (LoadShardingStructure env s).1
    ∧ (ProcessVCDSBlocksMessage.asShardMember env message s).2.ds_m_consensusLeaderID
        = s.ds_m_consensusLeaderID
    ∧ (ProcessVCDSBlocksMessage.asShardMember env message s).2.ds_m_consensusMyID
        = s.ds_m_consensusMyID
    ∧ (ProcessVCDSBlocksMessage.asShardMember env message s).2.ds_m_mode = s.ds_m_mode
    ∧ (ProcessVCDSBlocksMessage.asShardMember env message s).2.m_DSCommittee = s.m_DSCommittee
    ∧ (ProcessVCDSBlocksMessage.asShardMember env message s).2.m_currentEpochNum
        = s.m_currentEpochNum
    ∧ (ProcessVCDSBlocksMessage.asShardMember env message s).2.m_txBlockChain
        = s.m_txBlockChain := by
  obtain ⟨l1, l2, l3, l4, l5, l6⟩ := LoadShardingStructure_frame env s
  unfold ProcessVCDSBlocksMessage.asShardMember
  dsimp only
  by_cases hload : (LoadShardingStructure env s).1 = true
  · simp only [hload, Bool.not_true, Bool.false_eq_true, ↓reduceIte]
    obtain ⟨t, ht, t1, t2, t3, t4, t5, t6⟩ : ∃ t,
        (if env.BROADCAST_TREEBASED_CLUSTER_MODE = true then
          { (LoadShardingStructure env s).2 with
            calls := (LoadShardingStructure env s).2.calls
              ++ [Call.SendBlockToOtherShardNodes message] }
         else (LoadShardingStructure env s).2) = t
        ∧ t.ds_m_consensusLeaderID = s.ds_m_consensusLeaderID
        ∧ t.ds_m_consensusMyID = s.ds_m_consensusMyID
        ∧ t.ds_m_mode = s.ds_m_mode
        ∧ t.m_DSCommittee = s.m_DSCommittee
        ∧ t.m_currentEpochNum = s.m_currentEpochNum
        ∧ t.m_txBlockChain = s.m_txBlockChain := by
      by_cases htree : env.BROADCAST_TREEBASED_CLUSTER_MODE = true
      · exact ⟨_, rfl, by rw [if_pos htree]; exact l1, by rw [if_pos htree]; exact l2,
          by rw [if_pos htree]; exact l3, by rw [if_pos htree]; exact l4,
          by rw [if_pos htree]; exact l5, by rw [if_pos htree]; exact l6⟩
      · exact ⟨_, rfl, by rw [if_neg htree]; exact l1, by rw [if_neg htree]; exact l2,
          by rw [if_neg htree]; exact l3, by rw [if_neg htree]; exact l4,
          by rw [if_neg htree]; exact l5, by rw [if_neg htree]; exact l6⟩
    rw [ht]
    obtain ⟨a1, a2, a3, a4, a5, a6⟩ := LoadTxnSharingInfo_frame env t
    obtain ⟨b1, b2, b3, b4, b5, b6⟩ := StartFirstTxEpoch_frame env (LoadTxnSharingInfo env t)
    exact ⟨trivial, by rw [b1, a1, t1], by rw [b2, a2, t2], by rw [b3, a3, t3],
      by rw [b4, a4, t4], by rw [b5, a5, t5], by rw [b6, a6, t6]⟩
  · have hload' : (LoadShardingStructure env s).1 = false := by simpa using hload
    simp only [hload', Bool.not_false, ↓reduceIte]
    exact ⟨trivial, l1, l2, l3, l4, l5, l6⟩

theorem asDSMember_frame (env : NodeEnv) (s : NodeState) :
    (ProcessVCDSBlocksMessage.asDSMember env s).1 = env.ProcessShardingStructure s
    ∧ (ProcessVCDSBlocksMessage.asDSMember env s).2.ds_m_consensusLeaderID
        = s.ds_m_consensusLeaderID
    ∧ (ProcessVCDSBlocksMessage.asDSMember env s).2.ds_m_consensusMyID = s.ds_m_consensusMyID
    ∧ (ProcessVCDSBlocksMessage.asDSMember env s).2.m_DSCommittee = s.m_DSCommittee
    ∧ (ProcessVCDSBlocksMessage.asDSMember env s).2.m_currentEpochNum = s.m_currentEpochNum
    ∧ (ProcessVCDSBlocksMessage.asDSMember env s).2.m_txBlockChain = s.m_txBlockChain
    ∧ (env.ProcessShardingStructure s = true →
        (ProcessVCDSBlocksMessage.asDSMember env s).2.ds_m_mode
          = if s.ds_m_consensusLeaderID = s.ds_m_consensusMyID then Mode.PRIMARY_DS
            else Mode.BACKUP_DS) := by
  unfold ProcessVCDSBlocksMessage.asDSMember
  by_cases hproc : env.ProcessShardingStructure s = true
  · simp only [hproc, Bool.not_true, Bool.false_eq_true, ↓reduceIte]
    by_cases hlead : s.ds_m_consensusLeaderID = s.ds_m_consensusMyID
    · simp only [hlead, ↓reduceIte]
      simp
    · simp only [hlead, ↓reduceIte]
      simp
  · have hproc' : env.ProcessShardingStructure s = false := by simpa using hproc
    simp only [hproc', Bool.not_false, ↓reduceIte]
    simp

theorem roleTransition_node (env : NodeEnv) (message : Bytes) (s : NodeState)
    (hnode : env.LOOKUP_NODE_MODE = false) :
    ProcessVCDSBlocksMessage.roleTransition env message s
      = if (ProcessVCDSBlocksMessage.assignDSRole env s).1 = true then
          ProcessVCDSBlocksMessage.asDSMember env (ProcessVCDSBlocksMessage.assignDSRole env s).2
        else
          ProcessVCDSBlocksMessage.asShardMember env message
            (ProcessVCDSBlocksMessage.assignDSRole env s).2 := by
  unfold ProcessVCDSBlocksMessage.roleTransition
  simp only [hnode, Bool.not_false, ↓reduceIte]

theorem findMe_fold_fst (selfPubKey : PubKey) (ws : List (PubKey × Peer)) :
    ∀ (acc : (Bool × Nat) × Nat),
      (ws.foldl (fun (acc : (Bool × Nat) × Nat) newDSMember =>
          (if selfPubKey = newDSMember.1 then (true, acc.2) else acc.1,
           (acc.2 + 2 ^ 32 - 1) % 2 ^ 32)) acc).1.1
        = (acc.1.1 || ws.any (fun w => decide (selfPubKey = w.1))) := by
  induction ws with
  | nil => intro acc; simp
  | cons w rest ih =>
    intro acc
    rw [List.foldl_cons, ih]
    by_cases h : selfPubKey = w.1
    · simp [h]
    · simp [h]

theorem findMe_fst (selfPubKey : PubKey) (ws : List (PubKey × Peer)) (consensusMyID : Nat) :
    (ProcessVCDSBlocksMessage.findMe selfPubKey ws consensusMyID).1
      = ws.any (fun w => decide (selfPubKey = w.1)) := by
  unfold ProcessVCDSBlocksMessage.findMe
  rw [findMe_fold_fst]
  simp

theorem stored_lastBlock (env : NodeEnv) (s : NodeState) (dsblock : DSBlock) :
    GetLastBlock (ProcessVCDSBlocksMessage.stored env s dsblock).m_dsBlockChain = dsblock := by
  show GetLastBlock (AddBlock s.m_dsBlockChain dsblock) = dsblock
  simp [GetLastBlock, AddBlock]

theorem assignDSRole_fst (env : NodeEnv) (s : NodeState) (dsblock : DSBlock) :
    (ProcessVCDSBlocksMessage.assignDSRole env
        (ProcessVCDSBlocksMessage.stored env s dsblock)).1
      = dsblock.m_header.m_PoWDSWinners.any (fun w => decide (s.m_selfKey.2 = w.1)) := by
  show (ProcessVCDSBlocksMessage.findMe s.m_selfKey.2
      (GetLastBlock (ProcessVCDSBlocksMessage.stored env s dsblock).m_dsBlockChain).m_header.m_PoWDSWinners
      _).1 = _
  rw [findMe_fst, stored_lastBlock]

theorem rotation_length (selfPubKey : PubKey) (ws : List (PubKey × Peer)) :
    ∀ c : DSCommittee, (UpdateDSCommiteeComposition.loop selfPubKey ws c).length = c.length := by
  induction ws with
  | nil => intro c; rfl
  | cons w rest ih =>
    intro c
    unfold UpdateDSCommiteeComposition.loop at ih ⊢
    rw [List.foldl_cons, ih]
    by_cases h : selfPubKey = w.1
    · simp [h]
    · simp [h]

/-- C29: whenever `ProcessVCDSBlocksMessage` accepts a DS block on a non-lookup node and
the DS committee it leaves is non-empty (and its size fits the `uint32_t` the code keeps
it in), the DS consensus leader index it leaves is `v` modulo the committee size, where
`v` is 0 when the current epoch number is at most 1 and otherwise the 16-bit value
derived from the hash of the last Tx block; the index is below the committee size. -/
theorem leader_index_mod_committee (env : NodeEnv) (message : Bytes) (cur_offset : Nat)
    (s s' : NodeState) (hnode : env.LOOKUP_NODE_MODE = false)
    (hacc : ProcessVCDSBlocksMessage env message cur_offset s = (true, s'))
    (hne : s'.m_DSCommittee ≠ []) (hsize : s'.m_DSCommittee.length < 2 ^ 32) :
    s'.ds_m_consensusLeaderID = leaderSeedSpec env s' % s'.m_DSCommittee.length
    ∧ s'.ds_m_consensusLeaderID < s'.m_DSCommittee.length := by
  obtain ⟨s2, dsblock, hacc2⟩ := ProcessVCDSBlocksMessage_true env message cur_offset s s' hacc
  have hrole : ProcessVCDSBlocksMessage.roleTransition env message
      (ProcessVCDSBlocksMessage.stored env s2 dsblock) = (true, s') := hacc2
  rw [roleTransition_node env message _ hnode] at hrole
  have hassign : ∀ st : NodeState,
      (ProcessVCDSBlocksMessage.assignDSRole env st).2.ds_m_consensusLeaderID
        = lastBlockHash env (ProcessVCDSBlocksMessage.assignDSRole env st).2
          % ((ProcessVCDSBlocksMessage.assignDSRole env st).2.m_DSCommittee.length % 2 ^ 32) :=
    fun _ => rfl
  have hkey : s'.ds_m_consensusLeaderID
      = lastBlockHash env s' % (s'.m_DSCommittee.length % 2 ^ 32) := by
    by_cases hme : (ProcessVCDSBlocksMessage.assignDSRole env
        (ProcessVCDSBlocksMessage.stored env s2 dsblock)).1 = true
    · rw [if_pos hme] at hrole
      obtain ⟨-, f1, -, f3, f4, f5, -⟩ := asDSMember_frame env
        (ProcessVCDSBlocksMessage.assignDSRole env
          (ProcessVCDSBlocksMessage.stored env s2 dsblock)).2
      rw [hrole] at f1 f3 f4 f5
      have := hassign (ProcessVCDSBlocksMessage.stored env s2 dsblock)
      rw [← f1, ← f3] at this
      rw [this]
      unfold lastBlockHash
      rw [f4, f5]
    · rw [if_neg hme] at hrole
      obtain ⟨-, f1, -, -, f3, f4, f5⟩ := asShardMember_frame env message
        (ProcessVCDSBlocksMessage.assignDSRole env
          (ProcessVCDSBlocksMessage.stored env s2 dsblock)).2
      rw [hrole] at f1 f3 f4 f5
      have := hassign (ProcessVCDSBlocksMessage.stored env s2 dsblock)
      rw [← f1, ← f3] at this
      rw [this]
      unfold lastBlockHash
      rw [f4, f5]
  have hpos : 0 < s'.m_DSCommittee.length := List.length_pos.mpr hne
  rw [Nat.mod_eq_of_lt hsize, lastBlockHash_eq_leaderSeedSpec] at hkey
  exact ⟨hkey, hkey ▸ Nat.mod_lt _ hpos⟩

/-- Witness of C29: the example node accepts DS block 10 at epoch 901; the last Tx block
hash gives the value 514 and the committee has four members, so the leader index is 2. -/
theorem leader_index_mod_committee_witness :
    (ProcessVCDSBlocksMessage Example.env [1] 0 Example.state).1 = true
    ∧ (ProcessVCDSBlocksMessage Example.env [1] 0 Example.state).2.ds_m_consensusLeaderID = 2
    ∧ (ProcessVCDSBlocksMessage Example.env [1] 0 Example.state).2.ds_m_consensusLeaderID
        = leaderSeedSpec Example.env (ProcessVCDSBlocksMessage Example.env [1] 0 Example.state).2
          % (ProcessVCDSBlocksMessage Example.env [1] 0 Example.state).2.m_DSCommittee.length :=
  ⟨by decide, by decide,
   (leader_index_mod_committee Example.env [1] 0 Example.state
      (ProcessVCDSBlocksMessage Example.env [1] 0 Example.state).2 rfl (by decide) (by decide)
      (by decide)).1⟩

theorem LoadShardingStructure_loop_fold (selfPeer : Peer) (shard : Shard) :
    ∀ (ms : List (PubKey × Peer)) (id : Nat) (b : Bool) (i : Nat),
      ∃ id',
        shard.foldl (fun (acc : (List (PubKey × Peer) × Nat × Bool) × Nat) shardNode =>
            if selfPeer = shardNode.2.1 then
              ((acc.1.1 ++ [(shardNode.1, Peer.default)], acc.2, true), acc.2 + 1)
            else
              ((acc.1.1 ++ [(shardNode.1, shardNode.2.1)], acc.1.2.1, acc.1.2.2), acc.2 + 1))
          ((ms, id, b), i)
          = ((ms ++ shard.map (memberEntry selfPeer), id',
              b || shard.any (fun n => decide (selfPeer = n.2.1))), i + shard.length)
        ∧ (shard.any (fun n => decide (selfPeer = n.2.1)) = true →
            i ≤ id' ∧ id' < i + shard.length
            ∧ ∃ n, shard[id' - i]? = some n ∧ selfPeer = n.2.1)
        ∧ (shard.any (fun n => decide (selfPeer = n.2.1)) = false → id' = id) := by
  induction shard with
  | nil =>
    intro ms id b i
    exact ⟨id, by simp, by simp, fun _ => rfl⟩
  | cons n rest ih =>
    intro ms id b i
    rw [List.foldl_cons]
    by_cases h : selfPeer = n.2.1
    · rw [if_pos h]
      obtain ⟨id', hfold, hany, hnone⟩ := ih (ms ++ [(n.1, Peer.default)]) i true (i + 1)
      refine ⟨id', ?_, ?_, ?_⟩
      · rw [hfold]
        simp only [List.map_cons, List.any_cons, memberEntry, if_pos h, List.append_assoc,
          List.singleton_append, List.length_cons, decide_eq_true h, Bool.true_or,
          Bool.or_true]
        congr 1
        omega
      · intro _
        by_cases hr : rest.any (fun n => decide (selfPeer = n.2.1)) = true
        · obtain ⟨h1, h2, n', hn', hp⟩ := hany hr
          refine ⟨by omega, by simp only [List.length_cons]; omega, n', ?_, hp⟩
          have : id' - i = (id' - (i + 1)) + 1 := by omega
          rw [this, List.getElem?_cons_succ]
          exact hn'
        · have hr' : rest.any (fun n => decide (selfPeer = n.2.1)) = false :=
            Bool.eq_false_iff.mpr hr
          have hid := hnone hr'
          subst hid
          refine ⟨le_refl _, by simp only [List.length_cons]; omega, n, ?_, h⟩
          simp
      · intro hno
        simp [h] at hno
    · rw [if_neg h]
      obtain ⟨id', hfold, hany, hnone⟩ := ih (ms ++ [(n.1, n.2.1)]) id b (i + 1)
      refine ⟨id', ?_, ?_, ?_⟩
      · rw [hfold]
        simp only [List.map_cons, List.any_cons, memberEntry, if_neg h, List.append_assoc,
          List.singleton_append, List.length_cons, decide_eq_false h, Bool.false_or]
        congr 1
        omega
      · intro hyes
        have hr : rest.any (fun n => decide (selfPeer = n.2.1)) = true := by
          simpa [h] using hyes
        obtain ⟨h1, h2, n', hn', hp⟩ := hany hr
        refine ⟨by omega, by simp only [List.length_cons]; omega, n', ?_, hp⟩
        have : id' - i = (id' - (i + 1)) + 1 := by omega
        rw [this, List.getElem?_cons_succ]
        exact hn'
      · intro hno
        have hr : rest.any (fun n => decide (selfPeer = n.2.1)) = false := by
          simpa [h] using hno
        exact hnone hr

theorem LoadShardingStructure_loop_eq (selfPeer : Peer) (shard : Shard) (consensusMyID : Nat) :
    (LoadShardingStructure.loop selfPeer shard consensusMyID).1
        = shard.map (memberEntry selfPeer)
    ∧ (LoadShardingStructure.loop selfPeer shard consensusMyID).2.2
        = shard.any (fun n => decide (selfPeer = n.2.1))
    ∧ (shard.any (fun n => decide (selfPeer = n.2.1)) = true →
        (LoadShardingStructure.loop selfPeer shard consensusMyID).2.1 < shard.length
        ∧ ∃ n, shard[(LoadShardingStructure.loop selfPeer shard consensusMyID).2.1]? = some n
            ∧ selfPeer = n.2.1) := by
  obtain ⟨id', hfold, hany, -⟩ :=
    LoadShardingStructure_loop_fold selfPeer shard [] consensusMyID false 0
  have hloop : LoadShardingStructure.loop selfPeer shard consensusMyID
      = (shard.map (memberEntry selfPeer), id',
          shard.any (fun n => decide (selfPeer = n.2.1))) := by
    unfold LoadShardingStructure.loop
    dsimp only
    rw [hfold]
    simp
  rw [hloop]
  refine ⟨rfl, rfl, ?_⟩
  intro h
  obtain ⟨-, h2, n, hn, hp⟩ := hany h
  exact ⟨by simpa using h2, n, by simpa using hn, hp⟩

theorem LoadShardingStructure_node (env : NodeEnv) (s : NodeState)
    (hnode : env.LOOKUP_NODE_MODE = false) :
    LoadShardingStructure env s
      = if s.m_myshardId ≥ s.ds_m_shards.length then
          (false, { s with m_numShards := s.ds_m_shards.length })
        else if (LoadShardingStructure.loop s.m_selfPeer
            (s.ds_m_shards.getD s.m_myshardId []) s.m_consensusMyID).2.2 = true then
          (true, { s with
            m_numShards := s.ds_m_shards.length
            m_myShardMembers := (LoadShardingStructure.loop s.m_selfPeer
              (s.ds_m_shards.getD s.m_myshardId []) s.m_consensusMyID).1
            m_consensusMyID := (LoadShardingStructure.loop s.m_selfPeer
              (s.ds_m_shards.getD s.m_myshardId []) s.m_consensusMyID).2.1 })
        else
          (false, { s with
            m_numShards := s.ds_m_shards.length
            m_myShardMembers := (LoadShardingStructure.loop s.m_selfPeer
              (s.ds_m_shards.getD s.m_myshardId []) s.m_consensusMyID).1
            m_consensusMyID := (LoadShardingStructure.loop s.m_selfPeer
              (s.ds_m_shards.getD s.m_myshardId []) s.m_consensusMyID).2.1
            calls := s.calls ++ [Call.RejoinAsNormal] }) := by
  unfold LoadShardingStructure
  simp only [hnode, Bool.false_eq_true, ↓reduceIte]
  by_cases hid : s.m_myshardId ≥ s.ds_m_shards.length
  · simp only [hid, ↓reduceIte]
  · simp only [hid, ↓reduceIte]
    by_cases hf : (LoadShardingStructure.loop s.m_selfPeer
        (s.ds_m_shards.getD s.m_myshardId []) s.m_consensusMyID).2.2 = true
    · simp only [hf, Bool.not_true, Bool.false_eq_true, ↓reduceIte]
    · have hf' : (LoadShardingStructure.loop s.m_selfPeer
          (s.ds_m_shards.getD s.m_myshardId []) s.m_consensusMyID).2.2 = false :=
        Bool.eq_false_iff.mpr hf
      simp only [hf', Bool.not_false, Bool.false_eq_true, ↓reduceIte]

theorem any_peer_iff (selfPeer : Peer) (shard : Shard) :
    shard.any (fun n => decide (selfPeer = n.2.1)) = true ↔ ∃ n ∈ shard, n.2.1 = selfPeer := by
  rw [List.any_eq_true]
  constructor
  · rintro ⟨n, hn, h⟩
    exact ⟨n, hn, (of_decide_eq_true h).symm⟩
  · rintro ⟨n, hn, h⟩
    exact ⟨n, hn, decide_eq_true h.symm⟩

/-- C31 fails when the received shard id is out of range: the node's peer is in no shard
of the received structure, `LoadShardingStructure` returns false, and `RejoinAsNormal`
is not called. -/
theorem LoadShardingStructure_out_of_range_no_rejoin :
    Example.env.LOOKUP_NODE_MODE = false
    ∧ (∀ shard ∈ Example.stateOutOfRange.ds_m_shards, ∀ n ∈ shard,
        n.2.1 ≠ Example.stateOutOfRange.m_selfPeer)
    ∧ (LoadShardingStructure Example.env Example.stateOutOfRange).1 = false
    ∧ Call.RejoinAsNormal ∉ (LoadShardingStructure Example.env Example.stateOutOfRange).2.calls := by
  decide

/-- C31 amended: on a non-lookup node `LoadShardingStructure` returns true if and only if
the received shard id is less than the number of shards and some member of that shard
has the node's own `Peer`. When the shard id is in range and no member of that shard has
the node's `Peer`, it returns false and `RejoinAsNormal` is called; when the shard id is
not less than the number of shards, it returns false and `RejoinAsNormal` is not
called. -/
theorem LoadShardingStructure_result (env : NodeEnv) (s : NodeState)
    (hnode : env.LOOKUP_NODE_MODE = false) :
    ((LoadShardingStructure env s).1 = true ↔
      s.m_myshardId < s.ds_m_shards.length
      ∧ ∃ n ∈ s.ds_m_shards.getD s.m_myshardId [], n.2.1 = s.m_selfPeer)
    ∧ (s.m_myshardId < s.ds_m_shards.length →
        (∀ n ∈ s.ds_m_shards.getD s.m_myshardId [], n.2.1 ≠ s.m_selfPeer) →
        (LoadShardingStructure env s).1 = false
        ∧ (LoadShardingStructure env s).2.calls = s.calls ++ [Call.RejoinAsNormal])
    ∧ (s.ds_m_shards.length ≤ s.m_myshardId →
        (LoadShardingStructure env s).1 = false
        ∧ (LoadShardingStructure env s).2.calls = s.calls) := by
  rw [LoadShardingStructure_node env s hnode]
  obtain ⟨-, hfound, -⟩ := LoadShardingStructure_loop_eq s.m_selfPeer
    (s.ds_m_shards.getD s.m_myshardId []) s.m_consensusMyID
  rw [hfound]
  refine ⟨?_, ?_, ?_⟩
  · by_cases hid : s.m_myshardId ≥ s.ds_m_shards.length
    · rw [if_pos hid]
      constructor
      · intro h; cases h
      · rintro ⟨h, -⟩; omega
    · rw [if_neg hid]
      by_cases hany : (s.ds_m_shards.getD s.m_myshardId []).any
          (fun n => decide (s.m_selfPeer = n.2.1)) = true
      · rw [if_pos hany]
        exact ⟨fun _ => ⟨by omega, (any_peer_iff _ _).1 hany⟩, fun _ => rfl⟩
      · rw [if_neg hany]
        constructor
        · intro h; cases h
        · rintro ⟨-, h⟩
          exact absurd ((any_peer_iff _ _).2 h) hany
  · intro hid hnone
    rw [if_neg (by omega)]
    have hany : ¬ (s.ds_m_shards.getD s.m_myshardId []).any
        (fun n => decide (s.m_selfPeer = n.2.1)) = true := by
      intro h
      obtain ⟨n, hn, hp⟩ := (any_peer_iff _ _).1 h
      exact hnone n hn hp
    rw [if_neg hany]
    exact ⟨rfl, rfl⟩
  · intro hid
    rw [if_pos hid]
    exact ⟨rfl, rfl⟩

/-- Witness of the amended C31: the example node is found in shard 0; a node whose peer
is not in shard 0 gets false and the rejoin call. -/
theorem LoadShardingStructure_result_witness :
    (LoadShardingStructure Example.env Example.stateReceived).1 = true
    ∧ (LoadShardingStructure Example.env Example.stateAbsent).1 = false
    ∧ (LoadShardingStructure Example.env Example.stateAbsent).2.calls = [Call.RejoinAsNormal] :=
  ⟨(LoadShardingStructure_result Example.env Example.stateReceived rfl).1.2
     ⟨by decide, (⟨6⟩, Example.peerOf 6, 10), by decide, rfl⟩,
   ((LoadShardingStructure_result Example.env Example.stateAbsent rfl).2.1
     (by decide) (by decide)).1,
   by decide⟩

/-! ## `StoreDSBlockToDisk` (C32) -/

/-- C32: `StoreDSBlockToDisk` appends the block to the DS chain, sets the latest-active DS
block number to the block number of the block, and appends exactly one block link, whose
sequence index is the latest index before the call plus one (the sum fitting the
`uint64_t` it is kept in), whose DS index is the block number, whose type is `DS` and
whose hash is the stored hash of the block. -/
theorem StoreDSBlockToDisk_effects (env : NodeEnv) (s : NodeState) (dsblock : DSBlock)
    (hidx : env.GetLatestIndex s.m_blocklinkchain + 1 < 2 ^ 64) :
    (StoreDSBlockToDisk env s dsblock).m_dsBlockChain = s.m_dsBlockChain ++ [dsblock]
    ∧ GetLastBlock (StoreDSBlockToDisk env s dsblock).m_dsBlockChain = dsblock
    ∧ (StoreDSBlockToDisk env s dsblock).ds_m_latestActiveDSBlockNum
        = dsblock.m_header.m_blockNum
    ∧ (StoreDSBlockToDisk env s dsblock).m_blocklinkchain
        = s.m_blocklinkchain ++
          [{ index := env.GetLatestIndex s.m_blocklinkchain + 1
             dsindex := dsblock.m_header.m_blockNum
             blocktype := BlockType.DS
             blockhash := dsblock.m_blockHash }] := by
  have hmod : (env.GetLatestIndex s.m_blocklinkchain + 1) % UINT64_MOD
      = env.GetLatestIndex s.m_blocklinkchain + 1 := Nat.mod_eq_of_lt hidx
  refine ⟨rfl, ?_, rfl, ?_⟩
  · show GetLastBlock (AddBlock s.m_dsBlockChain dsblock) = dsblock
    simp [GetLastBlock, AddBlock]
  · show s.m_blocklinkchain ++
        [{ index := (env.GetLatestIndex s.m_blocklinkchain + 1) % UINT64_MOD
           dsindex := dsblock.m_header.m_blockNum
           blocktype := BlockType.DS
           blockhash := dsblock.m_blockHash }] = _
    rw [hmod]

/-- Witness of C32: storing DS block 10 after block 9 adds the link
`(10, 10, DS, hash of block 10)` after the link with index 9. -/
theorem StoreDSBlockToDisk_effects_witness :
    (StoreDSBlockToDisk Example.env Example.state Example.block10).m_blocklinkchain
      = [{ index := 9, dsindex := 9, blocktype := BlockType.DS,
           blockhash := Example.hashOf 6 },
         { index := 10, dsindex := 10, blocktype := BlockType.DS,
           blockhash := Example.hashOf 7 }]
    ∧ (StoreDSBlockToDisk Example.env Example.state Example.block10).ds_m_latestActiveDSBlockNum
        = 10 :=
  ⟨(StoreDSBlockToDisk_effects Example.env Example.state Example.block10
      (by decide)).2.2.2.trans (by decide),
   (StoreDSBlockToDisk_effects Example.env Example.state Example.block10
      (by decide)).2.2.1.trans (by decide)⟩

/-! ## Committee hashes (C33) -/

theorem DSCommitteeToProtoCommittee_keys (c : Common) (committee : DSCommittee) :
    DSCommitteeToProtoCommittee c committee
      = { members := (committee.map (fun m => m.1)).map
            (fun k => SerializableToProtobufByteArray c.PubKey k) } := by
  unfold DSCommitteeToProtoCommittee
  rw [List.map_map]
  rfl

theorem ShardToProtoCommittee_keys (c : Common) (shard : Shard) :
    ShardToProtoCommittee c shard
      = { members := (shard.map (fun n => n.1)).map
            (fun k => SerializableToProtobufByteArray c.PubKey k) } := by
  unfold ShardToProtoCommittee
  rw [List.map_map]
  rfl

/-- C33: the committee hash is a function of the ordered list of public keys only. Two
DS committees with the same sequence of public keys get the same result from
`GetDSCommitteeHash` (same status, same hash), whatever their peers, and a shard whose
members have that sequence of public keys gets that result from `GetShardHash`, whatever
its peers and reputations. -/
theorem committee_hash_keys_only (c : Common) (pm : ProtoMessage ProtoCommittee)
    (sha2 : Bytes → Bytes) (committee committee' : DSCommittee) (shard : Shard)
    (hkeys : committee'.map (fun m => m.1) = committee.map (fun m => m.1))
    (hshard : shard.map (fun n => n.1) = committee.map (fun m => m.1)) :
    GetDSCommitteeHash c pm sha2 committee' = GetDSCommitteeHash c pm sha2 committee
    ∧ GetShardHash c pm sha2 shard = GetDSCommitteeHash c pm sha2 committee := by
  unfold GetDSCommitteeHash GetShardHash
  rw [DSCommitteeToProtoCommittee_keys c committee', DSCommitteeToProtoCommittee_keys c committee,
    ShardToProtoCommittee_keys c shard, hkeys, hshard]
  exact ⟨rfl, rfl⟩

/-- Witness of C33: the committee `[A, B, C, D]`, the same keys with other peers, and a
shard with these keys all hash to 32 bytes 10, the digest of the key bytes 1, 2, 3, 4. -/
theorem committee_hash_keys_only_witness :
    GetDSCommitteeHash Example.common Example.pmCommitteeKeys Example.sha2 Example.committee
      = some (Example.hashOf 10)
    ∧ GetDSCommitteeHash Example.common Example.pmCommitteeKeys Example.sha2
        Example.committeeMoved
      = GetDSCommitteeHash Example.common Example.pmCommitteeKeys Example.sha2 Example.committee
    ∧ GetShardHash Example.common Example.pmCommitteeKeys Example.sha2 Example.shardOfCommittee
      = GetDSCommitteeHash Example.common Example.pmCommitteeKeys Example.sha2
          Example.committee :=
  ⟨by decide,
   (committee_hash_keys_only Example.common Example.pmCommitteeKeys Example.sha2
      Example.committee Example.committeeMoved Example.shardOfCommittee
      (by decide) (by decide)).1,
   (committee_hash_keys_only Example.common Example.pmCommitteeKeys Example.sha2
      Example.committee Example.committeeMoved Example.shardOfCommittee
      (by decide) (by decide)).2⟩

/-! ## `StartFirstTxEpoch` (C35, C38) -/

/-- C35 fails on this input: the node with key 7 is the second member of its two-member
shard and the last Tx block hash selects the leader index 1. After the reception of DS
block 10 the node is the shard leader and its micro-block-sender flag is set, because
the sender loop skips index 0 only; the same holds for `StartFirstTxEpoch` run on the
loaded state directly. -/
theorem StartFirstTxEpoch_leader_is_MBSender :
    (ProcessVCDSBlocksMessage Example.env [1] 0 Example.stateSeven).1 = true
    ∧ (ProcessVCDSBlocksMessage Example.env [1] 0 Example.stateSeven).2.m_consensusLeaderID = 1
    ∧ (ProcessVCDSBlocksMessage Example.env [1] 0 Example.stateSeven).2.m_isPrimary = true
    ∧ (ProcessVCDSBlocksMessage Example.env [1] 0 Example.stateSeven).2.m_isMBSender = true
    ∧ (StartFirstTxEpoch Example.env
        { Example.stateSeven with
          m_myShardMembers := [(⟨6⟩, Example.peerOf 6), (⟨7⟩, Peer.default)]
          m_consensusMyID := 1 }).m_isPrimary = true
    ∧ (StartFirstTxEpoch Example.env
        { Example.stateSeven with
          m_myShardMembers := [(⟨6⟩, Example.peerOf 6), (⟨7⟩, Peer.default)]
          m_consensusMyID := 1 }).m_isMBSender = true := by
  decide

theorem StartFirstTxEpoch_leader (env : NodeEnv) (s : NodeState)
    (hnode : env.LOOKUP_NODE_MODE = false) :
    (StartFirstTxEpoch env s).m_consensusLeaderID
        = lastBlockHash env s % s.m_myShardMembers.length
    ∧ (StartFirstTxEpoch env s).m_myShardMembers = s.m_myShardMembers
    ∧ (StartFirstTxEpoch env s).m_consensusMyID = s.m_consensusMyID := by
  unfold StartFirstTxEpoch
  rw [if_neg (by simp [hnode])]
  by_cases hg : env.BROADCAST_GOSSIP_MODE = true
  · simp only [hg, ↓reduceIte]
    exact ⟨rfl, rfl, rfl⟩
  · simp only [hg, Bool.false_eq_true, ↓reduceIte]
    exact ⟨rfl, rfl, rfl⟩

theorem asShardMember_members (env : NodeEnv) (message : Bytes) (s : NodeState)
    (hnode : env.LOOKUP_NODE_MODE = false)
    (hload : (LoadShardingStructure env s).1 = true) :
    (ProcessVCDSBlocksMessage.asShardMember env message s).1 = true
    ∧ (ProcessVCDSBlocksMessage.asShardMember env message s).2.m_myShardMembers
        = (LoadShardingStructure env s).2.m_myShardMembers
    ∧ (ProcessVCDSBlocksMessage.asShardMember env message s).2.m_consensusMyID
        = (LoadShardingStructure env s).2.m_consensusMyID
    ∧ (ProcessVCDSBlocksMessage.asShardMember env message s).2.m_consensusLeaderID
        = lastBlockHash env (LoadShardingStructure env s).2
          % (LoadShardingStructure env s).2.m_myShardMembers.length := by
  unfold ProcessVCDSBlocksMessage.asShardMember
  dsimp only
  simp only [hload, Bool.not_true, Bool.false_eq_true, ↓reduceIte]
  obtain ⟨t, ht, t1, t2, t3, t4⟩ : ∃ t,
      (if env.BROADCAST_TREEBASED_CLUSTER_MODE = true then
        { (LoadShardingStructure env s).2 with
          calls := (LoadShardingStructure env s).2.calls
            ++ [Call.SendBlockToOtherShardNodes message] }
       else (LoadShardingStructure env s).2) = t
      ∧ t.m_myShardMembers = (LoadShardingStructure env s).2.m_myShardMembers
      ∧ t.m_consensusMyID = (LoadShardingStructure env s).2.m_consensusMyID
      ∧ t.m_currentEpochNum = (LoadShardingStructure env s).2.m_currentEpochNum
      ∧ t.m_txBlockChain = (LoadShardingStructure env s).2.m_txBlockChain := by
    by_cases htree : env.BROADCAST_TREEBASED_CLUSTER_MODE = true
    · exact ⟨_, rfl, by rw [if_pos htree], by rw [if_pos htree], by rw [if_pos htree],
        by rw [if_pos htree]⟩
    · exact ⟨_, rfl, by rw [if_neg htree], by rw [if_neg htree], by rw [if_neg htree],
        by rw [if_neg htree]⟩
  rw [ht]
  have hl : LoadTxnSharingInfo env t
      = { t with
          m_txnSharingIAmSender := LoadTxnSharingInfo.isMine t t.ds_m_shardSenders
          m_txnSharingIAmForwarder := LoadTxnSharingInfo.isMine t t.ds_m_shardReceivers
          m_txnSharingAssignedNodes :=
            t.ds_m_DSReceivers ::
              ((List.range t.ds_m_shardReceivers.length).map (fun i =>
                [t.ds_m_shardReceivers.getD i [], t.ds_m_shardSenders.getD i []])).flatten } := by
    unfold LoadTxnSharingInfo
    rw [if_neg (by simp [hnode])]
  obtain ⟨e1, e2, e3⟩ := StartFirstTxEpoch_leader env (LoadTxnSharingInfo env t) hnode
  refine ⟨trivial, ?_, ?_, ?_⟩
  · rw [e2, hl]; exact t1
  · rw [e3, hl]; exact t2
  · rw [e1, hl]
    show lastBlockHash env _ % t.m_myShardMembers.length = _
    rw [t1]
    unfold lastBlockHash
    show (if t.m_currentEpochNum > 1 then
        env.charArrTo16Bits t.m_txBlockChain.lastBlockHash % UINT16_MOD else 0) % _ = _
    rw [t3, t4]

/-- C38: shard-side indexing is safe after a successful load. Whenever
`LoadShardingStructure` returns true on a non-lookup node, `m_myShardMembers` is
non-empty, has the length and the public keys, in order, of the shard with the received
shard id, `m_consensusMyID` is below that length and its entry has the zeroed `Peer`;
the reception goes on to `StartFirstTxEpoch`, where the divisor of the modulo, the
number of shard members, is not zero, and the computed leader index is below the number
of shard members. -/
theorem shard_indexing_safe (env : NodeEnv) (message : Bytes) (s : NodeState)
    (hnode : env.LOOKUP_NODE_MODE = false)
    (hload : (LoadShardingStructure env s).1 = true) :
    (LoadShardingStructure env s).2.m_myShardMembers ≠ []
    ∧ (LoadShardingStructure env s).2.m_myShardMembers.length
        = (s.ds_m_shards.getD s.m_myshardId []).length
    ∧ (LoadShardingStructure env s).2.m_myShardMembers.map (fun m => m.1)
        = (s.ds_m_shards.getD s.m_myshardId []).map (fun n => n.1)
    ∧ (LoadShardingStructure env s).2.m_consensusMyID
        < (LoadShardingStructure env s).2.m_myShardMembers.length
    ∧ (∃ key, (LoadShardingStructure env s).2.m_myShardMembers[
          (LoadShardingStructure env s).2.m_consensusMyID]? = some (key, Peer.default))
    ∧ (ProcessVCDSBlocksMessage.asShardMember env message s).1 = true
    ∧ (ProcessVCDSBlocksMessage.asShardMember env message s).2.m_myShardMembers
        = (LoadShardingStructure env s).2.m_myShardMembers
    ∧ (ProcessVCDSBlocksMessage.asShardMember env message s).2.m_myShardMembers.length ≠ 0
    ∧ (ProcessVCDSBlocksMessage.asShardMember env message s).2.m_consensusLeaderID
        = lastBlockHash env (LoadShardingStructure env s).2
          % (ProcessVCDSBlocksMessage.asShardMember env message s).2.m_myShardMembers.length
    ∧ (ProcessVCDSBlocksMessage.asShardMember env message s).2.m_consensusLeaderID
        < (ProcessVCDSBlocksMessage.asShardMember env message s).2.m_myShardMembers.length := by
  obtain ⟨a1, a2, -, a4⟩ := asShardMember_members env message s hnode hload
  obtain ⟨hmem, hfound, hidx⟩ := LoadShardingStructure_loop_eq s.m_selfPeer
    (s.ds_m_shards.getD s.m_myshardId []) s.m_consensusMyID
  have hnodeEq := LoadShardingStructure_node env s hnode
  have hid : ¬ s.m_myshardId ≥ s.ds_m_shards.length := by
    intro hid
    rw [hnodeEq, if_pos hid] at hload
    cases hload
  rw [if_neg hid] at hnodeEq
  have hany : (LoadShardingStructure.loop s.m_selfPeer
      (s.ds_m_shards.getD s.m_myshardId []) s.m_consensusMyID).2.2 = true := by
    by_contra hno
    rw [hnodeEq, if_neg hno] at hload
    cases hload
  rw [if_pos hany] at hnodeEq
  have hmembers : (LoadShardingStructure env s).2.m_myShardMembers
      = (s.ds_m_shards.getD s.m_myshardId []).map (memberEntry s.m_selfPeer) := by
    rw [hnodeEq]; exact hmem
  have hmyid : (LoadShardingStructure env s).2.m_consensusMyID
      = (LoadShardingStructure.loop s.m_selfPeer
          (s.ds_m_shards.getD s.m_myshardId []) s.m_consensusMyID).2.1 := by
    rw [hnodeEq]
  rw [hfound] at hany
  obtain ⟨hlt, n, hn, hp⟩ := hidx hany
  have hlen : (LoadShardingStructure env s).2.m_myShardMembers.length
      = (s.ds_m_shards.getD s.m_myshardId []).length := by
    rw [hmembers, List.length_map]
  have hpos : 0 < (LoadShardingStructure env s).2.m_myShardMembers.length := by
    rw [hlen]; omega
  rw [a2]
  refine ⟨List.length_pos.mp hpos, hlen, ?_, ?_, ?_, a1, rfl, by omega, a4, ?_⟩
  · rw [hmembers, List.map_map]
    rfl
  · rw [hmyid, hlen]; exact hlt
  · refine ⟨n.1, ?_⟩
    rw [hmyid, hmembers, List.getElem?_map, hn]
    simp [memberEntry, hp]
  · rw [a4]
    exact Nat.mod_lt _ hpos

/-- Witness of C38: the example node loads the shard `[6, 7]`, finds itself at index 0
with a zeroed peer, and the leader index 514 mod 2 is 0. -/
theorem shard_indexing_safe_witness :
    (LoadShardingStructure Example.env Example.stateReceived).2.m_myShardMembers
      = [(⟨6⟩, Peer.default), (⟨7⟩, Example.peerOf 7)]
    ∧ (LoadShardingStructure Example.env Example.stateReceived).2.m_consensusMyID < 2
    ∧ (ProcessVCDSBlocksMessage.asShardMember Example.env [1]
        Example.stateReceived).2.m_consensusLeaderID < 2 :=
  ⟨by decide,
   ((shard_indexing_safe Example.env [1] Example.stateReceived rfl (by decide)).2.2.2.1).trans_eq
     (by decide),
   ((shard_indexing_safe Example.env [1] Example.stateReceived rfl
     (by decide)).2.2.2.2.2.2.2.2.2).trans_eq (by decide)⟩

/-! ## Rotation order and own index (C36, C37) -/

/-- C36: exact rotation order. The winners of the last DS block being `w_1, ..., w_k` in
the iteration order of the map (ascending keys) with `k` at most the committee size `N`,
the committee after `UpdateDSCommiteeComposition` is `w_k, ..., w_1` followed by the
first `N - k` old members in their old order; every winner entry carries the peer given
in the block, except the entry with the node's own key, which carries the default
`Peer`. -/
theorem rotation_exact_order (s : NodeState)
    (hk : (GetLastBlock s.m_dsBlockChain).m_header.m_PoWDSWinners.length
      ≤ s.m_DSCommittee.length) :
    (UpdateDSCommiteeComposition s).m_DSCommittee
      = (GetLastBlock s.m_dsBlockChain).m_header.m_PoWDSWinners.reverse.map
          (fun w => (w.1, if w.1 = s.m_selfKey.2 then Peer.default else w.2))
        ++ s.m_DSCommittee.take (s.m_DSCommittee.length
            - (GetLastBlock s.m_dsBlockChain).m_header.m_PoWDSWinners.length) := by
  have hloop := rotation_loop s.m_selfKey.2
    (GetLastBlock s.m_dsBlockChain).m_header.m_PoWDSWinners s.m_DSCommittee hk
  have hc : (UpdateDSCommiteeComposition s).m_DSCommittee
      = UpdateDSCommiteeComposition.loop s.m_selfKey.2
          (GetLastBlock s.m_dsBlockChain).m_header.m_PoWDSWinners s.m_DSCommittee := rfl
  rw [hc, hloop, List.map_reverse]
  congr 2
  apply List.map_congr_left
  intro w _
  unfold winnerEntry
  by_cases h : s.m_selfKey.2 = w.1
  · rw [if_pos h, if_pos h.symm, h]
  · rw [if_neg h, if_neg (fun h' => h h'.symm)]

/-- Witness of C36: for the node with key `E`, the committee `[A, B, C, D]` and the
winner `E` become `[E, A, B, C]`, the entry of `E` carrying the default peer. -/
theorem rotation_exact_order_witness :
    (UpdateDSCommiteeComposition (Example.stateWinner 2)).m_DSCommittee
      = [(Example.E, Peer.default), (Example.A, Example.peerOf 1),
         (Example.B, Example.peerOf 2), (Example.C, Example.peerOf 3)] :=
  (rotation_exact_order (Example.stateWinner 2) (by decide)).trans (by decide)

theorem findMe_fold_index (selfPubKey : PubKey) (ws : List (PubKey × Peer)) :
    ∀ (b : Bool) (id i : Nat), i < 2 ^ 32 → ws.length ≤ i + 1 →
      ((ws.foldl (fun (acc : (Bool × Nat) × Nat) newDSMember =>
            (if selfPubKey = newDSMember.1 then (true, acc.2) else acc.1,
             (acc.2 + 2 ^ 32 - 1) % 2 ^ 32)) ((b, id), i)).1 = (b, id)
        ∧ ∀ w ∈ ws, selfPubKey ≠ w.1)
      ∨ ∃ j w, ws[j]? = some w ∧ selfPubKey = w.1
          ∧ (ws.foldl (fun (acc : (Bool × Nat) × Nat) newDSMember =>
              (if selfPubKey = newDSMember.1 then (true, acc.2) else acc.1,
               (acc.2 + 2 ^ 32 - 1) % 2 ^ 32)) ((b, id), i)).1.2 + j = i := by
  induction ws with
  | nil =>
    intro b id i _ _
    exact Or.inl ⟨rfl, by simp⟩
  | cons w rest ih =>
    intro b id i hi hlen
    rw [List.foldl_cons]
    have hi' : (i + 2 ^ 32 - 1) % 2 ^ 32 < 2 ^ 32 := Nat.mod_lt _ (by norm_num)
    have hlen' : rest.length ≤ (i + 2 ^ 32 - 1) % 2 ^ 32 + 1 := by
      simp only [List.length_cons] at hlen
      omega
    have hstep : ∀ j, j < rest.length → (i + 2 ^ 32 - 1) % 2 ^ 32 + 1 = i := by
      intro j hj
      simp only [List.length_cons] at hlen
      omega
    by_cases h : selfPubKey = w.1
    · rw [if_pos h]
      dsimp only
      rcases ih true i ((i + 2 ^ 32 - 1) % 2 ^ 32) hi' hlen' with ⟨hfold, -⟩ | ⟨j, w', hw', hself, hidx⟩
      · refine Or.inr ⟨0, w, by simp, h, ?_⟩
        rw [hfold]
        rfl
      · refine Or.inr ⟨j + 1, w', by simpa using hw', hself, ?_⟩
        have hj : j < rest.length := (List.getElem?_eq_some_iff.mp hw').1
        have := hstep j hj
        omega
    · rw [if_neg h]
      dsimp only
      rcases ih b id ((i + 2 ^ 32 - 1) % 2 ^ 32) hi' hlen' with ⟨hfold, hnone⟩ | ⟨j, w', hw', hself, hidx⟩
      · refine Or.inl ⟨hfold, ?_⟩
        intro x hx
        rcases List.mem_cons.mp hx with rfl | hx
        · exact h
        · exact hnone x hx
      · refine Or.inr ⟨j + 1, w', by simpa using hw', hself, ?_⟩
        have hj : j < rest.length := (List.getElem?_eq_some_iff.mp hw').1
        have := hstep j hj
        omega

theorem findMe_index (selfPubKey : PubKey) (ws : List (PubKey × Peer)) (consensusMyID : Nat)
    (hwin : ∃ w ∈ ws, w.1 = selfPubKey) (h32 : ws.length < 2 ^ 32) :
    ∃ j w, ws[j]? = some w ∧ selfPubKey = w.1
      ∧ (ProcessVCDSBlocksMessage.findMe selfPubKey ws consensusMyID).2 + j + 1 = ws.length := by
  obtain ⟨w0, hw0, hkey⟩ := hwin
  have hpos : 0 < ws.length := List.length_pos_of_mem hw0
  have hi : (ws.length + 2 ^ 32 - 1) % 2 ^ 32 = ws.length - 1 := by omega
  have hfm : ProcessVCDSBlocksMessage.findMe selfPubKey ws consensusMyID
      = (ws.foldl (fun (acc : (Bool × Nat) × Nat) newDSMember =>
            (if selfPubKey = newDSMember.1 then (true, acc.2) else acc.1,
             (acc.2 + 2 ^ 32 - 1) % 2 ^ 32))
          ((false, consensusMyID), (ws.length + 2 ^ 32 - 1) % 2 ^ 32)).1 := rfl
  rw [hfm, hi]
  rcases findMe_fold_index selfPubKey ws false consensusMyID (ws.length - 1) (by omega)
      (by omega) with ⟨-, hnone⟩ | ⟨j, w, hw, hself, hidx⟩
  · exact absurd hkey.symm (hnone w0 hw0)
  · exact ⟨j, w, hw, hself, by omega⟩

theorem stored_committee (env : NodeEnv) (s : NodeState) (dsblock : DSBlock) :
    (ProcessVCDSBlocksMessage.stored env s dsblock).m_DSCommittee
        = UpdateDSCommiteeComposition.loop s.m_selfKey.2 dsblock.m_header.m_PoWDSWinners
            s.m_DSCommittee
    ∧ (ProcessVCDSBlocksMessage.stored env s dsblock).m_selfKey = s.m_selfKey := by
  refine ⟨?_, rfl⟩
  show UpdateDSCommiteeComposition.loop s.m_selfKey.2
      (GetLastBlock (AddBlock s.m_dsBlockChain dsblock)).m_header.m_PoWDSWinners
      s.m_DSCommittee = _
  have : GetLastBlock (AddBlock s.m_dsBlockChain dsblock) = dsblock := by
    simp [GetLastBlock, AddBlock]
  rw [this]

/-- C37: own index matches the rotated committee. On a non-lookup node, if the node's
public key is among the `k` PoW winners of the DS block being accepted, `k` is at most
the committee size (and fits the `unsigned int` index), then in the state
`ProcessVCDSBlocksMessage` leaves, with the committee rotated and `m_consensusMyID`
assigned, `m_consensusMyID` is a position of the committee and the entry at that
position has the node's own public key (and the default peer). -/
theorem own_index_in_rotated_committee (env : NodeEnv) (message : Bytes) (s : NodeState)
    (dsblock : DSBlock) (hnode : env.LOOKUP_NODE_MODE = false)
    (hwin : ∃ w ∈ dsblock.m_header.m_PoWDSWinners, w.1 = s.m_selfKey.2)
    (hk : dsblock.m_header.m_PoWDSWinners.length ≤ s.m_DSCommittee.length)
    (h32 : dsblock.m_header.m_PoWDSWinners.length < 2 ^ 32) :
    (ProcessVCDSBlocksMessage.accept env message s dsblock).2.ds_m_consensusMyID
        < (ProcessVCDSBlocksMessage.accept env message s dsblock).2.m_DSCommittee.length
    ∧ (ProcessVCDSBlocksMessage.accept env message s dsblock).2.m_DSCommittee[
          (ProcessVCDSBlocksMessage.accept env message s dsblock).2.ds_m_consensusMyID]?
        = some (s.m_selfKey.2, Peer.default) := by
  have hacc : ProcessVCDSBlocksMessage.accept env message s dsblock
      = ProcessVCDSBlocksMessage.roleTransition env message
          (ProcessVCDSBlocksMessage.stored env s dsblock) := rfl
  have hme : (ProcessVCDSBlocksMessage.assignDSRole env
      (ProcessVCDSBlocksMessage.stored env s dsblock)).1 = true := by
    rw [assignDSRole_fst, List.any_eq_true]
    obtain ⟨w, hw, hself⟩ := hwin
    exact ⟨w, hw, by simp [hself]⟩
  rw [hacc, roleTransition_node env message _ hnode, if_pos hme]
  obtain ⟨-, -, f2, f3, -, -, -⟩ := asDSMember_frame env
    (ProcessVCDSBlocksMessage.assignDSRole env
      (ProcessVCDSBlocksMessage.stored env s dsblock)).2
  rw [f2, f3]
  obtain ⟨hcom, -⟩ := stored_committee env s dsblock
  have hcom' : (ProcessVCDSBlocksMessage.assignDSRole env
      (ProcessVCDSBlocksMessage.stored env s dsblock)).2.m_DSCommittee
      = (dsblock.m_header.m_PoWDSWinners.map (winnerEntry s.m_selfKey.2)).reverse
        ++ s.m_DSCommittee.take
            (s.m_DSCommittee.length - dsblock.m_header.m_PoWDSWinners.length) := by
    rw [← rotation_loop s.m_selfKey.2 dsblock.m_header.m_PoWDSWinners s.m_DSCommittee hk,
      ← hcom]
    rfl
  have hid : (ProcessVCDSBlocksMessage.assignDSRole env
      (ProcessVCDSBlocksMessage.stored env s dsblock)).2.ds_m_consensusMyID
      = (ProcessVCDSBlocksMessage.findMe s.m_selfKey.2 dsblock.m_header.m_PoWDSWinners
          s.ds_m_consensusMyID).2 := by
    show (ProcessVCDSBlocksMessage.findMe s.m_selfKey.2
        (GetLastBlock (ProcessVCDSBlocksMessage.stored env s
          dsblock).m_dsBlockChain).m_header.m_PoWDSWinners _).2 = _
    rw [stored_lastBlock]
    rfl
  obtain ⟨j, w, hw, hself, hidx⟩ := findMe_index s.m_selfKey.2
    dsblock.m_header.m_PoWDSWinners s.ds_m_consensusMyID hwin h32
  rw [hcom', hid]
  have hj : j < dsblock.m_header.m_PoWDSWinners.length := (List.getElem?_eq_some_iff.mp hw).1
  have hlenr : ((dsblock.m_header.m_PoWDSWinners.map (winnerEntry s.m_selfKey.2)).reverse).length
      = dsblock.m_header.m_PoWDSWinners.length := by simp
  constructor
  · rw [List.length_append, hlenr, List.length_take]
    omega
  · rw [List.getElem?_append_left (by rw [hlenr]; omega),
      List.getElem?_reverse (by rw [List.length_map]; omega), List.length_map,
      List.getElem?_map]
    have hpos : dsblock.m_header.m_PoWDSWinners.length - 1
        - (ProcessVCDSBlocksMessage.findMe s.m_selfKey.2 dsblock.m_header.m_PoWDSWinners
            s.ds_m_consensusMyID).2 = j := by omega
    rw [hpos, hw]
    simp [winnerEntry, hself]

/-- Witness of C37: the node with key `E`, the single winner of DS block 10, gets the
index 0, and the rotated committee has `E` at position 0. -/
theorem own_index_in_rotated_committee_witness :
    (ProcessVCDSBlocksMessage.accept Example.env [1] (Example.stateWinner 2)
        Example.block10).2.ds_m_consensusMyID = 0
    ∧ (ProcessVCDSBlocksMessage.accept Example.env [1] (Example.stateWinner 2)
        Example.block10).2.m_DSCommittee[
          (ProcessVCDSBlocksMessage.accept Example.env [1] (Example.stateWinner 2)
            Example.block10).2.ds_m_consensusMyID]?
        = some (Example.E, Peer.default) :=
  ⟨by decide,
   (own_index_in_rotated_committee Example.env [1] (Example.stateWinner 2) Example.block10 rfl
      ⟨(Example.E, Example.peerOf 5), by decide, rfl⟩ (by decide) (by decide)).2⟩

/-! ## DS blocks from a seed (C39) -/

/-- C39: `GetLookupSetDSBlockFromSeed` returns true for every initialised message whose
list of DS blocks is empty. The block numbers and the key are taken from the message and
the caller's list of DS blocks is left as it was; the verifier and the signature field
play no part in the result. -/
theorem GetLookupSetDSBlockFromSeed_empty (c : Common)
    (pm : ProtoMessage LookupSetDSBlockFromSeed) (pmDSBlock : ProtoMessage ProtoDSBlock)
    (schnorr : Schnorr) (src : Bytes) (offset : Nat) (lookupPubKey : PubKey)
    (dsBlocks : List DSBlock)
    (hinit : pm.IsInitialized (pm.Parse (src.drop offset)) = true)
    (hempty : (pm.Parse (src.drop offset)).dsblocks = []) :
    GetLookupSetDSBlockFromSeed c pm pmDSBlock schnorr src offset lookupPubKey dsBlocks
      = some { lowBlockNum := (pm.Parse (src.drop offset)).lowblocknum.getD 0
               highBlockNum := (pm.Parse (src.drop offset)).highblocknum.getD 0
               lookupPubKey := ProtobufByteArrayToSerializable c.PubKey
                 ((pm.Parse (src.drop offset)).pubkey.getD default) lookupPubKey
               dsBlocks := dsBlocks } := by
  unfold GetLookupSetDSBlockFromSeed
  simp only [hinit, hempty, Bool.not_true, Bool.false_eq_true, ↓reduceIte, List.length_nil,
    gt_iff_lt, lt_self_iff_false, List.map_nil, List.append_nil]

/-- Witness of C39: a message without DS blocks is accepted under a verifier that rejects
every signature, whatever the key byte 8 and the signature byte 9 it carries. -/
theorem GetLookupSetDSBlockFromSeed_empty_witness :
    GetLookupSetDSBlockFromSeed Example.common Example.pmLookupSetDSBlockFromSeed
        Example.pmDSBlockElement Example.schnorrRejectAll [8, 9] 0 PubKey.default []
      = some { lowBlockNum := 3, highBlockNum := 2, lookupPubKey := ⟨8⟩, dsBlocks := [] } :=
  (GetLookupSetDSBlockFromSeed_empty Example.common Example.pmLookupSetDSBlockFromSeed
    Example.pmDSBlockElement Example.schnorrRejectAll [8, 9] 0 PubKey.default []
    (by decide) (by decide)).trans (by decide)

/-! ## The committee hash and header comparison (C40) -/

/-- C40: the committee hash is not part of the comparison of micro block headers. Any two
headers that agree on the thirteen compared fields satisfy `a == b`, and neither `a < b`
nor `a > b`, whatever their committee hashes; this holds in particular for a header and
its copy with another committee hash. -/
theorem committeeHash_not_compared (o : MemberOrders) (h : o.Lawful) (a b : MicroBlockHeader)
    (hagree : a.tie = b.tie) :
    MicroBlockHeader.operatorEq a b = true
    ∧ MicroBlockHeader.operatorLt o a b = false
    ∧ MicroBlockHeader.operatorGt o a b = false
    ∧ ∀ committeeHash : Bytes,
        MicroBlockHeader.operatorEq a { a with m_committeeHash := committeeHash } = true
        ∧ MicroBlockHeader.operatorLt o a { a with m_committeeHash := committeeHash } = false
        ∧ MicroBlockHeader.operatorGt o a { a with m_committeeHash := committeeHash }
          = false := by
  have hirr := (tieLess_strictTotal o h).irrefl
  have key : ∀ x y : MicroBlockHeader, x.tie = y.tie →
      MicroBlockHeader.operatorEq x y = true
      ∧ MicroBlockHeader.operatorLt o x y = false
      ∧ MicroBlockHeader.operatorGt o x y = false := by
    intro x y hxy
    refine ⟨?_, ?_, ?_⟩
    · unfold MicroBlockHeader.operatorEq
      rw [tieEq_iff]
      exact hxy
    · unfold MicroBlockHeader.operatorLt MicroBlockHeader.tieGreater
      rw [hxy]
      exact hirr _
    · unfold MicroBlockHeader.operatorGt MicroBlockHeader.operatorLt MicroBlockHeader.tieGreater
      rw [hxy]
      exact hirr _
  exact ⟨(key a b hagree).1, (key a b hagree).2.1, (key a b hagree).2.2,
    fun committeeHash => key a _ rfl⟩

/-- Witness of C40: the example header and its copy with the committee hash of bytes 99
differ, compare equal and are not ordered. -/
theorem committeeHash_not_compared_witness :
    Example.microHeader ≠ Example.microHeaderOtherCommittee
    ∧ MicroBlockHeader.operatorEq Example.microHeader Example.microHeaderOtherCommittee = true
    ∧ MicroBlockHeader.operatorLt Example.memberOrders Example.microHeader
        Example.microHeaderOtherCommittee = false
    ∧ MicroBlockHeader.operatorGt Example.memberOrders Example.microHeader
        Example.microHeaderOtherCommittee = false :=
  ⟨by decide,
   (committeeHash_not_compared Example.memberOrders Example.memberOrders_lawful
      Example.microHeader Example.microHeaderOtherCommittee rfl).1,
   (committeeHash_not_compared Example.memberOrders Example.memberOrders_lawful
      Example.microHeader Example.microHeaderOtherCommittee rfl).2.1,
   (committeeHash_not_compared Example.memberOrders Example.memberOrders_lawful
      Example.microHeader Example.microHeaderOtherCommittee rfl).2.2.1⟩

/-! ## Storing only after the checks (C3) -/

end Zilliqa
